import Mathlib

/-!
Verification of mapbox-go-sdk: request validation, query building and transport.

A shallow embedding of the Go sources (the root package `mapbox` and the packages
`geocoding`, `searchbox`, `internal/http`) and the properties proved about them.

Conventions of the embedding:
* a Go `error` result is `Option GoError` (`none` is `nil`);
* a pointer field (`*int`, `*bool`, `*float64`, `*NavigationOptions`) is an `Option`;
* a slice is a `List`; `int` is `Int`;
* `url.Values` is an association list from keys to value lists;
* calls into Go's standard library whose code is not part of the repository
  (`strconv.FormatFloat`, the `%f` verb, `encoding/json`, `net/url`, the HTTP engine)
  are parameters of the definitions that use them.
-/

set_option autoImplicit false

namespace Mapbox

/-! ## Go values -/

/-- Go error values: `errors.New` / `fmt.Errorf` without `%w` give an `errorString`,
`fmt.Errorf` with one `%w` gives a `wrapError`, `errorResponse` is the transport's
`*ErrorResponse`, and `apiError` is the root package's `*Error`. An error variable made
by `errors.New` is identified by its text. -/
inductive GoError where
  | errorString (s : String)
  | wrapError (msg : String) (err : GoError)
  | errorResponse (StatusCode : Int) (Message : String) (Code : String)
  | apiError (StatusCode : Int) (Message : String) (Code : String)
deriving DecidableEq, Repr

/-- Decimal rendering of a Go `int` (`strconv.Itoa`, the `%d` verb). -/
def Itoa (i : Int) : String := toString i

/-- The method `Error()` of an error value. -/
def GoError.Error : GoError → String
  | .errorString s => s
  | .wrapError msg _ => msg
  | .errorResponse st m c =>
      if c ≠ "" then "HTTP " ++ Itoa st ++ ": " ++ m ++ " (" ++ c ++ ")"
      else "HTTP " ++ Itoa st ++ ": " ++ m
  | .apiError _ m c =>
      if c ≠ "" then "mapbox: " ++ m ++ " (" ++ c ++ ")"
      else "mapbox: " ++ m

/-- The method `Unwrap()`: the error a `%w` wrapped, if any. -/
def GoError.Unwrap : GoError → Option GoError
  | .wrapError _ err => some err
  | _ => none

/-- Go's `errors.Is(err, target)`: some error of the `Unwrap` chain of `err` equals
`target`. -/
def errors.Is : GoError → GoError → Bool
  | .wrapError msg err, target => decide (GoError.wrapError msg err = target) || errors.Is err target
  | err, target => decide (err = target)

/-- Go's `float64`: NaN, the two infinities, and the finite values
`(-1)^neg * mant * 2^exp` (every finite IEEE-754 double is of this form; the sign is kept
so that `-0` and `+0` stay distinct values). -/
inductive Float64 where
  | nan
  | inf (neg : Bool)
  | fin (neg : Bool) (mant : Nat) (exp : Int)
deriving DecidableEq, Repr

namespace Float64

/-- The integer `(-1)^neg * mant * 2^(exp - k)`, for `k ≤ exp`. -/
def scaled (neg : Bool) (mant : Nat) (exp k : Int) : Int :=
  (if neg then -1 else 1) * (mant : Int) * 2 ^ (exp - k).toNat

/-- Go's `a < b` on `float64`: false as soon as an operand is NaN. -/
def lt : Float64 → Float64 → Bool
  | nan, _ => false
  | _, nan => false
  | inf n, inf n' => n && !n'
  | inf n, fin _ _ _ => n
  | fin _ _ _, inf n => !n
  | fin s m e, fin s' m' e' =>
      decide (scaled s m e (min e e') < scaled s' m' e' (min e e'))

/-- Go's `a > b`. -/
def gt (a b : Float64) : Bool := lt b a

/-- Go's `a <= b` on `float64`: false as soon as an operand is NaN. -/
def le : Float64 → Float64 → Bool
  | nan, _ => false
  | _, nan => false
  | inf n, inf n' => n || !n'
  | inf n, fin _ _ _ => n
  | fin _ _ _, inf n => !n
  | fin s m e, fin s' m' e' =>
      decide (scaled s m e (min e e') ≤ scaled s' m' e' (min e e'))

/-- The `float64` of an integer constant such as `-180`. -/
def ofInt (i : Int) : Float64 := fin (decide (i < 0)) i.natAbs 0

end Float64

/-- The formatting routines of Go's standard library that the SDK calls:
`strconv.FormatFloat(f, fmt, prec, bitSize)` and the `%f` verb of package `fmt`. -/
structure Strconv where
  FormatFloat : Float64 → Char → Int → Int → String
  verbF : Float64 → String

/-- Go's `strconv.FormatBool`. -/
def FormatBool (b : Bool) : String := if b then "true" else "false"

/-- Go's `strings.Join(elems, sep)`. -/
def Join : List String → String → String
  | [], _ => ""
  | [a], _ => a
  | a :: b :: rest, sep => a ++ sep ++ Join (b :: rest) sep

/-- The bytes of a Go string: its UTF-8 encoding. `len(s)` is the length of this list and
`s[i:j]` a segment of it. -/
def goBytes (s : String) : List Nat :=
  s.data.flatMap fun c => (String.utf8EncodeChar c).map UInt8.toNat

/-! ## A concrete `Strconv` -/

/-- Left-pads a decimal string with zeros to `width` characters. -/
def padZeros (width : Nat) (s : String) : String :=
  String.mk (List.replicate (width - s.length) '0') ++ s

/-- The decimal text of `n / 10^prec` with exactly `prec` digits after the point
(no point when `prec = 0`). -/
def fixedText (n prec : Nat) : String :=
  if prec = 0 then toString n
  else toString (n / 10 ^ prec) ++ "." ++ padZeros prec (toString (n % 10 ^ prec))

/-- Nearest integer to `num / den`, ties to even. -/
def roundHalfEven (num den : Nat) : Nat :=
  let q := num / den
  let r := num % den
  if 2 * r > den ∨ (2 * r = den ∧ q % 2 = 1) then q + 1 else q

/-- Format `'f'` with a fixed number `prec` of digits after the point: the exact value
`mant * 2^exp` rounded to the nearest multiple of `10^-prec`, ties to even. -/
def formatFixed (neg : Bool) (mant : Nat) (exp : Int) (prec : Nat) : String :=
  let n := if 0 ≤ exp then mant * 2 ^ exp.toNat * 10 ^ prec
    else roundHalfEven (mant * 10 ^ prec) (2 ^ (-exp).toNat)
  (if neg then "-" else "") ++ fixedText n prec

/-- Number of binary digits of `n` (`fuel` bounds the number of halvings). -/
def bitLen : Nat → Nat → Nat
  | 0, _ => 0
  | fuel + 1, n => if n = 0 then 0 else bitLen fuel (n / 2) + 1

/-- The binary64 form of `mant * 2^exp`: mantissa below `2^53` and exponent of the last
place, at least `-1074`. A value that is no binary64 is left as it is. -/
def normalize (mant : Nat) (exp : Int) : Nat × Int :=
  let top := exp + bitLen mant mant - 53
  let ulp := if top ≤ -1074 then -1074 else top
  if ulp ≤ exp then (mant * 2 ^ (exp - ulp).toNat, ulp)
  else if mant % 2 ^ (ulp - exp).toNat = 0 then (mant / 2 ^ (ulp - exp).toNat, ulp)
  else (mant, exp)

/-- Searches the exponents `p, p-1, ...` for the first one at which a multiple of `10^p`
parses back to the value: `lo`, `v`, `hi` are the lower end of the rounding interval, the
value and the upper end, all multiplied by `2^k`; `incl` tells whether the ends belong to
the interval. Returns the digits `d` and the exponent, the result being `d * 10^p`. -/
def shortestFrom (lo v hi : Nat) (k : Nat) (incl : Bool) : Nat → Int → Option (Nat × Int)
  | 0, _ => none
  | fuel + 1, p =>
    let a := 10 ^ p.toNat * 2 ^ k
    let b := 10 ^ (-p).toNat
    let dlo := if incl then (lo * b + a - 1) / a else lo * b / a + 1
    let dhi := if incl then hi * b / a else (hi * b + a - 1) / a - 1
    if dlo ≤ dhi then
      let d := roundHalfEven (v * b) a
      some (if d < dlo then dlo else if dhi < d then dhi else d, p)
    else shortestFrom lo v hi k incl fuel (p - 1)

/-- Format `'f'` with precision `-1`: the fewest digits that parse back to the same
binary64, nearest to the value. -/
def formatShortest (neg : Bool) (mant : Nat) (exp : Int) : String :=
  let sign := if neg then "-" else ""
  if mant = 0 then sign ++ "0"
  else
    let (m, e) := normalize mant exp
    let k := (2 - e).toNat
    let s := (e + k).toNat
    let v := m * 2 ^ s
    let lo := v - (if m = 2 ^ 52 ∧ -1074 < e then 2 ^ (s - 2) else 2 ^ (s - 1))
    let hi := v + 2 ^ (s - 1)
    let p0 : Int := (toString (hi / 2 ^ k + 1)).length
    match shortestFrom lo v hi k (m % 2 = 0) (p0.toNat + 1100) p0 with
    | some (d, p) =>
      if 0 ≤ p then sign ++ toString (d * 10 ^ p.toNat) else sign ++ fixedText d (-p).toNat
    | none => sign ++ "?"

/-- The formatting routines as Go documents them, used to evaluate examples:
`strconv.FormatFloat` with format byte `'f'` gives `NaN`, `+Inf`, `-Inf`, the shortest
digits for a negative precision and a fixed number of digits otherwise; the `%f` verb is
format `'f'` with precision 6. -/
def goStrconv : Strconv where
  FormatFloat f _fmt prec _bitSize :=
    match f with
    | .nan => "NaN"
    | .inf neg => if neg then "-Inf" else "+Inf"
    | .fin neg mant exp =>
      if prec < 0 then formatShortest neg mant exp else formatFixed neg mant exp prec.toNat
  verbF f :=
    match f with
    | .nan => "NaN"
    | .inf neg => if neg then "-Inf" else "+Inf"
    | .fin neg mant exp => formatFixed neg mant exp 6

/-! ## Package `mapbox`: `errors.go` -/

/-- The error variable `ErrInvalidToken`. -/
def ErrInvalidToken : GoError := .errorString "mapbox: invalid or missing access token"

/-- The error variable `ErrRateLimitExceeded`. -/
def ErrRateLimitExceeded : GoError := .errorString "mapbox: rate limit exceeded"

/-- The error variable `ErrInvalidRequest`. -/
def ErrInvalidRequest : GoError := .errorString "mapbox: invalid request"

/-- The error variable `ErrNotFound`. -/
def ErrNotFound : GoError := .errorString "mapbox: resource not found"

/-- The error variable `ErrServerError`. -/
def ErrServerError : GoError := .errorString "mapbox: server error"

/-- The function `mapStatusCodeToError`: the `switch` on the status code. -/
def mapStatusCodeToError (statusCode : Int) (message : String) : GoError :=
  if statusCode = 401 ∨ statusCode = 403 then
    .wrapError (ErrInvalidToken.Error ++ ": " ++ message) ErrInvalidToken
  else if statusCode = 404 then
    .wrapError (ErrNotFound.Error ++ ": " ++ message) ErrNotFound
  else if statusCode = 422 then
    .wrapError (ErrInvalidRequest.Error ++ ": " ++ message) ErrInvalidRequest
  else if statusCode = 429 then
    .wrapError (ErrRateLimitExceeded.Error ++ ": " ++ message) ErrRateLimitExceeded
  else if statusCode = 500 ∨ statusCode = 502 ∨ statusCode = 503 ∨ statusCode = 504 then
    .wrapError (ErrServerError.Error ++ ": " ++ message) ErrServerError
  else
    .apiError statusCode message ""

/-! ## `url.Values` -/

/-- Go's `url.Values` (`map[string][]string`). -/
abbrev Values := List (String × List String)

namespace Values

/-- The entry `v[key]` of the map, `none` when the key is absent. -/
def lookup (q : Values) (key : String) : Option (List String) :=
  match q with
  | [] => none
  | (k, vs) :: rest => if k = key then some vs else lookup rest key

/-- The method `Set(key, value)`: the key now holds exactly `[value]`. -/
def Set (q : Values) (key value : String) : Values :=
  match q with
  | [] => [(key, [value])]
  | (k, vs) :: rest => if k = key then (k, [value]) :: rest else (k, vs) :: Set rest key value

/-- The method `Get(key)`: the first value of the key, `""` when there is none. -/
def Get (q : Values) (key : String) : String :=
  match lookup q key with
  | some (v :: _) => v
  | _ => ""

/-- The method `Has(key)`. -/
def Has (q : Values) (key : String) : Bool := (lookup q key).isSome

end Values

/-! ## Package `internal/http` -/

namespace http

/-- The request handed to the HTTP engine. `URL` is `baseURL + path` as parsed, `Query`
the values whose encoding was stored in `RawQuery` (`none` when `RawQuery` was left
untouched), `Body` the JSON bytes of the body (`none` when there is no body). -/
structure Request where
  Method : String
  URL : String
  Query : Option Values
  Body : Option String
  Header : Values
deriving DecidableEq, Repr

/-- The engine's response: status code, status line text, and what reading the whole
body (`io.ReadAll`) gives. -/
structure Response where
  StatusCode : Int
  Status : String
  Body : Except GoError String

/-- The standard-library calls of the transport: `url.Parse` and
`http.NewRequestWithContext` (only their failure matters), `json.Marshal` on bodies of
type `β`, `json.Unmarshal` into a target of type `ρ` (the target is passed in and the
target afterwards is returned), and `json.Unmarshal` into the error envelope
`{message, code}`. -/
structure Stdlib (β ρ : Type) where
  urlParse : String → Option GoError
  NewRequest : String → String → Option GoError
  Marshal : β → Except GoError String
  Unmarshal : String → ρ → Option GoError × ρ
  UnmarshalEnvelope : String → Except GoError (String × String)

/-- The transport `Client`: base URL and HTTP engine (`(*http.Client).Do`). -/
structure Client where
  baseURL : String
  httpClient : Request → Except GoError Response

/-- The method `ErrorResponse.Error()`. -/
def ErrorResponse.Error (StatusCode : Int) (Message Code : String) : String :=
  (GoError.errorResponse StatusCode Message Code).Error

/-- The method `Client.Do`: build the request and run it on the engine. -/
def Client.Do {β ρ : Type} (std : Stdlib β ρ) (c : Client) (method path : String)
    (query : Option Values) (body : Option β) : Except GoError Response :=
  match std.urlParse (c.baseURL ++ path) with
  | some err => .error (.wrapError ("failed to parse URL: " ++ err.Error) err)
  | none =>
    let rawQuery := query
    let bodyReader : Except GoError (Option String) :=
      match body with
      | none => .ok none
      | some b =>
        match std.Marshal b with
        | .error err => .error (.wrapError ("failed to marshal request body: " ++ err.Error) err)
        | .ok data => .ok (some data)
    match bodyReader with
    | .error e => .error e
    | .ok bodyReader =>
      match std.NewRequest method (c.baseURL ++ path) with
      | some err => .error (.wrapError ("failed to create request: " ++ err.Error) err)
      | none =>
        let header : Values := []
        let header := if body.isSome then header.Set "Content-Type" "application/json" else header
        let header := header.Set "Accept" "application/json"
        let header := header.Set "User-Agent" "github.com/pettinz/mapbox-go-sdk-go"
        match c.httpClient ⟨method, c.baseURL ++ path, rawQuery, bodyReader, header⟩ with
        | .error err => .error (.wrapError ("failed to execute request: " ++ err.Error) err)
        | .ok resp => .ok resp

/-- The method `Client.handleResponse`: the returned error (if any) and the target afterwards
(`result = none` is a nil target). -/
def Client.handleResponse {β ρ : Type} (std : Stdlib β ρ) (_c : Client) (resp : Response)
    (result : Option ρ) : Option GoError × Option ρ :=
  match resp.Body with
  | .error err => (some (.wrapError ("failed to read response body: " ++ err.Error) err), result)
  | .ok body =>
    if resp.StatusCode < 200 ∨ resp.StatusCode ≥ 300 then
      match std.UnmarshalEnvelope body with
      | .ok (Message, Code) =>
        if Message ≠ "" then (some (.errorResponse resp.StatusCode Message Code), result)
        else (some (.errorResponse resp.StatusCode resp.Status ""), result)
      | .error _ => (some (.errorResponse resp.StatusCode resp.Status ""), result)
    else
      match result with
      | some target =>
        match std.Unmarshal body target with
        | (some err, target) =>
          (some (.wrapError ("failed to unmarshal response: " ++ err.Error) err), some target)
        | (none, target) => (none, some target)
      | none => (none, none)

/-- The method `Client.Get`: a GET with the given query and no body. -/
def Client.Get {β ρ : Type} (std : Stdlib β ρ) (c : Client) (path : String)
    (query : Option Values) (result : Option ρ) : Option GoError × Option ρ :=
  match c.Do std "GET" path query none with
  | .error err => (some err, result)
  | .ok resp => c.handleResponse std resp result

/-- The method `Client.Post`: a POST with the given body and a nil query. -/
def Client.Post {β ρ : Type} (std : Stdlib β ρ) (c : Client) (path : String)
    (body : Option β) (result : Option ρ) : Option GoError × Option ρ :=
  match c.Do std "POST" path none body with
  | .error err => (some err, result)
  | .ok resp => c.handleResponse std resp result

/-- The function `New` of package `internal/http`: a nil engine is replaced by
`http.DefaultClient`, which is the first argument here. -/
def New (DefaultClient : Request → Except GoError Response) (baseURL : String)
    (httpClient : Option (Request → Except GoError Response)) : Client :=
  let httpClient := match httpClient with
    | none => DefaultClient
    | some h => h
  ⟨baseURL, httpClient⟩

end http

/-! ## Package `geocoding` -/

namespace geocoding

/-- The API paths of package `geocoding`. -/
def forwardPath : String := "/search/geocode/v6/forward"
def reversePath : String := "/search/geocode/v6/reverse"
def batchPath : String := "/search/geocode/v6/batch"

/-- The largest number of queries in one batch. -/
def maxBatchQueries : Int := 1000

/-- The `Service` of package `geocoding`: access token and transport. -/
structure Service where
  token : String
  httpClient : http.Client

/-- The type `ForwardRequest` of package `geocoding`. -/
structure ForwardRequest where
  Query : String := ""
  Autocomplete : Option Bool := none
  BBox : List Float64 := []
  Country : List String := []
  Language : String := ""
  Limit : Option Int := none
  Proximity : List Float64 := []
  Types : List String := []
  Worldview : String := ""

/-- The type `StructuredForwardRequest`: a forward request by address components. -/
structure StructuredForwardRequest where
  AddressNumber : String := ""
  Street : String := ""
  Block : String := ""
  Place : String := ""
  Region : String := ""
  Postcode : String := ""
  Country : String := ""
  Autocomplete : Option Bool := none
  BBox : List Float64 := []
  Language : String := ""
  Limit : Option Int := none
  Proximity : List Float64 := []
  Worldview : String := ""

/-- The type `ReverseRequest` of package `geocoding`. -/
structure ReverseRequest where
  Longitude : Float64 := Float64.fin false 0 0
  Latitude : Float64 := Float64.fin false 0 0
  Country : List String := []
  Language : String := ""
  Limit : Option Int := none
  Types : List String := []
  Worldview : String := ""

/-- The type `BatchQuery`: one entry of a batch request. -/
structure BatchQuery where
  ID : String := ""
  Query : String := ""
  Longitude : Option Float64 := none
  Latitude : Option Float64 := none
  Country : List String := []
  Language : String := ""
  Limit : Option Int := none
  Types : List String := []

/-- The type `BatchRequest`: the ordered queries of a batch. -/
structure BatchRequest where
  Queries : List BatchQuery := []

/-- The body of a batch request, Go's `map[string]any` literal with its keys. -/
abbrev BatchBody := List (String × List BatchQuery)

/-- The function `validateCoordinates`: range check on a longitude and a latitude. -/
def validateCoordinates (std : Strconv) (longitude latitude : Float64) : Option GoError :=
  if longitude.lt (Float64.ofInt (-180)) || longitude.gt (Float64.ofInt 180) then
    some (.errorString ("longitude must be between -180 and 180, got " ++ std.verbF longitude))
  else if latitude.lt (Float64.ofInt (-90)) || latitude.gt (Float64.ofInt 90) then
    some (.errorString ("latitude must be between -90 and 90, got " ++ std.verbF latitude))
  else none

/-- The function `validateBatchQuery`: a batch entry is forward-style or reverse-style, not both. -/
def validateBatchQuery (std : Strconv) (query : BatchQuery) (index : Int) : Option GoError :=
  let isForward := query.Query ≠ ""
  let isReverse := query.Longitude.isSome && query.Latitude.isSome
  if ¬ isForward ∧ ¬ isReverse then
    some (.errorString ("query at index " ++ Itoa index ++
      ": must specify either 'q' (forward) or 'longitude'+'latitude' (reverse)"))
  else if isForward ∧ isReverse then
    some (.errorString ("query at index " ++ Itoa index ++
      ": cannot specify both 'q' and 'longitude'+'latitude'"))
  else
    match query.Longitude, query.Latitude with
    | some lon, some lat =>
      match validateCoordinates std lon lat with
      | some err => some (.wrapError ("query at index " ++ Itoa index ++ ": " ++ err.Error) err)
      | none => none
    | _, _ => none

/-- The method `Service.Batch`: size check, per-query validation in index order, then the POST.
`zero` is the zero value of the response type. -/
def Service.Batch {ρ : Type} (std : Strconv) (net : http.Stdlib BatchBody ρ) (zero : ρ)
    (s : Service) (req : BatchRequest) : Except GoError ρ :=
  if req.Queries.length = 0 then
    .error (.errorString "at least one query is required")
  else if (req.Queries.length : Int) > maxBatchQueries then
    .error (.errorString ("maximum " ++ Itoa maxBatchQueries ++ " queries allowed, got " ++
      Itoa req.Queries.length))
  else
    match req.Queries.enum.findSome? (fun iq => validateBatchQuery std iq.2 iq.1) with
    | some err => .error err
    | none =>
      let query : Values := []
      let _query := query.Set "access_token" s.token
      let body : BatchBody := [("queries", req.Queries)]
      match s.httpClient.Post net batchPath (some body) (some zero) with
      | (some err, _) => .error (.wrapError ("batch geocoding failed: " ++ err.Error) err)
      | (none, result) => .ok (result.getD zero)

/-- The function `formatFloatArray` of package `geocoding`: the loop fills `parts[i]`, then joins. -/
def formatFloatArray (std : Strconv) (arr : List Float64) : String :=
  let parts : List String := List.replicate arr.length ""
  let parts := arr.enum.foldl (fun parts iv => parts.set iv.1 (std.FormatFloat iv.2 'f' (-1) 64)) parts
  Join parts ","

/-- The method `Service.buildForwardQuery`. -/
def Service.buildForwardQuery (std : Strconv) (s : Service) (req : ForwardRequest) : Values :=
  let q : Values := []
  let q := q.Set "access_token" s.token
  let q := q.Set "q" req.Query
  let q := match req.Autocomplete with
    | some b => q.Set "autocomplete" (FormatBool b)
    | none => q
  let q := if req.BBox.length = 4 then q.Set "bbox" (formatFloatArray std req.BBox) else q
  let q := if req.Country.length > 0 then q.Set "country" (Join req.Country ",") else q
  let q := if req.Language ≠ "" then q.Set "language" req.Language else q
  let q := match req.Limit with
    | some l => q.Set "limit" (Itoa l)
    | none => q
  let q := if req.Proximity.length = 2 then q.Set "proximity" (formatFloatArray std req.Proximity) else q
  let q := if req.Types.length > 0 then q.Set "types" (Join req.Types ",") else q
  let q := if req.Worldview ≠ "" then q.Set "worldview" req.Worldview else q
  q

/-- The method `Service.buildStructuredForwardQuery`. -/
def Service.buildStructuredForwardQuery (std : Strconv) (s : Service)
    (req : StructuredForwardRequest) : Values :=
  let q : Values := []
  let q := q.Set "access_token" s.token
  let q := if req.AddressNumber ≠ "" then q.Set "address_number" req.AddressNumber else q
  let q := if req.Street ≠ "" then q.Set "street" req.Street else q
  let q := if req.Block ≠ "" then q.Set "block" req.Block else q
  let q := if req.Place ≠ "" then q.Set "place" req.Place else q
  let q := if req.Region ≠ "" then q.Set "region" req.Region else q
  let q := if req.Postcode ≠ "" then q.Set "postcode" req.Postcode else q
  let q := if req.Country ≠ "" then q.Set "country" req.Country else q
  let q := match req.Autocomplete with
    | some b => q.Set "autocomplete" (FormatBool b)
    | none => q
  let q := if req.BBox.length = 4 then q.Set "bbox" (formatFloatArray std req.BBox) else q
  let q := if req.Language ≠ "" then q.Set "language" req.Language else q
  let q := match req.Limit with
    | some l => q.Set "limit" (Itoa l)
    | none => q
  let q := if req.Proximity.length = 2 then q.Set "proximity" (formatFloatArray std req.Proximity) else q
  let q := if req.Worldview ≠ "" then q.Set "worldview" req.Worldview else q
  q

/-- The method `Service.buildReverseQuery`. -/
def Service.buildReverseQuery (std : Strconv) (s : Service) (req : ReverseRequest) : Values :=
  let q : Values := []
  let q := q.Set "access_token" s.token
  let q := q.Set "longitude" (std.FormatFloat req.Longitude 'f' (-1) 64)
  let q := q.Set "latitude" (std.FormatFloat req.Latitude 'f' (-1) 64)
  let q := if req.Country.length > 0 then q.Set "country" (Join req.Country ",") else q
  let q := if req.Language ≠ "" then q.Set "language" req.Language else q
  let q := match req.Limit with
    | some l => q.Set "limit" (Itoa l)
    | none => q
  let q := if req.Types.length > 0 then q.Set "types" (Join req.Types ",") else q
  let q := if req.Worldview ≠ "" then q.Set "worldview" req.Worldview else q
  q

/-- The function `New` of package `geocoding`. -/
def New (token : String) (httpClient : http.Client) : Service :=
  { token := token, httpClient := httpClient }

/-- The method `Service.Forward` of package `geocoding`: the query must not be empty; then
the GET. `zero` is the zero value of the response type. -/
def Service.Forward {β ρ : Type} (std : Strconv) (net : http.Stdlib β ρ) (zero : ρ)
    (s : Service) (req : ForwardRequest) : Except GoError ρ :=
  if req.Query = "" then .error (.errorString "query is required")
  else
    let query := s.buildForwardQuery std req
    match s.httpClient.Get net forwardPath (some query) (some zero) with
    | (some err, _) => .error (.wrapError ("forward geocoding failed: " ++ err.Error) err)
    | (none, result) => .ok (result.getD zero)

/-- The method `Service.ForwardStructured`: at least one address component; then the GET. -/
def Service.ForwardStructured {β ρ : Type} (std : Strconv) (net : http.Stdlib β ρ) (zero : ρ)
    (s : Service) (req : StructuredForwardRequest) : Except GoError ρ :=
  if req.AddressNumber = "" ∧ req.Street = "" ∧ req.Block = "" ∧
      req.Place = "" ∧ req.Region = "" ∧ req.Postcode = "" ∧ req.Country = "" then
    .error (.errorString "at least one address component is required")
  else
    let query := s.buildStructuredForwardQuery std req
    match s.httpClient.Get net forwardPath (some query) (some zero) with
    | (some err, _) =>
      .error (.wrapError ("structured forward geocoding failed: " ++ err.Error) err)
    | (none, result) => .ok (result.getD zero)

/-- The method `Service.Reverse` of package `geocoding`: coordinate check; then the GET. -/
def Service.Reverse {β ρ : Type} (std : Strconv) (net : http.Stdlib β ρ) (zero : ρ)
    (s : Service) (req : ReverseRequest) : Except GoError ρ :=
  match validateCoordinates std req.Longitude req.Latitude with
  | some err => .error err
  | none =>
    let query := s.buildReverseQuery std req
    match s.httpClient.Get net reversePath (some query) (some zero) with
    | (some err, _) => .error (.wrapError ("reverse geocoding failed: " ++ err.Error) err)
    | (none, result) => .ok (result.getD zero)

end geocoding

/-! ## Package `searchbox` -/

namespace searchbox

/-- The API paths of package `searchbox`. -/
def suggestPath : String := "/search/searchbox/v1/suggest"
def retrievePath : String := "/search/searchbox/v1/retrieve"
def forwardPath : String := "/search/searchbox/v1/forward"
def categorySearchPath : String := "/search/searchbox/v1/category"
def listCategoriesPath : String := "/search/searchbox/v1/category"
def reversePath : String := "/search/searchbox/v1/reverse"

/-- The `Service` of package `searchbox`: access token and transport. -/
structure Service where
  token : String
  httpClient : http.Client

/-- The type `NavigationOptions`. -/
structure NavigationOptions where
  ETAType : String := ""
  Origin : List Float64 := []
  Profile : String := ""

/-- The type `SAROptions` (Search Along Route); the field `Type` is written `Type_`. -/
structure SAROptions where
  Type_ : String := ""
  Route : List (List Float64) := []
  TimeDeviation : Option Int := none

/-- The type `SuggestRequest`. -/
structure SuggestRequest where
  Query : String := ""
  SessionToken : String := ""
  Proximity : List Float64 := []
  ProximityIP : Bool := false
  BBox : List Float64 := []
  Country : List String := []
  Language : String := ""
  Limit : Option Int := none
  Types : List String := []
  POICategory : List String := []
  Navigation : Option NavigationOptions := none

/-- The type `RetrieveRequest`. -/
structure RetrieveRequest where
  MapboxID : String := ""
  SessionToken : String := ""
  Navigation : Option NavigationOptions := none

/-- The type `ForwardRequest` of package `searchbox`. -/
structure ForwardRequest where
  Query : String := ""
  Autocomplete : Option Bool := none
  Proximity : List Float64 := []
  ProximityIP : Bool := false
  BBox : List Float64 := []
  Country : List String := []
  Language : String := ""
  Limit : Option Int := none
  Types : List String := []
  POICategory : List String := []
  Navigation : Option NavigationOptions := none

/-- The type `CategorySearchRequest`. -/
structure CategorySearchRequest where
  CategoryID : String := ""
  Proximity : List Float64 := []
  ProximityIP : Bool := false
  BBox : List Float64 := []
  Country : List String := []
  Language : String := ""
  Limit : Option Int := none
  Navigation : Option NavigationOptions := none
  SAR : Option SAROptions := none

/-- The type `ListCategoriesRequest`. -/
structure ListCategoriesRequest where
  Language : String := ""

/-- The type `ReverseRequest` of package `searchbox`. -/
structure ReverseRequest where
  Longitude : Float64 := Float64.fin false 0 0
  Latitude : Float64 := Float64.fin false 0 0
  Country : List String := []
  Language : String := ""
  Limit : Option Int := none
  Types : List String := []

/-- The function `formatFloatArray` of package `searchbox`: the loop fills `parts[i]`, then joins. -/
def formatFloatArray (std : Strconv) (arr : List Float64) : String :=
  let parts : List String := List.replicate arr.length ""
  let parts := arr.enum.foldl (fun parts iv => parts.set iv.1 (std.FormatFloat iv.2 'f' (-1) 64)) parts
  Join parts ","

/-- The function `encodeRoute`: `parts[i]` is written only for a point with at least two elements. -/
def encodeRoute (std : Strconv) (route : List (List Float64)) : String :=
  let parts : List String := List.replicate route.length ""
  let parts := route.enum.foldl (fun parts ic =>
    match ic.2 with
    | c0 :: c1 :: _ => parts.set ic.1 (std.verbF c0 ++ "," ++ std.verbF c1)
    | _ => parts) parts
  Join parts ";"

/-- The function `addNavigationParams`, returning the map it has updated. -/
def addNavigationParams (std : Strconv) (q : Values) (nav : NavigationOptions) : Values :=
  let q := if nav.ETAType ≠ "" then q.Set "eta_type" nav.ETAType else q
  let q := if nav.Origin.length = 2 then q.Set "origin" (formatFloatArray std nav.Origin) else q
  let q := if nav.Profile ≠ "" then q.Set "navigation_profile" nav.Profile else q
  q

/-- The function `addSARParams`, returning the map it has updated. -/
def addSARParams (std : Strconv) (q : Values) (sar : SAROptions) : Values :=
  let q := if sar.Type_ ≠ "" then q.Set "sar_type" sar.Type_ else q
  let q := if sar.Route.length > 0 then q.Set "route" (encodeRoute std sar.Route) else q
  let q := match sar.TimeDeviation with
    | some t => q.Set "time_deviation" (Itoa t)
    | none => q
  q

/-- The method `Service.buildSuggestQuery`. -/
def Service.buildSuggestQuery (std : Strconv) (s : Service) (req : SuggestRequest) : Values :=
  let q : Values := []
  let q := q.Set "access_token" s.token
  let q := q.Set "q" req.Query
  let q := q.Set "session_token" req.SessionToken
  let q := if req.ProximityIP then q.Set "proximity" "ip"
    else if req.Proximity.length = 2 then q.Set "proximity" (formatFloatArray std req.Proximity)
    else q
  let q := if req.BBox.length = 4 then q.Set "bbox" (formatFloatArray std req.BBox) else q
  let q := if req.Country.length > 0 then q.Set "country" (Join req.Country ",") else q
  let q := if req.Language ≠ "" then q.Set "language" req.Language else q
  let q := match req.Limit with
    | some l => q.Set "limit" (Itoa l)
    | none => q
  let q := if req.Types.length > 0 then q.Set "types" (Join req.Types ",") else q
  let q := if req.POICategory.length > 0 then q.Set "poi_category" (Join req.POICategory ",") else q
  let q := match req.Navigation with
    | some nav => addNavigationParams std q nav
    | none => q
  q

/-- The method `Service.buildRetrieveQuery`. -/
def Service.buildRetrieveQuery (std : Strconv) (s : Service) (req : RetrieveRequest) : Values :=
  let q : Values := []
  let q := q.Set "access_token" s.token
  let q := q.Set "session_token" req.SessionToken
  let q := match req.Navigation with
    | some nav => addNavigationParams std q nav
    | none => q
  q

/-- The method `Service.buildForwardQuery` of package `searchbox`. -/
def Service.buildForwardQuery (std : Strconv) (s : Service) (req : ForwardRequest) : Values :=
  let q : Values := []
  let q := q.Set "access_token" s.token
  let q := q.Set "q" req.Query
  let q := match req.Autocomplete with
    | some b => q.Set "autocomplete" (FormatBool b)
    | none => q
  let q := if req.ProximityIP then q.Set "proximity" "ip"
    else if req.Proximity.length = 2 then q.Set "proximity" (formatFloatArray std req.Proximity)
    else q
  let q := if req.BBox.length = 4 then q.Set "bbox" (formatFloatArray std req.BBox) else q
  let q := if req.Country.length > 0 then q.Set "country" (Join req.Country ",") else q
  let q := if req.Language ≠ "" then q.Set "language" req.Language else q
  let q := match req.Limit with
    | some l => q.Set "limit" (Itoa l)
    | none => q
  let q := if req.Types.length > 0 then q.Set "types" (Join req.Types ",") else q
  let q := if req.POICategory.length > 0 then q.Set "poi_category" (Join req.POICategory ",") else q
  let q := match req.Navigation with
    | some nav => addNavigationParams std q nav
    | none => q
  q

/-- The method `Service.buildCategorySearchQuery`. -/
def Service.buildCategorySearchQuery (std : Strconv) (s : Service)
    (req : CategorySearchRequest) : Values :=
  let q : Values := []
  let q := q.Set "access_token" s.token
  let q := if req.ProximityIP then q.Set "proximity" "ip"
    else if req.Proximity.length = 2 then q.Set "proximity" (formatFloatArray std req.Proximity)
    else q
  let q := if req.BBox.length = 4 then q.Set "bbox" (formatFloatArray std req.BBox) else q
  let q := if req.Country.length > 0 then q.Set "country" (Join req.Country ",") else q
  let q := if req.Language ≠ "" then q.Set "language" req.Language else q
  let q := match req.Limit with
    | some l => q.Set "limit" (Itoa l)
    | none => q
  let q := match req.Navigation with
    | some nav => addNavigationParams std q nav
    | none => q
  let q := match req.SAR with
    | some sar => addSARParams std q sar
    | none => q
  q

/-- The method `Service.buildListCategoriesQuery`. -/
def Service.buildListCategoriesQuery (s : Service) (req : ListCategoriesRequest) : Values :=
  let q : Values := []
  let q := q.Set "access_token" s.token
  let q := if req.Language ≠ "" then q.Set "language" req.Language else q
  q

/-- The method `Service.buildReverseQuery` of package `searchbox`. -/
def Service.buildReverseQuery (std : Strconv) (s : Service) (req : ReverseRequest) : Values :=
  let q : Values := []
  let q := q.Set "access_token" s.token
  let q := q.Set "longitude" (std.FormatFloat req.Longitude 'f' (-1) 64)
  let q := q.Set "latitude" (std.FormatFloat req.Latitude 'f' (-1) 64)
  let q := if req.Country.length > 0 then q.Set "country" (Join req.Country ",") else q
  let q := if req.Language ≠ "" then q.Set "language" req.Language else q
  let q := match req.Limit with
    | some l => q.Set "limit" (Itoa l)
    | none => q
  let q := if req.Types.length > 0 then q.Set "types" (Join req.Types ",") else q
  q

/-- The function `validateSuggestRequest`; `len(req.Query)` is the number of bytes of the
query. -/
def validateSuggestRequest (req : SuggestRequest) : Option GoError :=
  if req.Query = "" then some (.errorString "query is required")
  else if req.Query.utf8ByteSize > 256 then
    some (.errorString "query exceeds maximum length of 256 characters")
  else if req.SessionToken = "" then some (.errorString "session_token is required")
  else
    match req.Limit with
    | some limit =>
      if limit < 1 ∨ limit > 10 then some (.errorString "limit must be between 1 and 10")
      else none
    | none => none

/-- The function `validateCategorySearchRequest`. -/
def validateCategorySearchRequest (req : CategorySearchRequest) : Option GoError :=
  if req.CategoryID = "" then some (.errorString "category_id is required")
  else
    let hasProximity := req.ProximityIP || decide (req.Proximity.length = 2)
    let hasBBox := decide (req.BBox.length = 4)
    let hasSAR := match req.SAR with
      | some sar => decide (sar.Route.length > 0)
      | none => false
    if !hasProximity && !hasBBox && !hasSAR then
      some (.errorString "either proximity, bbox, or SAR is required")
    else
      match req.Limit with
      | some limit =>
        if limit < 1 ∨ limit > 25 then some (.errorString "limit must be between 1 and 25")
        else none
      | none => none

/-- The function `validateForwardRequest`; `len(req.Query)` is the number of bytes of the
query. -/
def validateForwardRequest (req : ForwardRequest) : Option GoError :=
  if req.Query = "" then some (.errorString "query is required")
  else if req.Query.utf8ByteSize > 256 then
    some (.errorString "query exceeds maximum length of 256 characters")
  else
    match req.Limit with
    | some limit =>
      if limit < 1 ∨ limit > 10 then some (.errorString "limit must be between 1 and 10")
      else none
    | none => none

/-- The `%x` verb of package `fmt` on a byte slice: two lower-case hexadecimal digits
per byte. -/
def verbx (bs : List Nat) : String :=
  String.mk (bs.flatMap fun b => [Nat.digitChar (b / 16), Nat.digitChar (b % 16)])

/-- The function `NewSessionToken`. The argument is what `rand.Read` did to the 16-byte
buffer: the bytes it now holds, or the error; an `error` result is the panic with its
message. -/
def NewSessionToken (read : Except GoError (List Nat)) : Except String String :=
  match read with
  | .error err => .error ("failed to generate session token: " ++ err.Error)
  | .ok b =>
    let b := b.set 6 ((b.getD 6 0 &&& 0x0f) ||| 0x40)
    let b := b.set 8 ((b.getD 8 0 &&& 0x3f) ||| 0x80)
    .ok (verbx (b.take 4) ++ "-" ++ verbx ((b.drop 4).take 2) ++ "-" ++
      verbx ((b.drop 6).take 2) ++ "-" ++ verbx ((b.drop 8).take 2) ++ "-" ++
      verbx (b.drop 10))

/-- The function `New` of package `searchbox`. -/
def New (token : String) (httpClient : http.Client) : Service :=
  { token := token, httpClient := httpClient }

/-- The function `validateRetrieveRequest`. -/
def validateRetrieveRequest (req : RetrieveRequest) : Option GoError :=
  if req.MapboxID = "" then some (.errorString "mapbox_id is required")
  else if req.SessionToken = "" then some (.errorString "session_token is required")
  else none

/-- The function `validateReverseRequest`. -/
def validateReverseRequest (req : ReverseRequest) : Option GoError :=
  if req.Longitude.lt (Float64.ofInt (-180)) || req.Longitude.gt (Float64.ofInt 180) then
    some (.errorString "longitude must be between -180 and 180")
  else if req.Latitude.lt (Float64.ofInt (-90)) || req.Latitude.gt (Float64.ofInt 90) then
    some (.errorString "latitude must be between -90 and 90")
  else
    match req.Limit with
    | some limit =>
      if limit < 1 ∨ limit > 10 then some (.errorString "limit must be between 1 and 10")
      else none
    | none => none

/-- The method `Service.Suggest`: validation; then the GET. `zero` is the zero value of
the response type. -/
def Service.Suggest {β ρ : Type} (std : Strconv) (net : http.Stdlib β ρ) (zero : ρ)
    (s : Service) (req : SuggestRequest) : Except GoError ρ :=
  match validateSuggestRequest req with
  | some err => .error err
  | none =>
    let query := s.buildSuggestQuery std req
    match s.httpClient.Get net suggestPath (some query) (some zero) with
    | (some err, _) => .error (.wrapError ("suggest search failed: " ++ err.Error) err)
    | (none, result) => .ok (result.getD zero)

/-- The method `Service.Retrieve`: validation; then the GET on the path that ends in the
feature id. -/
def Service.Retrieve {β ρ : Type} (std : Strconv) (net : http.Stdlib β ρ) (zero : ρ)
    (s : Service) (req : RetrieveRequest) : Except GoError ρ :=
  match validateRetrieveRequest req with
  | some err => .error err
  | none =>
    let path := retrievePath ++ "/" ++ req.MapboxID
    let query := s.buildRetrieveQuery std req
    match s.httpClient.Get net path (some query) (some zero) with
    | (some err, _) => .error (.wrapError ("retrieve feature failed: " ++ err.Error) err)
    | (none, result) => .ok (result.getD zero)

/-- The method `Service.Forward` of package `searchbox`: validation; then the GET. -/
def Service.Forward {β ρ : Type} (std : Strconv) (net : http.Stdlib β ρ) (zero : ρ)
    (s : Service) (req : ForwardRequest) : Except GoError ρ :=
  match validateForwardRequest req with
  | some err => .error err
  | none =>
    let query := s.buildForwardQuery std req
    match s.httpClient.Get net forwardPath (some query) (some zero) with
    | (some err, _) => .error (.wrapError ("forward search failed: " ++ err.Error) err)
    | (none, result) => .ok (result.getD zero)

/-- The method `Service.CategorySearch`: validation; then the GET on the path that ends
in the category id. -/
def Service.CategorySearch {β ρ : Type} (std : Strconv) (net : http.Stdlib β ρ) (zero : ρ)
    (s : Service) (req : CategorySearchRequest) : Except GoError ρ :=
  match validateCategorySearchRequest req with
  | some err => .error err
  | none =>
    let path := categorySearchPath ++ "/" ++ req.CategoryID
    let query := s.buildCategorySearchQuery std req
    match s.httpClient.Get net path (some query) (some zero) with
    | (some err, _) => .error (.wrapError ("category search failed: " ++ err.Error) err)
    | (none, result) => .ok (result.getD zero)

/-- The method `Service.ListCategories`: no validation, the GET. -/
def Service.ListCategories {β ρ : Type} (net : http.Stdlib β ρ) (zero : ρ)
    (s : Service) (req : ListCategoriesRequest) : Except GoError ρ :=
  let query := s.buildListCategoriesQuery req
  match s.httpClient.Get net listCategoriesPath (some query) (some zero) with
  | (some err, _) => .error (.wrapError ("list categories failed: " ++ err.Error) err)
  | (none, result) => .ok (result.getD zero)

/-- The method `Service.Reverse` of package `searchbox`: validation; then the GET. -/
def Service.Reverse {β ρ : Type} (std : Strconv) (net : http.Stdlib β ρ) (zero : ρ)
    (s : Service) (req : ReverseRequest) : Except GoError ρ :=
  match validateReverseRequest req with
  | some err => .error err
  | none =>
    let query := s.buildReverseQuery std req
    match s.httpClient.Get net reversePath (some query) (some zero) with
    | (some err, _) => .error (.wrapError ("reverse geocoding failed: " ++ err.Error) err)
    | (none, result) => .ok (result.getD zero)

end searchbox

/-! ## Package `mapbox`: `client.go`, `options.go` -/

/-- The default base URL of the Mapbox API. -/
def DefaultBaseURL : String := "https://api.mapbox.com"

/-- The root `Client`: token, base URL, the engine pointer `httpClient` (`none` is a nil
pointer) and the transport `http` (`none` until `NewClient` has created it). -/
structure Client where
  token : String
  baseURL : String
  httpClient : Option (http.Request → Except GoError http.Response)
  http : Option http.Client

/-- The type `Option` of the root package, a function that updates the client (named
`ClientOption` here, `Option` being taken). An `error` result is a panic of the function,
with its message. A value of type `Option` can also be nil: where such values are passed,
`none` is the nil function. -/
abbrev ClientOption := Client → Except String Client

/-- The option `WithHTTPClient`. -/
def WithHTTPClient (httpClient : Option (http.Request → Except GoError http.Response)) :
    ClientOption :=
  fun c => .ok { c with httpClient := httpClient }

/-- The option `WithBaseURL`. -/
def WithBaseURL (baseURL : String) : ClientOption :=
  fun c => .ok { c with baseURL := baseURL }

/-- The function `NewClient`. `DefaultClient` is `http.DefaultClient`; an `error` result is
the panic with its message: the panic of the empty token, the run-time panic of calling a
nil option, or the panic of an option. -/
def NewClient (DefaultClient : http.Request → Except GoError http.Response) (token : String)
    (opts : List (Option ClientOption)) : Except String Client :=
  if token = "" then .error "mapbox: access token is required"
  else
    let c : Client :=
      { token := token, baseURL := DefaultBaseURL, httpClient := some DefaultClient,
        http := none }
    let applied : Except String Client := opts.foldlM (fun c opt =>
      match opt with
      | none => .error "runtime error: invalid memory address or nil pointer dereference"
      | some f => f c) c
    match applied with
    | .error msg => .error msg
    | .ok c => .ok { c with http := some (http.New DefaultClient c.baseURL c.httpClient) }

/-- The method `Client.Token`, as the bytes of the string it returns. -/
def Client.Token (c : Client) : List Nat :=
  if (goBytes c.token).length ≤ 8 then goBytes "****"
  else (goBytes c.token).take 4 ++ goBytes "..." ++
    (goBytes c.token).drop ((goBytes c.token).length - 4)

/-- The method `Client.BaseURL`. -/
def Client.BaseURL (c : Client) : String := c.baseURL

/-- The method `Client.HTTPClient`. -/
def Client.HTTPClient (c : Client) : Option (http.Request → Except GoError http.Response) :=
  c.httpClient

/-- The method `Client.Geocoding`: the geocoding service on the client's token and
transport. `none` stands for the service whose transport pointer is nil, which a client
made by `NewClient` never gives. -/
def Client.Geocoding (c : Client) : Option geocoding.Service :=
  match c.http with
  | some h => some (geocoding.New c.token h)
  | none => none

/-- The method `Client.SearchBox`: the search-box service on the client's token and
transport, with `none` as for `Client.Geocoding`. -/
def Client.SearchBox (c : Client) : Option searchbox.Service :=
  match c.http with
  | some h => some (searchbox.New c.token h)
  | none => none

/-! ## Package `mapbox`: `types.go` -/

/-- The type `Point`, a GeoJSON point; the field `Type` is written `Type_`. -/
structure Point where
  Type_ : String := ""
  Coordinates : List Float64 := []
deriving DecidableEq, Repr

/-- The function `NewPoint`. -/
def NewPoint (longitude latitude : Float64) : Point :=
  { Type_ := "Point", Coordinates := [longitude, latitude] }

/-- The method `Point.Longitude`. The index expression `p.Coordinates[0]` panics when the
index is out of range; an `error` result is that panic. -/
def Point.Longitude (p : Point) : Except String Float64 :=
  if p.Coordinates.length ≥ 1 then
    match p.Coordinates[0]? with
    | some v => .ok v
    | none => .error "index out of range [0]"
  else .ok (Float64.ofInt 0)

/-- The method `Point.Latitude`, with the panic of `p.Coordinates[1]` as for
`Point.Longitude`. -/
def Point.Latitude (p : Point) : Except String Float64 :=
  if p.Coordinates.length ≥ 2 then
    match p.Coordinates[1]? with
    | some v => .ok v
    | none => .error "index out of range [1]"
  else .ok (Float64.ofInt 0)

/-! ## Option lists -/

/-- A call of one of the two option constructors of the root package, with its
argument. -/
inductive OptionCall where
  | WithHTTPClient (httpClient : Option (http.Request → Except GoError http.Response))
  | WithBaseURL (baseURL : String)

/-- The option a call stands for. -/
def OptionCall.toOption : OptionCall → ClientOption
  | .WithHTTPClient httpClient => Mapbox.WithHTTPClient httpClient
  | .WithBaseURL baseURL => Mapbox.WithBaseURL baseURL

/-- The argument of the last `WithBaseURL` of a list of calls, if there is one. -/
def lastBaseURL : List OptionCall → Option String
  | [] => none
  | .WithBaseURL baseURL :: rest => (lastBaseURL rest).orElse fun _ => some baseURL
  | .WithHTTPClient _ :: rest => lastBaseURL rest

/-- The argument of the last `WithHTTPClient` of a list of calls, if there is one. -/
def lastHTTPClient :
    List OptionCall → Option (Option (http.Request → Except GoError http.Response))
  | [] => none
  | .WithHTTPClient httpClient :: rest =>
    (lastHTTPClient rest).orElse fun _ => some httpClient
  | .WithBaseURL _ :: rest => lastHTTPClient rest

/-! ## The endpoint methods with the transport as an effect -/

/-- The transport as an endpoint method sees it: the operations `Get` and `Post` of
`*internalhttp.Client`, as actions of a monad `m` in which calling the transport is an
effect. -/
structure traced.Transport (m : Type → Type) (β ρ : Type) where
  Get : String → Option Values → Option ρ → m (Option GoError × Option ρ)
  Post : String → Option β → Option ρ → m (Option GoError × Option ρ)

/-- The transport of a client, without effect: its `Get` and `Post`. -/
def traced.Transport.ofClient {β ρ : Type} (net : http.Stdlib β ρ) (c : http.Client) :
    traced.Transport Id β ρ where
  Get := fun path query result => c.Get net path query result
  Post := fun path body result => c.Post net path body result

/-- The transport of a client, recording each call: the state is the list of the calls
made so far, each with its method and path. -/
def traced.Transport.recording {β ρ : Type} (net : http.Stdlib β ρ) (c : http.Client) :
    traced.Transport (StateM (List (String × String))) β ρ where
  Get := fun path query result => fun log =>
    (c.Get net path query result, log ++ [("GET", path)])
  Post := fun path body result => fun log =>
    (c.Post net path body result, log ++ [("POST", path)])

/-- The method `Service.Forward` of package `geocoding`, on the transport `t` in place of
`s.httpClient`. -/
def traced.geocoding.Service.Forward {m : Type → Type} [Monad m] {β ρ : Type} (std : Strconv)
    (t : traced.Transport m β ρ) (zero : ρ) (s : geocoding.Service)
    (req : geocoding.ForwardRequest) : m (Except GoError ρ) :=
  if req.Query = "" then pure (.error (.errorString "query is required"))
  else do
    let query := s.buildForwardQuery std req
    let out ← t.Get geocoding.forwardPath (some query) (some zero)
    match out with
    | (some err, _) => pure (.error (.wrapError ("forward geocoding failed: " ++ err.Error) err))
    | (none, result) => pure (.ok (result.getD zero))

/-- The method `Service.ForwardStructured`, on the transport `t` in place of
`s.httpClient`. -/
def traced.geocoding.Service.ForwardStructured {m : Type → Type} [Monad m] {β ρ : Type}
    (std : Strconv) (t : traced.Transport m β ρ) (zero : ρ) (s : geocoding.Service)
    (req : geocoding.StructuredForwardRequest) : m (Except GoError ρ) :=
  if req.AddressNumber = "" ∧ req.Street = "" ∧ req.Block = "" ∧
      req.Place = "" ∧ req.Region = "" ∧ req.Postcode = "" ∧ req.Country = "" then
    pure (.error (.errorString "at least one address component is required"))
  else do
    let query := s.buildStructuredForwardQuery std req
    let out ← t.Get geocoding.forwardPath (some query) (some zero)
    match out with
    | (some err, _) =>
      pure (.error (.wrapError ("structured forward geocoding failed: " ++ err.Error) err))
    | (none, result) => pure (.ok (result.getD zero))

/-- The method `Service.Reverse` of package `geocoding`, on the transport `t` in place of
`s.httpClient`. -/
def traced.geocoding.Service.Reverse {m : Type → Type} [Monad m] {β ρ : Type} (std : Strconv)
    (t : traced.Transport m β ρ) (zero : ρ) (s : geocoding.Service)
    (req : geocoding.ReverseRequest) : m (Except GoError ρ) :=
  match geocoding.validateCoordinates std req.Longitude req.Latitude with
  | some err => pure (.error err)
  | none => do
    let query := s.buildReverseQuery std req
    let out ← t.Get geocoding.reversePath (some query) (some zero)
    match out with
    | (some err, _) => pure (.error (.wrapError ("reverse geocoding failed: " ++ err.Error) err))
    | (none, result) => pure (.ok (result.getD zero))

/-- The method `Service.Batch`, on the transport `t` in place of `s.httpClient`. -/
def traced.geocoding.Service.Batch {m : Type → Type} [Monad m] {ρ : Type} (std : Strconv)
    (t : traced.Transport m geocoding.BatchBody ρ) (zero : ρ) (s : geocoding.Service)
    (req : geocoding.BatchRequest) : m (Except GoError ρ) :=
  if req.Queries.length = 0 then
    pure (.error (.errorString "at least one query is required"))
  else if (req.Queries.length : Int) > geocoding.maxBatchQueries then
    pure (.error (.errorString ("maximum " ++ Itoa geocoding.maxBatchQueries ++
      " queries allowed, got " ++ Itoa req.Queries.length)))
  else
    match req.Queries.enum.findSome? (fun iq => geocoding.validateBatchQuery std iq.2 iq.1) with
    | some err => pure (.error err)
    | none => do
      let query : Values := []
      let _query := query.Set "access_token" s.token
      let body : geocoding.BatchBody := [("queries", req.Queries)]
      let out ← t.Post geocoding.batchPath (some body) (some zero)
      match out with
      | (some err, _) => pure (.error (.wrapError ("batch geocoding failed: " ++ err.Error) err))
      | (none, result) => pure (.ok (result.getD zero))

/-- The method `Service.Suggest`, on the transport `t` in place of `s.httpClient`. -/
def traced.searchbox.Service.Suggest {m : Type → Type} [Monad m] {β ρ : Type} (std : Strconv)
    (t : traced.Transport m β ρ) (zero : ρ) (s : searchbox.Service)
    (req : searchbox.SuggestRequest) : m (Except GoError ρ) :=
  match searchbox.validateSuggestRequest req with
  | some err => pure (.error err)
  | none => do
    let query := s.buildSuggestQuery std req
    let out ← t.Get searchbox.suggestPath (some query) (some zero)
    match out with
    | (some err, _) => pure (.error (.wrapError ("suggest search failed: " ++ err.Error) err))
    | (none, result) => pure (.ok (result.getD zero))

/-- The method `Service.Retrieve`, on the transport `t` in place of `s.httpClient`. -/
def traced.searchbox.Service.Retrieve {m : Type → Type} [Monad m] {β ρ : Type} (std : Strconv)
    (t : traced.Transport m β ρ) (zero : ρ) (s : searchbox.Service)
    (req : searchbox.RetrieveRequest) : m (Except GoError ρ) :=
  match searchbox.validateRetrieveRequest req with
  | some err => pure (.error err)
  | none => do
    let path := searchbox.retrievePath ++ "/" ++ req.MapboxID
    let query := s.buildRetrieveQuery std req
    let out ← t.Get path (some query) (some zero)
    match out with
    | (some err, _) => pure (.error (.wrapError ("retrieve feature failed: " ++ err.Error) err))
    | (none, result) => pure (.ok (result.getD zero))

/-- The method `Service.Forward` of package `searchbox`, on the transport `t` in place of
`s.httpClient`. -/
def traced.searchbox.Service.Forward {m : Type → Type} [Monad m] {β ρ : Type} (std : Strconv)
    (t : traced.Transport m β ρ) (zero : ρ) (s : searchbox.Service)
    (req : searchbox.ForwardRequest) : m (Except GoError ρ) :=
  match searchbox.validateForwardRequest req with
  | some err => pure (.error err)
  | none => do
    let query := s.buildForwardQuery std req
    let out ← t.Get searchbox.forwardPath (some query) (some zero)
    match out with
    | (some err, _) => pure (.error (.wrapError ("forward search failed: " ++ err.Error) err))
    | (none, result) => pure (.ok (result.getD zero))

/-- The method `Service.CategorySearch`, on the transport `t` in place of
`s.httpClient`. -/
def traced.searchbox.Service.CategorySearch {m : Type → Type} [Monad m] {β ρ : Type}
    (std : Strconv) (t : traced.Transport m β ρ) (zero : ρ) (s : searchbox.Service)
    (req : searchbox.CategorySearchRequest) : m (Except GoError ρ) :=
  match searchbox.validateCategorySearchRequest req with
  | some err => pure (.error err)
  | none => do
    let path := searchbox.categorySearchPath ++ "/" ++ req.CategoryID
    let query := s.buildCategorySearchQuery std req
    let out ← t.Get path (some query) (some zero)
    match out with
    | (some err, _) => pure (.error (.wrapError ("category search failed: " ++ err.Error) err))
    | (none, result) => pure (.ok (result.getD zero))

/-- The method `Service.Reverse` of package `searchbox`, on the transport `t` in place of
`s.httpClient`. -/
def traced.searchbox.Service.Reverse {m : Type → Type} [Monad m] {β ρ : Type} (std : Strconv)
    (t : traced.Transport m β ρ) (zero : ρ) (s : searchbox.Service)
    (req : searchbox.ReverseRequest) : m (Except GoError ρ) :=
  match searchbox.validateReverseRequest req with
  | some err => pure (.error err)
  | none => do
    let query := s.buildReverseQuery std req
    let out ← t.Get searchbox.reversePath (some query) (some zero)
    match out with
    | (some err, _) => pure (.error (.wrapError ("reverse geocoding failed: " ++ err.Error) err))
    | (none, result) => pure (.ok (result.getD zero))

/-! ## Sample values -/

/-- The `float64` nearest to 180.0001. -/
def f180_0001 : Float64 := .fin false 6333190494426969 (-45)

/-- The `float64` nearest to -180.0001. -/
def fNeg180_0001 : Float64 := .fin true 6333190494426969 (-45)

/-- The `float64` nearest to 90.0001. -/
def f90_0001 : Float64 := .fin false 3166597006432089 (-45)

/-- The `float64` nearest to -90.0001. -/
def fNeg90_0001 : Float64 := .fin true 3166597006432089 (-45)

/-- The `float64` -122.5. -/
def fNeg122_5 : Float64 := .fin true 245 (-1)

/-- The `float64` nearest to 37.7. -/
def f37_7 : Float64 := .fin false 2652901655497933 (-46)

/-- The `float64` nearest to -122.3. -/
def fNeg122_3 : Float64 := .fin true 8606097412928307 (-46)

/-- The `float64` nearest to 37.8. -/
def f37_8 : Float64 := .fin false 2659938529915699 (-46)

/-- The `float64` nearest to -122.4. -/
def fNeg122_4 : Float64 := .fin true 4306567143673037 (-45)

/-- Whether a finite value, written with a 53-bit mantissa, lies within half a unit in
the last place of the decimal `num / den`: it is then the `float64` a Go constant
`num / den` denotes. -/
def nearestTo (f : Float64) (num den : Nat) : Bool :=
  match f with
  | .fin _ mant exp =>
    decide (2 ^ 52 ≤ (normalize mant exp).1 ∧ (normalize mant exp).1 < 2 ^ 53 ∧
      2 * (((normalize mant exp).1 * den : Int) -
        num * 2 ^ (-(normalize mant exp).2).toNat).natAbs ≤ den)
  | _ => false

/-- A reverse-style batch query whose longitude is out of range. -/
def badPairQuery : geocoding.BatchQuery :=
  { Longitude := some (Float64.ofInt 200), Latitude := some (Float64.ofInt 0) }

/-- An engine that answers 200 and reports in the body which `access_token` the query of
the request carried. -/
def echoTokenEngine : http.Request → Except GoError http.Response :=
  fun r => .ok ⟨200, "200 OK", .ok (match r.Query with
    | some q => "access_token=" ++ q.Get "access_token"
    | none => "no query")⟩

/-- Standard-library behaviour for the examples: nothing fails, and decoding a response
stores the body text in the target. -/
def sampleNet : http.Stdlib geocoding.BatchBody String where
  urlParse := fun _ => none
  NewRequest := fun _ _ => none
  Marshal := fun _ => .ok "json"
  Unmarshal := fun body _ => (none, body)
  UnmarshalEnvelope := fun _ => .error (.errorString "no envelope")

/-- A geocoding service with token `test-token` on the echoing engine. -/
def sampleService : geocoding.Service :=
  ⟨"test-token", ⟨"https://api.mapbox.com", echoTokenEngine⟩⟩

/-- A valid forward-style batch query. -/
def testQuery : geocoding.BatchQuery := { Query := "test" }

/-- A search-box service with token `test-token` on the echoing engine. -/
def sampleSearchService : searchbox.Service :=
  ⟨"test-token", ⟨"https://api.mapbox.com", echoTokenEngine⟩⟩

/-- A query of 86 three-byte characters: 86 characters, 258 bytes. -/
def longQuery : String := String.mk (List.replicate 86 '東')

/-- Standard-library behaviour for the transport examples: the text `not json` fails to
decode, any other body decodes to itself, and as an error envelope to the message
`invalid token` with code `TOKEN_INVALID`. -/
def sampleCodec : http.Stdlib geocoding.BatchBody String where
  urlParse := fun _ => none
  NewRequest := fun _ _ => none
  Marshal := fun _ => .ok "json"
  Unmarshal := fun body target =>
    if body = "not json" then (some (.errorString "invalid character"), target)
    else (none, body)
  UnmarshalEnvelope := fun body =>
    if body = "not json" then .error (.errorString "invalid character")
    else .ok ("invalid token", "TOKEN_INVALID")

/-- A transport whose engine answers every request with status 401 and an error
envelope. -/
def unauthorizedClient : http.Client :=
  ⟨"https://api.mapbox.com", fun _ => .ok ⟨401, "401 Unauthorized", .ok "envelope"⟩⟩

/-- The request a GET of `url` with the parameters `query` is expected to be: method GET,
the parameters as query, no body, and the headers `Accept` and `User-Agent`. -/
def expectedGet (url : String) (query : Values) : http.Request :=
  { Method := "GET", URL := url, Query := some query, Body := none,
    Header := [("Accept", ["application/json"]),
      ("User-Agent", ["github.com/pettinz/mapbox-go-sdk-go"])] }

/-- The request a POST of the JSON text `data` to `url` is expected to be: method POST, no
query, the text as body, and the headers `Content-Type`, `Accept` and `User-Agent`. -/
def expectedPost (url : String) (data : String) : http.Request :=
  { Method := "POST", URL := url, Query := none, Body := some data,
    Header := [("Content-Type", ["application/json"]), ("Accept", ["application/json"]),
      ("User-Agent", ["github.com/pettinz/mapbox-go-sdk-go"])] }

/-- An engine that answers 200 and reports in the body the method, the URL, the `limit`
parameter and the body of the request it received. -/
def echoEngine : http.Request → Except GoError http.Response :=
  fun r => .ok ⟨200, "200 OK", .ok (r.Method ++ " " ++ r.URL ++ " limit=" ++
    (match r.Query with
      | some q => q.Get "limit"
      | none => "") ++ " body=" ++ r.Body.getD "")⟩

/-- An engine that fails on every request with the error `connection refused`. -/
def refusingEngine : http.Request → Except GoError http.Response :=
  fun _ => .error (.errorString "connection refused")

/-- A geocoding service with token `test-token` on the engine `echoEngine`. -/
def echoService : geocoding.Service :=
  ⟨"test-token", ⟨"https://api.mapbox.com", echoEngine⟩⟩

/-- A search-box service with token `test-token` on the engine `echoEngine`. -/
def echoSearchService : searchbox.Service :=
  ⟨"test-token", ⟨"https://api.mapbox.com", echoEngine⟩⟩

/-- A root client that holds the given token, with the default base URL. -/
def clientWithToken (token : String) : Client :=
  { token := token, baseURL := DefaultBaseURL, httpClient := none, http := none }

/-- A geocoding service with token `test-token` on the engine `refusingEngine`. -/
def refusedService : geocoding.Service :=
  ⟨"test-token", ⟨"https://api.mapbox.com", refusingEngine⟩⟩

/-- A search-box service with token `test-token` on the engine `refusingEngine`. -/
def refusedSearchService : searchbox.Service :=
  ⟨"test-token", ⟨"https://api.mapbox.com", refusingEngine⟩⟩

/-- A batch query with nothing set. -/
def emptyQuery : geocoding.BatchQuery := {}

/-- A forward-style batch query that also carries a longitude of 999 and no latitude. -/
def loneLongitudeQuery : geocoding.BatchQuery :=
  { Query := "Roma", Longitude := some (Float64.ofInt 999) }

/-- An option that panics with the message `boom` when it is called. -/
def panickingOption : ClientOption := fun _ => .error "boom"

/-! ## Basic facts -/

open Float64

/-- The sample values are the doubles nearest to the decimal constants they stand for. -/
theorem sample_values_nearest :
    nearestTo f180_0001 1800001 10000 = true ∧ nearestTo fNeg180_0001 1800001 10000 = true ∧
    nearestTo f90_0001 900001 10000 = true ∧ nearestTo fNeg90_0001 900001 10000 = true ∧
    nearestTo f37_7 377 10 = true ∧ nearestTo fNeg122_3 1223 10 = true ∧
    nearestTo f37_8 378 10 = true ∧ nearestTo fNeg122_4 1224 10 = true := by
  decide

/-- The empty map has no key. -/
theorem Values.lookup_nil (k : String) : Values.lookup [] k = none := rfl

/-- After `Set(k, v)` the key `k` holds `[v]` and every other key is unchanged. -/
theorem Values.lookup_Set (q : Values) (k v k' : String) :
    Values.lookup (Values.Set q k v) k' = if k = k' then some [v] else Values.lookup q k' := by
  induction q with
  | nil => simp [Values.Set, Values.lookup]
  | cons p rest ih =>
    obtain ⟨a, vs⟩ := p
    by_cases h : a = k
    · subst h
      by_cases h2 : a = k' <;> simp [Values.Set, Values.lookup, h2]
    · by_cases h2 : k = k'
      · subst h2
        simp [Values.Set, Values.lookup, h, ih]
      · simp [Values.Set, Values.lookup, h, h2, ih]

/-- A conditional `Set`, read at an arbitrary key. -/
theorem Values.lookup_ite_Set (c : Prop) [Decidable c] (q : Values) (k v k' : String) :
    Values.lookup (if c then Values.Set q k v else q) k' =
      if c ∧ k = k' then some [v] else Values.lookup q k' := by
  by_cases hc : c <;> simp [hc, Values.lookup_Set]

/-- On operands that are not NaN, `a < b` is the negation of `b <= a`. -/
theorem Float64.lt_eq_not_le (a b : Float64) (ha : a ≠ nan) (hb : b ≠ nan) :
    Float64.lt a b = !Float64.le b a := by
  cases a <;> cases b <;> simp_all [Float64.lt, Float64.le, Bool.and_comm]
  case fin.fin s m e s' m' e' =>
    rw [min_comm e' e]
    by_cases h : scaled s m e (min e e') < scaled s' m' e' (min e e')
    · simp [h]
    · simp [h]; omega

/-- On coordinates that are numbers, `validateCoordinates` accepts exactly the pairs with
`-180 <= longitude <= 180` and `-90 <= latitude <= 90`. -/
theorem validateCoordinates_none_iff_of_ne_nan (std : Strconv) (L T : Float64)
    (hL : L ≠ nan) (hT : T ≠ nan) :
    geocoding.validateCoordinates std L T = none ↔
      (Float64.le (ofInt (-180)) L = true ∧ Float64.le L (ofInt 180) = true ∧
       Float64.le (ofInt (-90)) T = true ∧ Float64.le T (ofInt 90) = true) := by
  have c : ∀ i : Int, ofInt i ≠ nan := by intro i; simp [ofInt]
  simp only [geocoding.validateCoordinates, Float64.gt,
    Float64.lt_eq_not_le _ _ hL (c _), Float64.lt_eq_not_le _ _ (c _) hL,
    Float64.lt_eq_not_le _ _ hT (c _), Float64.lt_eq_not_le _ _ (c _) hT]
  cases h1 : Float64.le (ofInt (-180)) L <;> cases h2 : Float64.le L (ofInt 180) <;>
  cases h3 : Float64.le (ofInt (-90)) T <;> cases h4 : Float64.le T (ofInt 90) <;> simp

/-! ## Coordinate and batch validation -/

/-- C1 (failing input): `validateCoordinates` returns no error when the longitude, or
the latitude, is NaN, although NaN satisfies none of `-180 <= L`, `L <= 180`, `-90 <= T`,
`T <= 90`. The boundary values are accepted and the four values just outside the range
are rejected, as the claim says. -/
theorem validateCoordinates_accepts_nan (std : Strconv) :
    geocoding.validateCoordinates std nan (ofInt 0) = none ∧
    geocoding.validateCoordinates std (ofInt 0) nan = none ∧
    Float64.le (ofInt (-180)) nan = false ∧ Float64.le nan (ofInt 180) = false ∧
    Float64.le (ofInt (-90)) nan = false ∧ Float64.le nan (ofInt 90) = false ∧
    geocoding.validateCoordinates std (ofInt 180) (ofInt 90) = none ∧
    geocoding.validateCoordinates std (ofInt (-180)) (ofInt (-90)) = none ∧
    (geocoding.validateCoordinates std f180_0001 (ofInt 0)).isSome = true ∧
    (geocoding.validateCoordinates std fNeg180_0001 (ofInt 0)).isSome = true ∧
    (geocoding.validateCoordinates std (ofInt 0) f90_0001).isSome = true ∧
    (geocoding.validateCoordinates std (ofInt 0) fNeg90_0001).isSome = true := by
  have e1 : Float64.lt f180_0001 (ofInt (-180)) = false := by decide
  have e2 : Float64.gt f180_0001 (ofInt 180) = true := by decide
  have e3 : Float64.lt fNeg180_0001 (ofInt (-180)) = true := by decide
  have e4 : Float64.lt f90_0001 (ofInt (-90)) = false := by decide
  have e5 : Float64.gt f90_0001 (ofInt 90) = true := by decide
  have e6 : Float64.lt fNeg90_0001 (ofInt (-90)) = true := by decide
  have z1 : Float64.lt (ofInt 0) (ofInt (-180)) = false := by decide
  have z2 : Float64.gt (ofInt 0) (ofInt 180) = false := by decide
  have z3 : Float64.lt (ofInt 0) (ofInt (-90)) = false := by decide
  have z4 : Float64.gt (ofInt 0) (ofInt 90) = false := by decide
  have b1 : Float64.lt (ofInt 180) (ofInt (-180)) = false := by decide
  have b2 : Float64.gt (ofInt 180) (ofInt 180) = false := by decide
  have b3 : Float64.lt (ofInt 90) (ofInt (-90)) = false := by decide
  have b4 : Float64.gt (ofInt 90) (ofInt 90) = false := by decide
  have b5 : Float64.lt (ofInt (-180)) (ofInt (-180)) = false := by decide
  have b6 : Float64.gt (ofInt (-180)) (ofInt 180) = false := by decide
  have b7 : Float64.lt (ofInt (-90)) (ofInt (-90)) = false := by decide
  have b8 : Float64.gt (ofInt (-90)) (ofInt 90) = false := by decide
  have n1 : ∀ x, Float64.lt nan x = false := by intro x; cases x <;> rfl
  have n2 : ∀ x, Float64.gt nan x = false := by intro x; cases x <;> rfl
  have n3 : ∀ x, Float64.le nan x = false := by intro x; cases x <;> rfl
  have n4 : ∀ x, Float64.le x nan = false := by intro x; cases x <;> rfl
  simp [geocoding.validateCoordinates, e1, e2, e3, e4, e5, e6, z1, z2, z3, z4, b1, b2, b3, b4, b5, b6,
    b7, b8, n1, n2, n3, n4]

/-- C2 (counterexample): a reverse-style query with longitude 200 has a coordinate pair
and no text, so it is neither "neither" nor "both", and still it is rejected. -/
theorem validateBatchQuery_rejects_bad_pair :
    (geocoding.validateBatchQuery goStrconv badPairQuery 0).isSome = true ∧
    ¬ ((badPairQuery.Query = "" ∧
          ¬ (badPairQuery.Longitude.isSome = true ∧ badPairQuery.Latitude.isSome = true)) ∨
       (badPairQuery.Query ≠ "" ∧
          (badPairQuery.Longitude.isSome = true ∧ badPairQuery.Latitude.isSome = true))) := by
  decide

/-- C2 (amended): `validateBatchQuery` returns an error exactly when the query has
neither a text query nor a coordinate pair, or has both, or has no text and a coordinate
pair that `validateCoordinates` rejects. -/
theorem validateBatchQuery_error_iff (std : Strconv) (q : geocoding.BatchQuery) (i : Int) :
    (geocoding.validateBatchQuery std q i).isSome = true ↔
      (q.Query = "" ∧ ¬ (q.Longitude.isSome = true ∧ q.Latitude.isSome = true)) ∨
      (q.Query ≠ "" ∧ (q.Longitude.isSome = true ∧ q.Latitude.isSome = true)) ∨
      (q.Query = "" ∧ ∃ lon lat, q.Longitude = some lon ∧ q.Latitude = some lat ∧
        (geocoding.validateCoordinates std lon lat).isSome = true) := by
  obtain ⟨ID, Query, Longitude, Latitude, Country, Language, Limit, Types⟩ := q
  by_cases hq : Query = "" <;> cases Longitude <;> cases Latitude <;>
    simp [geocoding.validateBatchQuery, hq]
  case pos.some.some lon lat =>
    cases h : geocoding.validateCoordinates std lon lat <;> simp

/-- C4: for a reverse-style query (no text, both coordinates present) and any index,
`validateBatchQuery` returns no error when `validateCoordinates` returns none, and
otherwise returns an error that wraps the coordinate error (its `Unwrap` is that error)
and whose message is `query at index <i>: ` followed by the coordinate error's message. -/
theorem validateBatchQuery_reverse (std : Strconv) (q : geocoding.BatchQuery) (i : Int)
    (lon lat : Float64) (hq : q.Query = "") (hlon : q.Longitude = some lon)
    (hlat : q.Latitude = some lat) :
    ((geocoding.validateBatchQuery std q i).isSome = true ↔
      (geocoding.validateCoordinates std lon lat).isSome = true) ∧
    (∀ err, geocoding.validateCoordinates std lon lat = some err →
      ∃ e, geocoding.validateBatchQuery std q i = some e ∧ e.Unwrap = some err ∧
        e.Error = "query at index " ++ Itoa i ++ ": " ++ err.Error) := by
  obtain ⟨ID, Query, Longitude, Latitude, Country, Language, Limit, Types⟩ := q
  simp only at hq hlon hlat
  subst hq hlon hlat
  cases h : geocoding.validateCoordinates std lon lat <;>
    simp [geocoding.validateBatchQuery, h, GoError.Unwrap, GoError.Error]

/-- C4 (witness): the reverse-style query with longitude 181 and latitude 0 at
index 3. -/
theorem validateBatchQuery_reverse_witness :
    ((geocoding.validateBatchQuery goStrconv
        { Longitude := some (ofInt 181), Latitude := some (ofInt 0) } 3).isSome = true ↔
      (geocoding.validateCoordinates goStrconv (ofInt 181) (ofInt 0)).isSome = true) ∧
    (∀ err, geocoding.validateCoordinates goStrconv (ofInt 181) (ofInt 0) = some err →
      ∃ e, geocoding.validateBatchQuery goStrconv
          { Longitude := some (ofInt 181), Latitude := some (ofInt 0) } 3 = some e ∧
        e.Unwrap = some err ∧ e.Error = "query at index " ++ Itoa 3 ++ ": " ++ err.Error) :=
  validateBatchQuery_reverse goStrconv
    { Longitude := some (ofInt 181), Latitude := some (ofInt 0) } 3 (ofInt 181) (ofInt 0)
    rfl rfl rfl


/-- Two strings that start with different characters are different. -/
theorem String.ne_of_head_ne (a b : String) (h : a.data.head? ≠ b.data.head?) : a ≠ b := by
  intro hab; exact h (by rw [hab])

/-- Errors of `validateBatchQuery` are not the two size errors of `Batch`. -/
theorem validateBatchQuery_ne_size_error (std : Strconv) (q : geocoding.BatchQuery) (i : Int)
    (n : Int) (e : GoError) (h : geocoding.validateBatchQuery std q i = some e) :
    e ≠ .errorString "at least one query is required" ∧
    e ≠ .errorString ("maximum 1000 queries allowed, got " ++ Itoa n) := by
  have k1 : ∀ x y : String, "query at index " ++ x ++ y ≠ "at least one query is required" := by
    intro x y; apply String.ne_of_head_ne; simp [String.data_append]
  have k2 : ∀ x y z : String, "query at index " ++ x ++ y ≠
      "maximum 1000 queries allowed, got " ++ z := by
    intro x y z; apply String.ne_of_head_ne; simp [String.data_append]
  obtain ⟨ID, Query, Longitude, Latitude, Country, Language, Limit, Types⟩ := q
  unfold geocoding.validateBatchQuery at h
  simp only at h
  split at h
  · cases h; simp [k1, k2]
  · split at h
    · cases h; simp [k1, k2]
    · split at h
      · split at h
        · cases h; simp
        · cases h
      · cases h

/-- The outcome of the dispatch step of `Batch`, once validation has passed. -/
theorem Batch_of_valid {ρ : Type} (std : Strconv) (net : http.Stdlib geocoding.BatchBody ρ)
    (zero : ρ) (s : geocoding.Service) (req : geocoding.BatchRequest)
    (h1 : 1 ≤ req.Queries.length) (h2 : req.Queries.length ≤ 1000)
    (hv : ∀ q ∈ req.Queries, ∀ i, geocoding.validateBatchQuery std q i = none) :
    geocoding.Service.Batch std net zero s req =
      match s.httpClient.Post net geocoding.batchPath (some [("queries", req.Queries)])
          (some zero) with
      | (some err, _) => .error (.wrapError ("batch geocoding failed: " ++ err.Error) err)
      | (none, result) => .ok (result.getD zero) := by
  have hf : req.Queries.enum.findSome? (fun iq => geocoding.validateBatchQuery std iq.2 iq.1)
      = none := by
    rw [List.findSome?_eq_none_iff]
    intro iq hiq
    exact hv iq.2 (List.snd_mem_of_mem_enum hiq) _
  have h0 : req.Queries.length ≠ 0 := by omega
  have h3 : ¬ ((req.Queries.length : Int) > geocoding.maxBatchQueries) := by
    simp only [geocoding.maxBatchQueries]; omega
  unfold geocoding.Service.Batch
  simp only [h0, h3, hf, if_false]


/-- C3: `Batch` returns its "at least one query" error when the request has no query
and its "maximum 1000" error when it has more than 1000; it returns one of these two
size errors if and only if the number of queries is not in 1..1000; and a request with
1 to 1000 queries, each accepted by `validateBatchQuery`, goes on to the POST. -/
theorem Batch_size_check {ρ : Type} (std : Strconv) (net : http.Stdlib geocoding.BatchBody ρ)
    (zero : ρ) (s : geocoding.Service) (req : geocoding.BatchRequest) :
    (req.Queries.length = 0 → geocoding.Service.Batch std net zero s req =
      .error (.errorString "at least one query is required")) ∧
    (1000 < req.Queries.length → geocoding.Service.Batch std net zero s req =
      .error (.errorString ("maximum 1000 queries allowed, got " ++ Itoa req.Queries.length))) ∧
    ((geocoding.Service.Batch std net zero s req =
        .error (.errorString "at least one query is required") ∨
      geocoding.Service.Batch std net zero s req =
        .error (.errorString ("maximum 1000 queries allowed, got " ++ Itoa req.Queries.length)))
      ↔ ¬ (1 ≤ req.Queries.length ∧ req.Queries.length ≤ 1000)) ∧
    (1 ≤ req.Queries.length → req.Queries.length ≤ 1000 →
      (∀ q ∈ req.Queries, ∀ i, geocoding.validateBatchQuery std q i = none) →
      geocoding.Service.Batch std net zero s req =
        match s.httpClient.Post net geocoding.batchPath (some [("queries", req.Queries)])
            (some zero) with
        | (some err, _) => .error (.wrapError ("batch geocoding failed: " ++ err.Error) err)
        | (none, result) => .ok (result.getD zero)) := by
  have hmsg : "maximum " ++ Itoa geocoding.maxBatchQueries ++ " queries allowed, got " =
      "maximum 1000 queries allowed, got " := by decide
  have hzero : req.Queries.length = 0 → geocoding.Service.Batch std net zero s req =
      .error (.errorString "at least one query is required") := by
    intro h; simp [geocoding.Service.Batch, h]
  have hbig : 1000 < req.Queries.length → geocoding.Service.Batch std net zero s req =
      .error (.errorString ("maximum 1000 queries allowed, got " ++ Itoa req.Queries.length)) := by
    intro h
    have h0 : req.Queries.length ≠ 0 := by omega
    have h3 : (req.Queries.length : Int) > geocoding.maxBatchQueries := by
      simp only [geocoding.maxBatchQueries]; omega
    unfold geocoding.Service.Batch
    simp only [h0, h3, if_false, if_true, hmsg]
  refine ⟨hzero, hbig, ⟨?_, ?_⟩, Batch_of_valid std net zero s req⟩
  · rintro hsz ⟨h1, h2⟩
    have h0 : req.Queries.length ≠ 0 := by omega
    have h3 : ¬ ((req.Queries.length : Int) > geocoding.maxBatchQueries) := by
      simp only [geocoding.maxBatchQueries]; omega
    unfold geocoding.Service.Batch at hsz
    simp only [h0, h3, if_false] at hsz
    cases hf : req.Queries.enum.findSome?
        (fun iq => geocoding.validateBatchQuery std iq.2 iq.1) with
    | some e =>
      obtain ⟨iq, _, hiq⟩ := List.exists_of_findSome?_eq_some hf
      have hne := validateBatchQuery_ne_size_error std iq.2 iq.1 req.Queries.length e hiq
      rw [hf] at hsz
      rcases hsz with hsz | hsz
      · exact hne.1 (by injection hsz)
      · exact hne.2 (by injection hsz)
    | none =>
      rw [hf] at hsz
      simp only at hsz
      rcases hp : s.httpClient.Post net geocoding.batchPath (some [("queries", req.Queries)])
          (some zero) with ⟨_ | err, result⟩ <;> rw [hp] at hsz <;> simp at hsz
  · intro h
    by_cases h0 : req.Queries.length = 0
    · exact Or.inl (hzero h0)
    · exact Or.inr (hbig (by omega))

/-- C3 (witness): the empty request, a request of 1001 queries, and a request of exactly
1000 valid queries. -/
theorem Batch_size_check_witness :
    geocoding.Service.Batch goStrconv sampleNet "" sampleService ⟨[]⟩ =
      .error (.errorString "at least one query is required") ∧
    geocoding.Service.Batch goStrconv sampleNet "" sampleService
        ⟨List.replicate 1001 testQuery⟩ =
      .error (.errorString ("maximum 1000 queries allowed, got " ++
        Itoa (List.replicate 1001 testQuery).length)) ∧
    geocoding.Service.Batch goStrconv sampleNet "" sampleService
        ⟨List.replicate 1000 testQuery⟩ =
      (match sampleService.httpClient.Post sampleNet geocoding.batchPath
          (some [("queries", List.replicate 1000 testQuery)]) (some "") with
        | (some err, _) => .error (.wrapError ("batch geocoding failed: " ++ err.Error) err)
        | (none, result) => .ok (result.getD "")) :=
  ⟨(Batch_size_check goStrconv sampleNet "" sampleService ⟨[]⟩).1 rfl,
   (Batch_size_check goStrconv sampleNet "" sampleService ⟨List.replicate 1001 testQuery⟩).2.1
     (by rw [List.length_replicate]; decide),
   (Batch_size_check goStrconv sampleNet "" sampleService ⟨List.replicate 1000 testQuery⟩).2.2.2
     (by rw [List.length_replicate]; decide) (by rw [List.length_replicate])
     (by intro q hq i; rw [List.eq_of_mem_replicate hq]; rfl)⟩

/-! ## Joining and the `parts` loops -/


/-- A prefix of the first element can be pulled out of a join. -/
theorem Join_append_head (x y : String) (rest : List String) (sep : String) :
    Join ((x ++ y) :: rest) sep = x ++ Join (y :: rest) sep := by
  cases rest with
  | nil => simp [Join]
  | cons b rest => simp [Join, String.append_assoc]

/-- The function `Join` is the usual intercalation. -/
theorem Join_eq_intercalate (l : List String) (sep : String) :
    Join l sep = sep.intercalate l := by
  have go : ∀ (l : List String) (acc : String),
      String.intercalate.go acc sep l = Join (acc :: l) sep := by
    intro l
    induction l with
    | nil => intro acc; simp [String.intercalate.go, Join]
    | cons a rest ih =>
      intro acc
      rw [String.intercalate.go, ih, Join_append_head]
      simp [Join]
  cases l with
  | nil => simp [Join, String.intercalate]
  | cons a rest => simp [String.intercalate, go]

/-- Number of characters of a joined list: the characters of the elements plus one
separator between neighbours. -/
theorem Join_length (l : List String) (sep : String) :
    (Join l sep).length = (l.map String.length).sum + (l.length - 1) * sep.length := by
  induction l with
  | nil => simp [Join]
  | cons a rest ih =>
    cases rest with
    | nil => simp [Join]
    | cons b rest =>
      simp only [Join, String.length_append, ih, List.map_cons, List.sum_cons, List.length_cons]
      simp only [Nat.add_sub_cancel]
      ring

/-- Occurrences of a character `c` in a joined list whose elements do not contain `c`,
the separator being the single character `c`: one per gap. -/
theorem Join_count (l : List String) (c : Char) (h : ∀ a ∈ l, c ∉ a.data) :
    (Join l (String.singleton c)).data.count c = l.length - 1 := by
  induction l with
  | nil => simp [Join]
  | cons a rest ih =>
    cases rest with
    | nil =>
      simp only [Join, List.length_singleton, Nat.sub_self]
      exact List.count_eq_zero.mpr (h a (by simp))
    | cons b rest =>
      have hrest := ih (fun x hx => h x (List.mem_cons_of_mem _ hx))
      have ha : a.data.count c = 0 := List.count_eq_zero.mpr (h a (by simp))
      simp only [Join, String.data_append, List.count_append, hrest, ha, List.length_cons]
      simp [String.singleton]
      omega

/-- The loop `for i, v := range l { parts[i] = seg(v) }` over a fresh `parts` computes the
map of `seg`: `step` is the loop body, which overwrites the slot of the current index. -/
theorem fill_parts {α : Type} (seg : α → String) (step : List String → Nat × α → List String)
    (hstep : ∀ (pre post : List String) (a : α),
      step (pre ++ "" :: post) (pre.length, a) = pre ++ seg a :: post)
    (l : List α) :
    l.enum.foldl step (List.replicate l.length "") = l.map seg := by
  have key : ∀ (l : List α) (pre : List String),
      (l.enumFrom pre.length).foldl step (pre ++ List.replicate l.length "") =
        pre ++ l.map seg := by
    intro l
    induction l with
    | nil => intro pre; simp
    | cons a rest ih =>
      intro pre
      simp only [List.enumFrom_cons, List.foldl_cons, List.length_cons, List.replicate_succ,
        List.map_cons]
      rw [hstep]
      have := ih (pre ++ [seg a])
      simp only [List.length_append, List.length_singleton, List.append_assoc,
        List.singleton_append] at this
      exact this
  simpa using key l []


/-- Both copies of `formatFloatArray` compute the join of the formatted elements. -/
theorem formatFloatArray_eq_Join (std : Strconv) (arr : List Float64) :
    geocoding.formatFloatArray std arr =
      Join (arr.map (fun v => std.FormatFloat v 'f' (-1) 64)) "," ∧
    searchbox.formatFloatArray std arr =
      Join (arr.map (fun v => std.FormatFloat v 'f' (-1) 64)) "," := by
  have h := fill_parts (fun v => std.FormatFloat v 'f' (-1) 64)
    (fun parts iv => parts.set iv.1 (std.FormatFloat iv.2 'f' (-1) 64))
    (by intro pre post a; simp) arr
  constructor
  · simp only [geocoding.formatFloatArray]; rw [h]
  · simp only [searchbox.formatFloatArray]; rw [h]

/-- The segment `encodeRoute` writes for one point. -/
theorem encodeRoute_eq_Join (std : Strconv) (route : List (List Float64)) :
    searchbox.encodeRoute std route =
      Join (route.map (fun p => match p with
        | c0 :: c1 :: _ => std.verbF c0 ++ "," ++ std.verbF c1
        | _ => "")) ";" := by
  have h := fill_parts (fun p : List Float64 => match p with
        | c0 :: c1 :: _ => std.verbF c0 ++ "," ++ std.verbF c1
        | _ => "")
    (fun parts ic =>
      match ic.2 with
      | c0 :: c1 :: _ => parts.set ic.1 (std.verbF c0 ++ "," ++ std.verbF c1)
      | _ => parts)
    (by
      intro pre post a
      rcases a with _ | ⟨c0, _ | ⟨c1, rest⟩⟩ <;> simp) route
  simp only [searchbox.encodeRoute]
  rw [h]

/-- C10: `formatFloatArray` returns the elements in order, each formatted by
`strconv.FormatFloat(v, 'f', -1, 64)` (the shortest decimal that parses back), joined by
single commas; the empty array gives the empty string; the result has the characters of
the formatted elements plus `n - 1` separators, and exactly `n - 1` commas when no
formatted element contains a comma; the searchbox copy returns the same string as the
geocoding copy. -/
theorem formatFloatArray_spec (std : Strconv) (arr : List Float64) :
    geocoding.formatFloatArray std arr =
      Join (arr.map (fun v => std.FormatFloat v 'f' (-1) 64)) "," ∧
    geocoding.formatFloatArray std arr =
      ",".intercalate (arr.map (fun v => std.FormatFloat v 'f' (-1) 64)) ∧
    geocoding.formatFloatArray std [] = "" ∧
    (geocoding.formatFloatArray std arr).length =
      (arr.map (fun v => (std.FormatFloat v 'f' (-1) 64).length)).sum + (arr.length - 1) ∧
    ((∀ v ∈ arr, ',' ∉ (std.FormatFloat v 'f' (-1) 64).data) →
      (geocoding.formatFloatArray std arr).data.count ',' = arr.length - 1) ∧
    searchbox.formatFloatArray std arr = geocoding.formatFloatArray std arr := by
  have h := formatFloatArray_eq_Join std arr
  refine ⟨h.1, ?_, ?_, ?_, ?_, ?_⟩
  · rw [h.1, Join_eq_intercalate]
  · rw [(formatFloatArray_eq_Join std []).1]; rfl
  · rw [h.1, Join_length]
    have hl : ",".length = 1 := by decide
    simp [List.map_map, Function.comp_def, hl]
  · intro hc
    rw [h.1]
    have := Join_count (arr.map (fun v => std.FormatFloat v 'f' (-1) 64)) ','
      (by
        intro a ha
        obtain ⟨v, hv, rfl⟩ := List.mem_map.mp ha
        exact hc v hv)
    simpa using this
  · rw [h.1, h.2]

/-- C10 (witness): the array `[-122.5, 37.7, -122.3]` under the documented formatter. -/
theorem formatFloatArray_spec_witness :
    (geocoding.formatFloatArray goStrconv [fNeg122_5, f37_7, fNeg122_3]).data.count ',' =
      [fNeg122_5, f37_7, fNeg122_3].length - 1 ∧
    geocoding.formatFloatArray goStrconv [fNeg122_5, f37_7, fNeg122_3] = "-122.5,37.7,-122.3" ∧
    geocoding.formatFloatArray goStrconv [ofInt 1, ofInt 2, ofInt 3] = "1,2,3" :=
  ⟨(formatFloatArray_spec goStrconv [fNeg122_5, f37_7, fNeg122_3]).2.2.2.2.1 (by decide),
   by decide, by decide⟩


/-- A joined list of non-empty elements without the character `c` neither starts nor ends
with `c`. -/
theorem Join_head_getLast (l : List String) (sep : String) (c : Char) (hl : l ≠ [])
    (h : ∀ a ∈ l, a.data ≠ [] ∧ c ∉ a.data) :
    (Join l sep).data ≠ [] ∧ (Join l sep).data.head? ≠ some c ∧
      (Join l sep).data.getLast? ≠ some c := by
  induction l with
  | nil => exact absurd rfl hl
  | cons a rest ih =>
    obtain ⟨hane, hac⟩ := h a (by simp)
    have hhead : ∀ t : List Char, (a.data ++ t).head? ≠ some c := by
      intro t hh
      cases ha : a.data with
      | nil => exact hane ha
      | cons x xs =>
        rw [ha] at hh
        simp only [List.cons_append, List.head?_cons, Option.some.injEq] at hh
        exact hac (by rw [ha, hh]; simp)
    cases rest with
    | nil =>
      refine ⟨by simpa [Join] using hane, ?_, ?_⟩
      · have := hhead []
        simpa [Join] using this
      · intro hh
        simp only [Join] at hh
        exact hac (List.mem_of_getLast?_eq_some hh)
    | cons b rest =>
      obtain ⟨h1, _, h3⟩ := ih (by simp) (fun x hx => h x (List.mem_cons_of_mem _ hx))
      refine ⟨?_, ?_, ?_⟩
      · simp [Join, String.data_append, hane]
      · simp only [Join, String.data_append, List.append_assoc]
        exact hhead _
      · simp only [Join, String.data_append]
        rw [List.getLast?_append_of_ne_nil _ h1]
        exact h3

/-- C9: for a route whose points all have at least two elements, `encodeRoute` returns
the points in order, each as `<lon>,<lat>` with both numbers printed by the `%f` verb
(fixed 6 decimals), joined by `;`; when no printed number contains `;`, the result has
exactly one `;` per gap and neither starts nor ends with `;`. With `%f` printing
-122.4, 37.8, -122.5, 37.7 as Go does, the route `[[-122.4,37.8],[-122.5,37.7]]` encodes
to `-122.400000,37.800000;-122.500000,37.700000`. -/
theorem encodeRoute_spec (std : Strconv) :
    (∀ route : List (List Float64), (∀ p ∈ route, 2 ≤ p.length) →
      searchbox.encodeRoute std route =
        Join (route.map (fun p => std.verbF (p.getD 0 nan) ++ "," ++ std.verbF (p.getD 1 nan)))
          ";" ∧
      ((∀ p ∈ route, ';' ∉ (std.verbF (p.getD 0 nan)).data ∧
          ';' ∉ (std.verbF (p.getD 1 nan)).data) →
        (searchbox.encodeRoute std route).data.count ';' = route.length - 1 ∧
        (route ≠ [] → (searchbox.encodeRoute std route).data.head? ≠ some ';' ∧
          (searchbox.encodeRoute std route).data.getLast? ≠ some ';'))) ∧
    (std.verbF fNeg122_4 = "-122.400000" → std.verbF f37_8 = "37.800000" →
      std.verbF fNeg122_5 = "-122.500000" → std.verbF f37_7 = "37.700000" →
      searchbox.encodeRoute std [[fNeg122_4, f37_8], [fNeg122_5, f37_7]] =
        "-122.400000,37.800000;-122.500000,37.700000") := by
  constructor
  · intro route hlen
    have hmap : route.map (fun p => match p with
          | c0 :: c1 :: _ => std.verbF c0 ++ "," ++ std.verbF c1
          | _ => "") =
        route.map (fun p => std.verbF (p.getD 0 nan) ++ "," ++ std.verbF (p.getD 1 nan)) := by
      apply List.map_congr_left
      intro p hp
      have := hlen p hp
      rcases p with _ | ⟨c0, _ | ⟨c1, rest⟩⟩
      · simp at this
      · simp at this
      · simp
    have heq := encodeRoute_eq_Join std route
    rw [hmap] at heq
    refine ⟨heq, ?_⟩
    intro hsemi
    have hseg : ∀ a ∈ route.map (fun p =>
        std.verbF (p.getD 0 nan) ++ "," ++ std.verbF (p.getD 1 nan)),
        a.data ≠ [] ∧ ';' ∉ a.data := by
      intro a ha
      obtain ⟨p, hp, rfl⟩ := List.mem_map.mp ha
      obtain ⟨s0, s1⟩ := hsemi p hp
      refine ⟨by simp [String.data_append], ?_⟩
      simp only [String.data_append, List.mem_append, not_or]
      exact ⟨⟨s0, by decide⟩, s1⟩
    rw [heq]
    refine ⟨?_, ?_⟩
    · have := Join_count _ ';' (fun a ha => (hseg a ha).2)
      simpa using this
    · intro hne
      have := Join_head_getLast _ ";" ';' (by simpa using hne) hseg
      exact this.2
  · intro h1 h2 h3 h4
    rw [encodeRoute_eq_Join]
    simp only [List.map_cons, List.map_nil, h1, h2, h3, h4]
    decide

/-- C9 (witness): a three-point route, and the example route, under the documented
`%f`. -/
theorem encodeRoute_spec_witness :
    searchbox.encodeRoute goStrconv [[fNeg122_4, f37_8], [fNeg122_5, f37_7]] =
      "-122.400000,37.800000;-122.500000,37.700000" ∧
    (searchbox.encodeRoute goStrconv [[fNeg122_4, f37_8], [fNeg122_5, f37_7],
      [fNeg122_3, f37_8]]).data.count ';' = 2 :=
  ⟨(encodeRoute_spec goStrconv).2 (by decide) (by decide) (by decide) (by decide),
   ((encodeRoute_spec goStrconv).1 [[fNeg122_4, f37_8], [fNeg122_5, f37_7], [fNeg122_3, f37_8]]
      (by decide)).2 (by decide) |>.1⟩

/-! ## The query builders, key by key -/


/-- The value list `buildForwardQuery` (geocoding) stores under an arbitrary key. -/
theorem geocoding_lookup_buildForwardQuery (std : Strconv) (s : geocoding.Service)
    (req : geocoding.ForwardRequest) (key : String) :
    (geocoding.Service.buildForwardQuery std s req).lookup key =
      if req.Worldview ≠ "" ∧ "worldview" = key then some [req.Worldview]
      else if req.Types.length > 0 ∧ "types" = key then some [Join req.Types ","]
      else if req.Proximity.length = 2 ∧ "proximity" = key then
        some [geocoding.formatFloatArray std req.Proximity]
      else if req.Limit.isSome ∧ "limit" = key then req.Limit.map (fun l => [Itoa l])
      else if req.Language ≠ "" ∧ "language" = key then some [req.Language]
      else if req.Country.length > 0 ∧ "country" = key then some [Join req.Country ","]
      else if req.BBox.length = 4 ∧ "bbox" = key then
        some [geocoding.formatFloatArray std req.BBox]
      else if req.Autocomplete.isSome ∧ "autocomplete" = key then
        req.Autocomplete.map (fun b => [FormatBool b])
      else if "q" = key then some [req.Query]
      else if "access_token" = key then some [s.token]
      else none := by
  obtain ⟨Query, Autocomplete, BBox, Country, Language, Limit, Proximity, Types, Worldview⟩ := req
  cases Autocomplete <;> cases Limit <;>
  · unfold geocoding.Service.buildForwardQuery
    lift_lets
    intro q0 q1 q2 q3 q4 q5 q6 q7 q8 q9 q10
    simp only [q10, q9, q8, q7, q6, q5, q4, q3, q2, q1, q0, Values.lookup_ite_Set,
      Values.lookup_Set, Values.lookup_nil]
    simp


/-- The value list `buildStructuredForwardQuery` stores under an arbitrary key. -/
theorem geocoding_lookup_buildStructuredForwardQuery (std : Strconv) (s : geocoding.Service)
    (req : geocoding.StructuredForwardRequest) (key : String) :
    (geocoding.Service.buildStructuredForwardQuery std s req).lookup key =
      if req.Worldview ≠ "" ∧ "worldview" = key then some [req.Worldview]
      else if req.Proximity.length = 2 ∧ "proximity" = key then
        some [geocoding.formatFloatArray std req.Proximity]
      else if req.Limit.isSome ∧ "limit" = key then req.Limit.map (fun l => [Itoa l])
      else if req.Language ≠ "" ∧ "language" = key then some [req.Language]
      else if req.BBox.length = 4 ∧ "bbox" = key then
        some [geocoding.formatFloatArray std req.BBox]
      else if req.Autocomplete.isSome ∧ "autocomplete" = key then
        req.Autocomplete.map (fun b => [FormatBool b])
      else if req.Country ≠ "" ∧ "country" = key then some [req.Country]
      else if req.Postcode ≠ "" ∧ "postcode" = key then some [req.Postcode]
      else if req.Region ≠ "" ∧ "region" = key then some [req.Region]
      else if req.Place ≠ "" ∧ "place" = key then some [req.Place]
      else if req.Block ≠ "" ∧ "block" = key then some [req.Block]
      else if req.Street ≠ "" ∧ "street" = key then some [req.Street]
      else if req.AddressNumber ≠ "" ∧ "address_number" = key then some [req.AddressNumber]
      else if "access_token" = key then some [s.token]
      else none := by
  obtain ⟨AddressNumber, Street, Block, Place, Region, Postcode, Country, Autocomplete, BBox,
    Language, Limit, Proximity, Worldview⟩ := req
  cases Autocomplete <;> cases Limit <;>
  · unfold geocoding.Service.buildStructuredForwardQuery
    lift_lets
    intro q0 q1 q2 q3 q4 q5 q6 q7 q8 q9 q10 q11 q12 q13 q14
    simp only [q14, q13, q12, q11, q10, q9, q8, q7, q6, q5, q4, q3, q2, q1, q0,
      Values.lookup_ite_Set, Values.lookup_Set, Values.lookup_nil]
    simp

/-- The value list `buildReverseQuery` (geocoding) stores under an arbitrary key. -/
theorem geocoding_lookup_buildReverseQuery (std : Strconv) (s : geocoding.Service)
    (req : geocoding.ReverseRequest) (key : String) :
    (geocoding.Service.buildReverseQuery std s req).lookup key =
      if req.Worldview ≠ "" ∧ "worldview" = key then some [req.Worldview]
      else if req.Types.length > 0 ∧ "types" = key then some [Join req.Types ","]
      else if req.Limit.isSome ∧ "limit" = key then req.Limit.map (fun l => [Itoa l])
      else if req.Language ≠ "" ∧ "language" = key then some [req.Language]
      else if req.Country.length > 0 ∧ "country" = key then some [Join req.Country ","]
      else if "latitude" = key then some [std.FormatFloat req.Latitude 'f' (-1) 64]
      else if "longitude" = key then some [std.FormatFloat req.Longitude 'f' (-1) 64]
      else if "access_token" = key then some [s.token]
      else none := by
  obtain ⟨Longitude, Latitude, Country, Language, Limit, Types, Worldview⟩ := req
  cases Limit <;>
  · unfold geocoding.Service.buildReverseQuery
    lift_lets
    intro q0 q1 q2 q3 q4 q5 q6 q7 q8
    simp only [q8, q7, q6, q5, q4, q3, q2, q1, q0,
      Values.lookup_ite_Set, Values.lookup_Set, Values.lookup_nil]
    simp

/-- The value list under an arbitrary key after `addNavigationParams`. -/
theorem lookup_addNavigationParams (std : Strconv) (q : Values)
    (nav : searchbox.NavigationOptions) (key : String) :
    (searchbox.addNavigationParams std q nav).lookup key =
      if nav.Profile ≠ "" ∧ "navigation_profile" = key then some [nav.Profile]
      else if nav.Origin.length = 2 ∧ "origin" = key then
        some [searchbox.formatFloatArray std nav.Origin]
      else if nav.ETAType ≠ "" ∧ "eta_type" = key then some [nav.ETAType]
      else q.lookup key := by
  unfold searchbox.addNavigationParams
  lift_lets
  intro q1 q2 q3
  simp only [q3, q2, q1, Values.lookup_ite_Set]

/-- The value list under an arbitrary key after `addSARParams`. -/
theorem lookup_addSARParams (std : Strconv) (q : Values) (sar : searchbox.SAROptions)
    (key : String) :
    (searchbox.addSARParams std q sar).lookup key =
      if sar.TimeDeviation.isSome ∧ "time_deviation" = key then
        sar.TimeDeviation.map (fun t => [Itoa t])
      else if sar.Route.length > 0 ∧ "route" = key then
        some [searchbox.encodeRoute std sar.Route]
      else if sar.Type_ ≠ "" ∧ "sar_type" = key then some [sar.Type_]
      else q.lookup key := by
  obtain ⟨Type_, Route, TimeDeviation⟩ := sar
  cases TimeDeviation <;>
  · unfold searchbox.addSARParams
    lift_lets
    intro q1 q2 q3
    simp only [q3, q2, q1, Values.lookup_ite_Set, Values.lookup_Set]
    simp

/-- The proximity step shared by the suggest, forward and category builders. -/
theorem Values.lookup_proximity_step (std : Strconv) (q : Values) (ip : Bool)
    (prox : List Float64) (key : String) :
    Values.lookup (if ip = true then q.Set "proximity" "ip"
      else if prox.length = 2 then q.Set "proximity" (searchbox.formatFloatArray std prox)
      else q) key =
      if "proximity" = key ∧ (ip = true ∨ prox.length = 2) then
        (if ip = true then some ["ip"] else some [searchbox.formatFloatArray std prox])
      else q.lookup key := by
  by_cases h1 : ip = true <;> by_cases h2 : prox.length = 2 <;> by_cases h3 : "proximity" = key <;>
    simp [h1, h2, h3, Values.lookup_Set]

/-- The alternative is taken when there is no first value. -/
theorem none_orElse_apply {α : Type} (f : Unit → Option α) :
    (none : Option α).orElse f = f () := rfl

/-- A conditional with a definite first branch commutes with `orElse`. -/
theorem ite_some_orElse {α : Type} (c : Prop) [Decidable c] (x : α) (y : Option α)
    (f : Unit → Option α) :
    (if c then some x else y).orElse f = if c then some x else y.orElse f := by
  by_cases h : c <;> simp [h, Option.orElse]

/-- The value list `buildSuggestQuery` stores under an arbitrary key: what the
navigation block sets, and otherwise what the builder itself sets. -/
theorem searchbox_lookup_buildSuggestQuery (std : Strconv) (s : searchbox.Service)
    (req : searchbox.SuggestRequest) (key : String) :
    (searchbox.Service.buildSuggestQuery std s req).lookup key =
      (match req.Navigation with
      | some nav =>
        if nav.Profile ≠ "" ∧ "navigation_profile" = key then some [nav.Profile]
        else if nav.Origin.length = 2 ∧ "origin" = key then
          some [searchbox.formatFloatArray std nav.Origin]
        else if nav.ETAType ≠ "" ∧ "eta_type" = key then some [nav.ETAType]
        else none
      | none => none).orElse fun _ =>
      if req.POICategory.length > 0 ∧ "poi_category" = key then
        some [Join req.POICategory ","]
      else if req.Types.length > 0 ∧ "types" = key then some [Join req.Types ","]
      else if req.Limit.isSome ∧ "limit" = key then req.Limit.map (fun l => [Itoa l])
      else if req.Language ≠ "" ∧ "language" = key then some [req.Language]
      else if req.Country.length > 0 ∧ "country" = key then some [Join req.Country ","]
      else if req.BBox.length = 4 ∧ "bbox" = key then
        some [searchbox.formatFloatArray std req.BBox]
      else if "proximity" = key ∧ (req.ProximityIP = true ∨ req.Proximity.length = 2) then
        (if req.ProximityIP = true then some ["ip"]
         else some [searchbox.formatFloatArray std req.Proximity])
      else if "session_token" = key then some [req.SessionToken]
      else if "q" = key then some [req.Query]
      else if "access_token" = key then some [s.token]
      else none := by
  obtain ⟨Query, SessionToken, Proximity, ProximityIP, BBox, Country, Language, Limit, Types,
    POICategory, Navigation⟩ := req
  cases Limit <;> cases Navigation <;>
  · unfold searchbox.Service.buildSuggestQuery
    lift_lets
    intro q0 q1 q2 q3 q4 q5 q6 q7 q8 q9 q10 q11
    simp only [q11, q10, q9, q8, q7, q6, q5, q4, q3, q2, q1, q0,
      lookup_addNavigationParams, Values.lookup_proximity_step,
      Values.lookup_ite_Set, Values.lookup_Set, Values.lookup_nil]
    simp [ite_some_orElse, none_orElse_apply]

/-- The value list `buildRetrieveQuery` stores under an arbitrary key. -/
theorem searchbox_lookup_buildRetrieveQuery (std : Strconv) (s : searchbox.Service)
    (req : searchbox.RetrieveRequest) (key : String) :
    (searchbox.Service.buildRetrieveQuery std s req).lookup key =
      (match req.Navigation with
      | some nav =>
        if nav.Profile ≠ "" ∧ "navigation_profile" = key then some [nav.Profile]
        else if nav.Origin.length = 2 ∧ "origin" = key then
          some [searchbox.formatFloatArray std nav.Origin]
        else if nav.ETAType ≠ "" ∧ "eta_type" = key then some [nav.ETAType]
        else none
      | none => none).orElse fun _ =>
      if "session_token" = key then some [req.SessionToken]
      else if "access_token" = key then some [s.token]
      else none := by
  obtain ⟨MapboxID, SessionToken, Navigation⟩ := req
  cases Navigation <;>
  · unfold searchbox.Service.buildRetrieveQuery
    lift_lets
    intro q0 q1 q2 q3
    simp only [q3, q2, q1, q0, lookup_addNavigationParams,
      Values.lookup_ite_Set, Values.lookup_Set, Values.lookup_nil]
    simp [ite_some_orElse, none_orElse_apply]

/-- The value list `buildForwardQuery` (searchbox) stores under an arbitrary key. -/
theorem searchbox_lookup_buildForwardQuery (std : Strconv) (s : searchbox.Service)
    (req : searchbox.ForwardRequest) (key : String) :
    (searchbox.Service.buildForwardQuery std s req).lookup key =
      (match req.Navigation with
      | some nav =>
        if nav.Profile ≠ "" ∧ "navigation_profile" = key then some [nav.Profile]
        else if nav.Origin.length = 2 ∧ "origin" = key then
          some [searchbox.formatFloatArray std nav.Origin]
        else if nav.ETAType ≠ "" ∧ "eta_type" = key then some [nav.ETAType]
        else none
      | none => none).orElse fun _ =>
      if req.POICategory.length > 0 ∧ "poi_category" = key then
        some [Join req.POICategory ","]
      else if req.Types.length > 0 ∧ "types" = key then some [Join req.Types ","]
      else if req.Limit.isSome ∧ "limit" = key then req.Limit.map (fun l => [Itoa l])
      else if req.Language ≠ "" ∧ "language" = key then some [req.Language]
      else if req.Country.length > 0 ∧ "country" = key then some [Join req.Country ","]
      else if req.BBox.length = 4 ∧ "bbox" = key then
        some [searchbox.formatFloatArray std req.BBox]
      else if "proximity" = key ∧ (req.ProximityIP = true ∨ req.Proximity.length = 2) then
        (if req.ProximityIP = true then some ["ip"]
         else some [searchbox.formatFloatArray std req.Proximity])
      else if req.Autocomplete.isSome ∧ "autocomplete" = key then
        req.Autocomplete.map (fun b => [FormatBool b])
      else if "q" = key then some [req.Query]
      else if "access_token" = key then some [s.token]
      else none := by
  obtain ⟨Query, Autocomplete, Proximity, ProximityIP, BBox, Country, Language, Limit, Types,
    POICategory, Navigation⟩ := req
  cases Autocomplete <;> cases Limit <;> cases Navigation <;>
  · unfold searchbox.Service.buildForwardQuery
    lift_lets
    intro q0 q1 q2 q3 q4 q5 q6 q7 q8 q9 q10 q11
    simp only [q11, q10, q9, q8, q7, q6, q5, q4, q3, q2, q1, q0,
      lookup_addNavigationParams, Values.lookup_proximity_step,
      Values.lookup_ite_Set, Values.lookup_Set, Values.lookup_nil]
    simp [ite_some_orElse, none_orElse_apply]

/-- The value list `buildCategorySearchQuery` stores under an arbitrary key: what the
Search-Along-Route block sets, otherwise what the navigation block sets, and otherwise
what the builder itself sets. -/
theorem searchbox_lookup_buildCategorySearchQuery (std : Strconv) (s : searchbox.Service)
    (req : searchbox.CategorySearchRequest) (key : String) :
    (searchbox.Service.buildCategorySearchQuery std s req).lookup key =
      (match req.SAR with
      | some sar =>
        if sar.TimeDeviation.isSome ∧ "time_deviation" = key then
          sar.TimeDeviation.map (fun t => [Itoa t])
        else if sar.Route.length > 0 ∧ "route" = key then
          some [searchbox.encodeRoute std sar.Route]
        else if sar.Type_ ≠ "" ∧ "sar_type" = key then some [sar.Type_]
        else none
      | none => none).orElse fun _ =>
      (match req.Navigation with
      | some nav =>
        if nav.Profile ≠ "" ∧ "navigation_profile" = key then some [nav.Profile]
        else if nav.Origin.length = 2 ∧ "origin" = key then
          some [searchbox.formatFloatArray std nav.Origin]
        else if nav.ETAType ≠ "" ∧ "eta_type" = key then some [nav.ETAType]
        else none
      | none => none).orElse fun _ =>
      if req.Limit.isSome ∧ "limit" = key then req.Limit.map (fun l => [Itoa l])
      else if req.Language ≠ "" ∧ "language" = key then some [req.Language]
      else if req.Country.length > 0 ∧ "country" = key then some [Join req.Country ","]
      else if req.BBox.length = 4 ∧ "bbox" = key then
        some [searchbox.formatFloatArray std req.BBox]
      else if "proximity" = key ∧ (req.ProximityIP = true ∨ req.Proximity.length = 2) then
        (if req.ProximityIP = true then some ["ip"]
         else some [searchbox.formatFloatArray std req.Proximity])
      else if "access_token" = key then some [s.token]
      else none := by
  obtain ⟨CategoryID, Proximity, ProximityIP, BBox, Country, Language, Limit, Navigation,
    SAR⟩ := req
  have hsar : ∀ sar : Option searchbox.SAROptions,
      sar = none ∨ (∃ t r, sar = some ⟨t, r, none⟩) ∨ (∃ t r d, sar = some ⟨t, r, some d⟩) := by
    intro sar
    rcases sar with _ | ⟨t, r, _ | d⟩
    · exact Or.inl rfl
    · exact Or.inr (Or.inl ⟨t, r, rfl⟩)
    · exact Or.inr (Or.inr ⟨t, r, d, rfl⟩)
  rcases hsar SAR with rfl | ⟨t, r, rfl⟩ | ⟨t, r, d, rfl⟩ <;> cases Limit <;> cases Navigation <;>
  · unfold searchbox.Service.buildCategorySearchQuery
    lift_lets
    intro q0 q1 q2 q3 q4 q5 q6 q7 q8
    simp only [q8, q7, q6, q5, q4, q3, q2, q1, q0,
      lookup_addNavigationParams, lookup_addSARParams, Values.lookup_proximity_step,
      Values.lookup_ite_Set, Values.lookup_Set, Values.lookup_nil]
    simp [ite_some_orElse, none_orElse_apply]

/-- The value list `buildListCategoriesQuery` stores under an arbitrary key. -/
theorem searchbox_lookup_buildListCategoriesQuery (s : searchbox.Service)
    (req : searchbox.ListCategoriesRequest) (key : String) :
    (searchbox.Service.buildListCategoriesQuery s req).lookup key =
      if req.Language ≠ "" ∧ "language" = key then some [req.Language]
      else if "access_token" = key then some [s.token]
      else none := by
  unfold searchbox.Service.buildListCategoriesQuery
  lift_lets
  intro q0 q1 q2
  simp only [q2, q1, q0, Values.lookup_ite_Set, Values.lookup_Set, Values.lookup_nil]

/-- The value list `buildReverseQuery` (searchbox) stores under an arbitrary key. -/
theorem searchbox_lookup_buildReverseQuery (std : Strconv) (s : searchbox.Service)
    (req : searchbox.ReverseRequest) (key : String) :
    (searchbox.Service.buildReverseQuery std s req).lookup key =
      if req.Types.length > 0 ∧ "types" = key then some [Join req.Types ","]
      else if req.Limit.isSome ∧ "limit" = key then req.Limit.map (fun l => [Itoa l])
      else if req.Language ≠ "" ∧ "language" = key then some [req.Language]
      else if req.Country.length > 0 ∧ "country" = key then some [Join req.Country ","]
      else if "latitude" = key then some [std.FormatFloat req.Latitude 'f' (-1) 64]
      else if "longitude" = key then some [std.FormatFloat req.Longitude 'f' (-1) 64]
      else if "access_token" = key then some [s.token]
      else none := by
  obtain ⟨Longitude, Latitude, Country, Language, Limit, Types⟩ := req
  cases Limit <;>
  · unfold searchbox.Service.buildReverseQuery
    lift_lets
    intro q0 q1 q2 q3 q4 q5 q6 q7
    simp only [q7, q6, q5, q4, q3, q2, q1, q0,
      Values.lookup_ite_Set, Values.lookup_Set, Values.lookup_nil]
    simp

/-! ## Non-empty encodings -/


/-- A string of positive length is not the empty string. -/
theorem String.ne_empty_of_length_pos (s : String) (h : 0 < s.length) : s ≠ "" := by
  rintro rfl
  simp at h

/-- Digit generation never empties a non-empty accumulator. -/
theorem toDigitsCore_ne_nil (b : Nat) : ∀ (fuel n : Nat) (ds : List Char), ds ≠ [] →
    Nat.toDigitsCore b fuel n ds ≠ [] := by
  intro fuel
  induction fuel with
  | zero => intro n ds h; simpa [Nat.toDigitsCore] using h
  | succ fuel ih =>
    intro n ds _
    simp only [Nat.toDigitsCore]
    split
    · simp
    · exact ih _ _ (by simp)

/-- The decimal text of a natural number has at least one digit. -/
theorem Nat_repr_length_pos (n : Nat) : 0 < (Nat.repr n).length := by
  have h : Nat.toDigits 10 n ≠ [] := by
    simp only [Nat.toDigits, Nat.toDigitsCore]
    split
    · simp
    · exact toDigitsCore_ne_nil 10 _ _ _ (by simp)
  simp only [Nat.repr, String.length, List.asString]
  exact List.length_pos.mpr h

/-- The decimal text of an `int` is never empty. -/
theorem Itoa_ne_empty (i : Int) : Itoa i ≠ "" := by
  apply String.ne_empty_of_length_pos
  cases i with
  | ofNat m => exact Nat_repr_length_pos m
  | negSucc m =>
    show 0 < ("-" ++ Nat.repr (m + 1)).length
    rw [String.length_append]
    have := Nat_repr_length_pos (m + 1)
    omega

/-- The text of a boolean is never empty. -/
theorem FormatBool_ne_empty (b : Bool) : FormatBool b ≠ "" := by
  cases b <;> decide

/-- A join is empty only for the empty list and for the list holding one empty string. -/
theorem Join_ne_empty (l : List String) (sep : String) (hsep : 0 < sep.length)
    (h0 : l ≠ []) (h1 : l ≠ [""]) : Join l sep ≠ "" := by
  rcases l with _ | ⟨a, _ | ⟨b, rest⟩⟩
  · exact absurd rfl h0
  · simpa [Join] using h1
  · apply String.ne_empty_of_length_pos
    simp only [Join, String.length_append]
    omega

/-- An array of at least two elements is formatted to a non-empty string (searchbox). -/
theorem searchbox_formatFloatArray_ne_empty (std : Strconv) (arr : List Float64)
    (h : 2 ≤ arr.length) : searchbox.formatFloatArray std arr ≠ "" := by
  rw [(formatFloatArray_eq_Join std arr).2]
  rcases arr with _ | ⟨a, _ | ⟨b, rest⟩⟩
  · simp at h
  · simp at h
  · apply String.ne_empty_of_length_pos
    simp only [List.map_cons, Join, String.length_append]
    have : ",".length = 1 := by decide
    omega

/-- An array of at least two elements is formatted to a non-empty string (geocoding). -/
theorem geocoding_formatFloatArray_ne_empty (std : Strconv) (arr : List Float64)
    (h : 2 ≤ arr.length) : geocoding.formatFloatArray std arr ≠ "" := by
  rw [(formatFloatArray_eq_Join std arr).1, ← (formatFloatArray_eq_Join std arr).2]
  exact searchbox_formatFloatArray_ne_empty std arr h

/-- The function `encodeRoute` gives the empty string only for the empty route and for a route of one
point that has fewer than two elements. -/
theorem encodeRoute_ne_empty (std : Strconv) (route : List (List Float64))
    (h0 : route ≠ []) (h1 : ¬ ∃ p, route = [p] ∧ p.length < 2) :
    searchbox.encodeRoute std route ≠ "" := by
  rw [encodeRoute_eq_Join]
  have hsemi : ";".length = 1 := by decide
  have hcomma : ",".length = 1 := by decide
  rcases route with _ | ⟨p, _ | ⟨p', rest⟩⟩
  · exact absurd rfl h0
  · rcases p with _ | ⟨c0, _ | ⟨c1, more⟩⟩
    · exact absurd ⟨[], rfl, by simp⟩ h1
    · exact absurd ⟨[c0], rfl, by simp⟩ h1
    · apply String.ne_empty_of_length_pos
      simp only [List.map_cons, List.map_nil, Join, String.length_append]
      omega
  · apply String.ne_empty_of_length_pos
    simp only [List.map_cons, Join, String.length_append]
    omega

/-! ## The claims about the query builders -/


/-- C5 (failing input): the request that `Batch` hands to the engine carries no query,
so no `access_token`: erasing the query of every request before it reaches the engine
never changes the outcome of `Batch`, which does not depend on the service token at
all; on an engine that echoes the token it received, a batch request of one valid query
under the token `test-token` comes back with "no query". The nine query builders, whose
result the other endpoints pass to `Get`, do set `access_token` to the service token. -/
theorem Batch_sends_no_access_token {ρ : Type} (std : Strconv)
    (net : http.Stdlib geocoding.BatchBody ρ) (zero : ρ) (s : geocoding.Service)
    (ss : searchbox.Service) (req : geocoding.BatchRequest) :
    geocoding.Service.Batch std net zero s req =
      geocoding.Service.Batch std net zero
        ⟨s.token, ⟨s.httpClient.baseURL,
          fun r => s.httpClient.httpClient { r with Query := none }⟩⟩ req ∧
    (∀ token : String, geocoding.Service.Batch std net zero s req =
      geocoding.Service.Batch std net zero ⟨token, s.httpClient⟩ req) ∧
    geocoding.Service.Batch goStrconv sampleNet "" sampleService ⟨[testQuery]⟩ =
      .ok "no query" ∧
    (∀ r, (geocoding.Service.buildForwardQuery std s r).lookup "access_token" =
      some [s.token]) ∧
    (∀ r, (geocoding.Service.buildStructuredForwardQuery std s r).lookup "access_token" =
      some [s.token]) ∧
    (∀ r, (geocoding.Service.buildReverseQuery std s r).lookup "access_token" =
      some [s.token]) ∧
    (∀ r, (searchbox.Service.buildSuggestQuery std ss r).lookup "access_token" =
      some [ss.token]) ∧
    (∀ r, (searchbox.Service.buildRetrieveQuery std ss r).lookup "access_token" =
      some [ss.token]) ∧
    (∀ r, (searchbox.Service.buildForwardQuery std ss r).lookup "access_token" =
      some [ss.token]) ∧
    (∀ r, (searchbox.Service.buildCategorySearchQuery std ss r).lookup "access_token" =
      some [ss.token]) ∧
    (∀ r, (searchbox.Service.buildListCategoriesQuery ss r).lookup "access_token" =
      some [ss.token]) ∧
    (∀ r, (searchbox.Service.buildReverseQuery std ss r).lookup "access_token" =
      some [ss.token]) := by
  refine ⟨rfl, fun _ => rfl, rfl, ?_, ?_, ?_, ?_, ?_, ?_, ?_, ?_, ?_⟩
  · intro r; rw [geocoding_lookup_buildForwardQuery]; simp
  · intro r; rw [geocoding_lookup_buildStructuredForwardQuery]; simp
  · intro r; rw [geocoding_lookup_buildReverseQuery]; simp
  · intro r; rw [searchbox_lookup_buildSuggestQuery]
    cases r.Navigation <;> simp [Option.orElse]
  · intro r; rw [searchbox_lookup_buildRetrieveQuery]
    cases r.Navigation <;> simp [Option.orElse]
  · intro r; rw [searchbox_lookup_buildForwardQuery]
    cases r.Navigation <;> simp [Option.orElse]
  · intro r; rw [searchbox_lookup_buildCategorySearchQuery]
    cases r.Navigation <;> cases r.SAR <;> simp [Option.orElse]
  · intro r; rw [searchbox_lookup_buildListCategoriesQuery]; simp
  · intro r; rw [searchbox_lookup_buildReverseQuery]; simp

/-- C6: `buildForwardQuery` of package geocoding always sets `access_token` and `q`,
sets each optional key exactly when its field is present, with the field's encoding as
the only value, and sets no other key. With `strconv.FormatFloat` printing -122.5, 37.7,
-122.3 and 37.8 as Go does, bbox `[-122.5,37.7,-122.3,37.8]`, country `[US,CA]` and
limit 10 give `bbox=-122.5,37.7,-122.3,37.8`, `country=US,CA`, `limit=10` and no
`worldview` key. -/
theorem buildForwardQuery_spec (std : Strconv) (s : geocoding.Service)
    (req : geocoding.ForwardRequest) :
    (geocoding.Service.buildForwardQuery std s req).lookup "access_token" = some [s.token] ∧
    (geocoding.Service.buildForwardQuery std s req).lookup "q" = some [req.Query] ∧
    (geocoding.Service.buildForwardQuery std s req).lookup "autocomplete" =
      req.Autocomplete.map (fun b => [FormatBool b]) ∧
    (geocoding.Service.buildForwardQuery std s req).lookup "bbox" =
      (if req.BBox.length = 4 then some [geocoding.formatFloatArray std req.BBox] else none) ∧
    (geocoding.Service.buildForwardQuery std s req).lookup "country" =
      (if req.Country ≠ [] then some [Join req.Country ","] else none) ∧
    (geocoding.Service.buildForwardQuery std s req).lookup "language" =
      (if req.Language ≠ "" then some [req.Language] else none) ∧
    (geocoding.Service.buildForwardQuery std s req).lookup "limit" =
      req.Limit.map (fun l => [Itoa l]) ∧
    (geocoding.Service.buildForwardQuery std s req).lookup "proximity" =
      (if req.Proximity.length = 2 then some [geocoding.formatFloatArray std req.Proximity]
       else none) ∧
    (geocoding.Service.buildForwardQuery std s req).lookup "types" =
      (if req.Types ≠ [] then some [Join req.Types ","] else none) ∧
    (geocoding.Service.buildForwardQuery std s req).lookup "worldview" =
      (if req.Worldview ≠ "" then some [req.Worldview] else none) ∧
    (∀ key, key ∉ ["access_token", "q", "autocomplete", "bbox", "country", "language",
        "limit", "proximity", "types", "worldview"] →
      (geocoding.Service.buildForwardQuery std s req).lookup key = none) ∧
    (std.FormatFloat fNeg122_5 'f' (-1) 64 = "-122.5" →
      std.FormatFloat f37_7 'f' (-1) 64 = "37.7" →
      std.FormatFloat fNeg122_3 'f' (-1) 64 = "-122.3" →
      std.FormatFloat f37_8 'f' (-1) 64 = "37.8" →
      req.BBox = [fNeg122_5, f37_7, fNeg122_3, f37_8] → req.Country = ["US", "CA"] →
      req.Limit = some 10 → req.Worldview = "" →
      (geocoding.Service.buildForwardQuery std s req).lookup "bbox" =
        some ["-122.5,37.7,-122.3,37.8"] ∧
      (geocoding.Service.buildForwardQuery std s req).lookup "country" = some ["US,CA"] ∧
      (geocoding.Service.buildForwardQuery std s req).lookup "limit" = some ["10"] ∧
      (geocoding.Service.buildForwardQuery std s req).lookup "worldview" = none) := by
  have h := geocoding_lookup_buildForwardQuery std s req
  have hlen : ∀ l : List String, l.length > 0 ↔ l ≠ [] := by
    intro l; cases l <;> simp
  refine ⟨?_, ?_, ?_, ?_, ?_, ?_, ?_, ?_, ?_, ?_, ?_, ?_⟩
  · rw [h]; simp
  · rw [h]; simp
  · rw [h]; cases req.Autocomplete <;> simp
  · rw [h]; simp
  · rw [h]; simp [hlen]
  · rw [h]; simp
  · rw [h]; cases req.Limit <;> simp
  · rw [h]; simp
  · rw [h]; simp [hlen]
  · rw [h]; simp
  · intro key hkey
    simp only [List.mem_cons, List.mem_singleton, List.not_mem_nil, or_false, not_or] at hkey
    obtain ⟨k1, k2, k3, k4, k5, k6, k7, k8, k9, k10⟩ := hkey
    rw [h]
    simp [Ne.symm k1, Ne.symm k2, Ne.symm k3, Ne.symm k4, Ne.symm k5, Ne.symm k6, Ne.symm k7,
      Ne.symm k8, Ne.symm k9, Ne.symm k10]
  · intro f1 f2 f3 f4 hb hc hl hw
    have hj : Join ["US", "CA"] "," = "US,CA" := by decide
    have hi : Itoa 10 = "10" := by decide
    have hf : geocoding.formatFloatArray std [fNeg122_5, f37_7, fNeg122_3, f37_8] =
        "-122.5,37.7,-122.3,37.8" := by
      rw [(formatFloatArray_eq_Join std _).1]
      simp only [List.map_cons, List.map_nil, f1, f2, f3, f4]
      decide
    refine ⟨?_, ?_, ?_, ?_⟩
    · rw [h]; simp [hb, hf]
    · rw [h]; simp [hc, hj]
    · rw [h]; simp [hl, hi]
    · rw [h]; simp [hw]

/-- C6 (witness): the request of the example under the documented formatter. -/
theorem buildForwardQuery_spec_witness :
    (geocoding.Service.buildForwardQuery goStrconv sampleService
        { Query := "San Francisco", BBox := [fNeg122_5, f37_7, fNeg122_3, f37_8],
          Country := ["US", "CA"], Limit := some 10 }).lookup "bbox" =
      some ["-122.5,37.7,-122.3,37.8"] ∧
    (geocoding.Service.buildForwardQuery goStrconv sampleService
        { Query := "San Francisco", BBox := [fNeg122_5, f37_7, fNeg122_3, f37_8],
          Country := ["US", "CA"], Limit := some 10 }).lookup "country" = some ["US,CA"] ∧
    (geocoding.Service.buildForwardQuery goStrconv sampleService
        { Query := "San Francisco", BBox := [fNeg122_5, f37_7, fNeg122_3, f37_8],
          Country := ["US", "CA"], Limit := some 10 }).lookup "limit" = some ["10"] ∧
    (geocoding.Service.buildForwardQuery goStrconv sampleService
        { Query := "San Francisco", BBox := [fNeg122_5, f37_7, fNeg122_3, f37_8],
          Country := ["US", "CA"], Limit := some 10 }).lookup "worldview" = none :=
  (buildForwardQuery_spec goStrconv sampleService
      { Query := "San Francisco", BBox := [fNeg122_5, f37_7, fNeg122_3, f37_8],
        Country := ["US", "CA"], Limit := some 10 }).2.2.2.2.2.2.2.2.2.2.2
    (by decide) (by decide) (by decide) (by decide) rfl rfl rfl rfl

/-- C8: in the suggest, forward and category builders of package searchbox the
`proximity` key is `ip` when the IP flag is set (also when a coordinate is given as
well), the formatted coordinate `<lon>,<lat>` when the flag is not set and the
coordinate has exactly two elements, and absent otherwise. -/
theorem proximity_encoding (std : Strconv) (s : searchbox.Service) :
    (∀ req : searchbox.SuggestRequest,
      (searchbox.Service.buildSuggestQuery std s req).lookup "proximity" =
        if req.ProximityIP = true then some ["ip"]
        else if req.Proximity.length = 2 then
          some [searchbox.formatFloatArray std req.Proximity]
        else none) ∧
    (∀ req : searchbox.ForwardRequest,
      (searchbox.Service.buildForwardQuery std s req).lookup "proximity" =
        if req.ProximityIP = true then some ["ip"]
        else if req.Proximity.length = 2 then
          some [searchbox.formatFloatArray std req.Proximity]
        else none) ∧
    (∀ req : searchbox.CategorySearchRequest,
      (searchbox.Service.buildCategorySearchQuery std s req).lookup "proximity" =
        if req.ProximityIP = true then some ["ip"]
        else if req.Proximity.length = 2 then
          some [searchbox.formatFloatArray std req.Proximity]
        else none) ∧
    (∀ lon lat : Float64, searchbox.formatFloatArray std [lon, lat] =
      std.FormatFloat lon 'f' (-1) 64 ++ "," ++ std.FormatFloat lat 'f' (-1) 64) := by
  refine ⟨?_, ?_, ?_, ?_⟩
  · intro req
    rw [searchbox_lookup_buildSuggestQuery]
    cases req.Navigation <;> by_cases h1 : req.ProximityIP = true <;>
      by_cases h2 : req.Proximity.length = 2 <;> simp [h1, h2, Option.orElse]
  · intro req
    rw [searchbox_lookup_buildForwardQuery]
    cases req.Navigation <;> by_cases h1 : req.ProximityIP = true <;>
      by_cases h2 : req.Proximity.length = 2 <;> simp [h1, h2, Option.orElse]
  · intro req
    rw [searchbox_lookup_buildCategorySearchQuery]
    cases req.Navigation <;> cases req.SAR <;> by_cases h1 : req.ProximityIP = true <;>
      by_cases h2 : req.Proximity.length = 2 <;> simp [h1, h2, Option.orElse]
  · intro lon lat
    rw [(formatFloatArray_eq_Join std _).2]
    simp [Join]


/-- C7 (counterexample): a country list holding one empty string makes the geocoding
forward builder emit `country` with an empty value, and a route of one point without
coordinates makes the category builder emit `route` with an empty value. -/
theorem builder_emits_empty_parameter :
    (geocoding.Service.buildForwardQuery goStrconv sampleService
      { Query := "a", Country := [""] }).lookup "country" = some [""] ∧
    (searchbox.Service.buildCategorySearchQuery goStrconv sampleSearchService
      { CategoryID := "cafe", SAR := some { Route := [[]] } }).lookup "route" = some [""] := by
  decide

/-- Case analysis on an `if` whose value is known to be `some w`. -/
theorem ite_some_elim {P : Prop} {c : Prop} [Decidable c] {a b : Option (List String)}
    {w : List String} (h : (if c then a else b) = some w)
    (h1 : c → a = some w → P) (h2 : b = some w → P) : P := by
  by_cases hc : c
  · rw [if_pos hc] at h; exact h1 hc h
  · rw [if_neg hc] at h; exact h2 h

/-- Case analysis on an `orElse` whose value is known to be `some w`. -/
theorem orElse_some_elim {P : Prop} {o : Option (List String)}
    {f : Unit → Option (List String)} {w : List String} (h : o.orElse f = some w)
    (h1 : o = some w → P) (h2 : f () = some w → P) : P := by
  cases o with
  | none => exact h2 h
  | some x => exact h1 h

/-- C7 (amended): for a request none of whose string lists (country, types,
poi_category) is the one-element list holding the empty string, and whose route is not a
single point with fewer than two elements, every key of the built query other than the
required ones (`access_token`, `q`, `session_token`, `longitude`, `latitude`) holds
exactly one value, and that value is not empty. This holds for each of the nine
builders. -/
theorem optional_keys_nonempty (std : Strconv) (gs : geocoding.Service)
    (ss : searchbox.Service) (q : Values) (key : String) (vs : List String)
    (hq :
      (∃ req : geocoding.ForwardRequest, req.Country ≠ [""] ∧ req.Types ≠ [""] ∧
        q = geocoding.Service.buildForwardQuery std gs req) ∨
      (∃ req : geocoding.StructuredForwardRequest,
        q = geocoding.Service.buildStructuredForwardQuery std gs req) ∨
      (∃ req : geocoding.ReverseRequest, req.Country ≠ [""] ∧ req.Types ≠ [""] ∧
        q = geocoding.Service.buildReverseQuery std gs req) ∨
      (∃ req : searchbox.SuggestRequest, req.Country ≠ [""] ∧ req.Types ≠ [""] ∧
        req.POICategory ≠ [""] ∧ q = searchbox.Service.buildSuggestQuery std ss req) ∨
      (∃ req : searchbox.RetrieveRequest,
        q = searchbox.Service.buildRetrieveQuery std ss req) ∨
      (∃ req : searchbox.ForwardRequest, req.Country ≠ [""] ∧ req.Types ≠ [""] ∧
        req.POICategory ≠ [""] ∧ q = searchbox.Service.buildForwardQuery std ss req) ∨
      (∃ req : searchbox.CategorySearchRequest, req.Country ≠ [""] ∧
        (∀ sar, req.SAR = some sar → ¬ ∃ p, sar.Route = [p] ∧ p.length < 2) ∧
        q = searchbox.Service.buildCategorySearchQuery std ss req) ∨
      (∃ req : searchbox.ListCategoriesRequest,
        q = searchbox.Service.buildListCategoriesQuery ss req) ∨
      (∃ req : searchbox.ReverseRequest, req.Country ≠ [""] ∧ req.Types ≠ [""] ∧
        q = searchbox.Service.buildReverseQuery std ss req))
    (hkey : key ∉ ["access_token", "q", "session_token", "longitude", "latitude"])
    (hvs : q.lookup key = some vs) :
    ∃ v, vs = [v] ∧ v ≠ "" := by
  simp only [List.mem_cons, List.mem_singleton, List.not_mem_nil, or_false, not_or] at hkey
  obtain ⟨k1, k2, k3, k4, k5⟩ := hkey
  have hcomma : 0 < ",".length := by decide
  have hlen : ∀ l : List String, l.length > 0 → l ≠ [] := by
    intro l; cases l <;> simp
  have hnav : ∀ (nav : Option searchbox.NavigationOptions) (w : List String),
      (match nav with
      | some nav =>
        if nav.Profile ≠ "" ∧ "navigation_profile" = key then some [nav.Profile]
        else if nav.Origin.length = 2 ∧ "origin" = key then
          some [searchbox.formatFloatArray std nav.Origin]
        else if nav.ETAType ≠ "" ∧ "eta_type" = key then some [nav.ETAType]
        else none
      | none => none) = some w → ∃ v, w = [v] ∧ v ≠ "" := by
    intro nav w hw
    cases nav with
    | none => simp at hw
    | some nav =>
      simp only at hw
      split_ifs at hw with c1 c2 c3
      · exact ⟨_, (Option.some.inj hw).symm, c1.1⟩
      · exact ⟨_, (Option.some.inj hw).symm,
          searchbox_formatFloatArray_ne_empty std _ (by omega)⟩
      · exact ⟨_, (Option.some.inj hw).symm, c3.1⟩
  have hsar : ∀ (sar : Option searchbox.SAROptions) (w : List String),
      (∀ x, sar = some x → ¬ ∃ p, x.Route = [p] ∧ p.length < 2) →
      (match sar with
      | some sar =>
        if sar.TimeDeviation.isSome ∧ "time_deviation" = key then
          sar.TimeDeviation.map (fun t => [Itoa t])
        else if sar.Route.length > 0 ∧ "route" = key then
          some [searchbox.encodeRoute std sar.Route]
        else if sar.Type_ ≠ "" ∧ "sar_type" = key then some [sar.Type_]
        else none
      | none => none) = some w → ∃ v, w = [v] ∧ v ≠ "" := by
    intro sar w hroute hw
    cases sar with
    | none => simp at hw
    | some sar =>
      simp only at hw
      refine ite_some_elim hw (fun _ h => ?_) fun hw => ?_
      · cases hd : sar.TimeDeviation with
        | none => rw [hd] at h; simp at h
        | some t => rw [hd] at h; exact ⟨_, (Option.some.inj h).symm, Itoa_ne_empty t⟩
      refine ite_some_elim hw (fun c h => ⟨_, (Option.some.inj h).symm,
        encodeRoute_ne_empty std _ (by intro h0; rw [h0] at c; simp at c)
          (hroute sar rfl)⟩) fun hw => ?_
      refine ite_some_elim hw (fun c h => ⟨_, (Option.some.inj h).symm, c.1⟩) fun hw => ?_
      cases hw
  have hprox : ∀ (ip : Bool) (prox : List Float64) (w : List String),
      "proximity" = key ∧ (ip = true ∨ prox.length = 2) →
      (if ip = true then some ["ip"] else some [searchbox.formatFloatArray std prox]) = some w →
      ∃ v, w = [v] ∧ v ≠ "" := by
    intro ip prox w c h
    by_cases hip : ip = true
    · rw [if_pos hip] at h
      exact ⟨_, (Option.some.inj h).symm, by decide⟩
    · rw [if_neg hip] at h
      exact ⟨_, (Option.some.inj h).symm, searchbox_formatFloatArray_ne_empty std _
        (by rcases c.2 with h1 | h1
            · exact absurd h1 hip
            · omega)⟩
  have hopt : ∀ (o : Option Int) (w : List String),
      o.map (fun l => [Itoa l]) = some w → ∃ v, w = [v] ∧ v ≠ "" := by
    intro o w hw
    cases o with
    | none => simp at hw
    | some l => exact ⟨_, (Option.some.inj hw).symm, Itoa_ne_empty l⟩
  have hbool : ∀ (o : Option Bool) (w : List String),
      o.map (fun b => [FormatBool b]) = some w → ∃ v, w = [v] ∧ v ≠ "" := by
    intro o w hw
    cases o with
    | none => simp at hw
    | some b => exact ⟨_, (Option.some.inj hw).symm, FormatBool_ne_empty b⟩
  rcases hq with ⟨req, hc, ht, rfl⟩ | ⟨req, rfl⟩ | ⟨req, hc, ht, rfl⟩ | ⟨req, hc, ht, hp, rfl⟩ |
    ⟨req, rfl⟩ | ⟨req, hc, ht, hp, rfl⟩ | ⟨req, hc, hr, rfl⟩ | ⟨req, rfl⟩ | ⟨req, hc, ht, rfl⟩
  · rw [geocoding_lookup_buildForwardQuery] at hvs
    refine ite_some_elim hvs (fun c h => ⟨_, (Option.some.inj h).symm, c.1⟩) fun hvs => ?_
    refine ite_some_elim hvs (fun c h => ⟨_, (Option.some.inj h).symm,
      Join_ne_empty _ _ hcomma (hlen _ c.1) ht⟩) fun hvs => ?_
    refine ite_some_elim hvs (fun c h => ⟨_, (Option.some.inj h).symm,
      geocoding_formatFloatArray_ne_empty std _ (by omega)⟩) fun hvs => ?_
    refine ite_some_elim hvs (fun _ h => hopt _ _ h) fun hvs => ?_
    refine ite_some_elim hvs (fun c h => ⟨_, (Option.some.inj h).symm, c.1⟩) fun hvs => ?_
    refine ite_some_elim hvs (fun c h => ⟨_, (Option.some.inj h).symm,
      Join_ne_empty _ _ hcomma (hlen _ c.1) hc⟩) fun hvs => ?_
    refine ite_some_elim hvs (fun c h => ⟨_, (Option.some.inj h).symm,
      geocoding_formatFloatArray_ne_empty std _ (by omega)⟩) fun hvs => ?_
    refine ite_some_elim hvs (fun _ h => hbool _ _ h) fun hvs => ?_
    refine ite_some_elim hvs (fun c _ => absurd c.symm k2) fun hvs => ?_
    refine ite_some_elim hvs (fun c _ => absurd c.symm k1) fun hvs => ?_
    cases hvs
  · rw [geocoding_lookup_buildStructuredForwardQuery] at hvs
    refine ite_some_elim hvs (fun c h => ⟨_, (Option.some.inj h).symm, c.1⟩) fun hvs => ?_
    refine ite_some_elim hvs (fun c h => ⟨_, (Option.some.inj h).symm,
      geocoding_formatFloatArray_ne_empty std _ (by omega)⟩) fun hvs => ?_
    refine ite_some_elim hvs (fun _ h => hopt _ _ h) fun hvs => ?_
    refine ite_some_elim hvs (fun c h => ⟨_, (Option.some.inj h).symm, c.1⟩) fun hvs => ?_
    refine ite_some_elim hvs (fun c h => ⟨_, (Option.some.inj h).symm,
      geocoding_formatFloatArray_ne_empty std _ (by omega)⟩) fun hvs => ?_
    refine ite_some_elim hvs (fun _ h => hbool _ _ h) fun hvs => ?_
    refine ite_some_elim hvs (fun c h => ⟨_, (Option.some.inj h).symm, c.1⟩) fun hvs => ?_
    refine ite_some_elim hvs (fun c h => ⟨_, (Option.some.inj h).symm, c.1⟩) fun hvs => ?_
    refine ite_some_elim hvs (fun c h => ⟨_, (Option.some.inj h).symm, c.1⟩) fun hvs => ?_
    refine ite_some_elim hvs (fun c h => ⟨_, (Option.some.inj h).symm, c.1⟩) fun hvs => ?_
    refine ite_some_elim hvs (fun c h => ⟨_, (Option.some.inj h).symm, c.1⟩) fun hvs => ?_
    refine ite_some_elim hvs (fun c h => ⟨_, (Option.some.inj h).symm, c.1⟩) fun hvs => ?_
    refine ite_some_elim hvs (fun c h => ⟨_, (Option.some.inj h).symm, c.1⟩) fun hvs => ?_
    refine ite_some_elim hvs (fun c _ => absurd c.symm k1) fun hvs => ?_
    cases hvs
  · rw [geocoding_lookup_buildReverseQuery] at hvs
    refine ite_some_elim hvs (fun c h => ⟨_, (Option.some.inj h).symm, c.1⟩) fun hvs => ?_
    refine ite_some_elim hvs (fun c h => ⟨_, (Option.some.inj h).symm,
      Join_ne_empty _ _ hcomma (hlen _ c.1) ht⟩) fun hvs => ?_
    refine ite_some_elim hvs (fun _ h => hopt _ _ h) fun hvs => ?_
    refine ite_some_elim hvs (fun c h => ⟨_, (Option.some.inj h).symm, c.1⟩) fun hvs => ?_
    refine ite_some_elim hvs (fun c h => ⟨_, (Option.some.inj h).symm,
      Join_ne_empty _ _ hcomma (hlen _ c.1) hc⟩) fun hvs => ?_
    refine ite_some_elim hvs (fun c _ => absurd c.symm k5) fun hvs => ?_
    refine ite_some_elim hvs (fun c _ => absurd c.symm k4) fun hvs => ?_
    refine ite_some_elim hvs (fun c _ => absurd c.symm k1) fun hvs => ?_
    cases hvs
  · rw [searchbox_lookup_buildSuggestQuery] at hvs
    refine orElse_some_elim hvs (fun h => hnav _ _ h) fun hvs => ?_
    refine ite_some_elim hvs (fun c h => ⟨_, (Option.some.inj h).symm,
      Join_ne_empty _ _ hcomma (hlen _ c.1) hp⟩) fun hvs => ?_
    refine ite_some_elim hvs (fun c h => ⟨_, (Option.some.inj h).symm,
      Join_ne_empty _ _ hcomma (hlen _ c.1) ht⟩) fun hvs => ?_
    refine ite_some_elim hvs (fun _ h => hopt _ _ h) fun hvs => ?_
    refine ite_some_elim hvs (fun c h => ⟨_, (Option.some.inj h).symm, c.1⟩) fun hvs => ?_
    refine ite_some_elim hvs (fun c h => ⟨_, (Option.some.inj h).symm,
      Join_ne_empty _ _ hcomma (hlen _ c.1) hc⟩) fun hvs => ?_
    refine ite_some_elim hvs (fun c h => ⟨_, (Option.some.inj h).symm,
      searchbox_formatFloatArray_ne_empty std _ (by omega)⟩) fun hvs => ?_
    refine ite_some_elim hvs (fun c h => hprox _ _ _ c h) fun hvs => ?_
    refine ite_some_elim hvs (fun c _ => absurd c.symm k3) fun hvs => ?_
    refine ite_some_elim hvs (fun c _ => absurd c.symm k2) fun hvs => ?_
    refine ite_some_elim hvs (fun c _ => absurd c.symm k1) fun hvs => ?_
    cases hvs
  · rw [searchbox_lookup_buildRetrieveQuery] at hvs
    refine orElse_some_elim hvs (fun h => hnav _ _ h) fun hvs => ?_
    refine ite_some_elim hvs (fun c _ => absurd c.symm k3) fun hvs => ?_
    refine ite_some_elim hvs (fun c _ => absurd c.symm k1) fun hvs => ?_
    cases hvs
  · rw [searchbox_lookup_buildForwardQuery] at hvs
    refine orElse_some_elim hvs (fun h => hnav _ _ h) fun hvs => ?_
    refine ite_some_elim hvs (fun c h => ⟨_, (Option.some.inj h).symm,
      Join_ne_empty _ _ hcomma (hlen _ c.1) hp⟩) fun hvs => ?_
    refine ite_some_elim hvs (fun c h => ⟨_, (Option.some.inj h).symm,
      Join_ne_empty _ _ hcomma (hlen _ c.1) ht⟩) fun hvs => ?_
    refine ite_some_elim hvs (fun _ h => hopt _ _ h) fun hvs => ?_
    refine ite_some_elim hvs (fun c h => ⟨_, (Option.some.inj h).symm, c.1⟩) fun hvs => ?_
    refine ite_some_elim hvs (fun c h => ⟨_, (Option.some.inj h).symm,
      Join_ne_empty _ _ hcomma (hlen _ c.1) hc⟩) fun hvs => ?_
    refine ite_some_elim hvs (fun c h => ⟨_, (Option.some.inj h).symm,
      searchbox_formatFloatArray_ne_empty std _ (by omega)⟩) fun hvs => ?_
    refine ite_some_elim hvs (fun c h => hprox _ _ _ c h) fun hvs => ?_
    refine ite_some_elim hvs (fun _ h => hbool _ _ h) fun hvs => ?_
    refine ite_some_elim hvs (fun c _ => absurd c.symm k2) fun hvs => ?_
    refine ite_some_elim hvs (fun c _ => absurd c.symm k1) fun hvs => ?_
    cases hvs
  · rw [searchbox_lookup_buildCategorySearchQuery] at hvs
    refine orElse_some_elim hvs (fun h => hsar _ _ hr h) fun hvs => ?_
    refine orElse_some_elim hvs (fun h => hnav _ _ h) fun hvs => ?_
    refine ite_some_elim hvs (fun _ h => hopt _ _ h) fun hvs => ?_
    refine ite_some_elim hvs (fun c h => ⟨_, (Option.some.inj h).symm, c.1⟩) fun hvs => ?_
    refine ite_some_elim hvs (fun c h => ⟨_, (Option.some.inj h).symm,
      Join_ne_empty _ _ hcomma (hlen _ c.1) hc⟩) fun hvs => ?_
    refine ite_some_elim hvs (fun c h => ⟨_, (Option.some.inj h).symm,
      searchbox_formatFloatArray_ne_empty std _ (by omega)⟩) fun hvs => ?_
    refine ite_some_elim hvs (fun c h => hprox _ _ _ c h) fun hvs => ?_
    refine ite_some_elim hvs (fun c _ => absurd c.symm k1) fun hvs => ?_
    cases hvs
  · rw [searchbox_lookup_buildListCategoriesQuery] at hvs
    refine ite_some_elim hvs (fun c h => ⟨_, (Option.some.inj h).symm, c.1⟩) fun hvs => ?_
    refine ite_some_elim hvs (fun c _ => absurd c.symm k1) fun hvs => ?_
    cases hvs
  · rw [searchbox_lookup_buildReverseQuery] at hvs
    refine ite_some_elim hvs (fun c h => ⟨_, (Option.some.inj h).symm,
      Join_ne_empty _ _ hcomma (hlen _ c.1) ht⟩) fun hvs => ?_
    refine ite_some_elim hvs (fun _ h => hopt _ _ h) fun hvs => ?_
    refine ite_some_elim hvs (fun c h => ⟨_, (Option.some.inj h).symm, c.1⟩) fun hvs => ?_
    refine ite_some_elim hvs (fun c h => ⟨_, (Option.some.inj h).symm,
      Join_ne_empty _ _ hcomma (hlen _ c.1) hc⟩) fun hvs => ?_
    refine ite_some_elim hvs (fun c _ => absurd c.symm k5) fun hvs => ?_
    refine ite_some_elim hvs (fun c _ => absurd c.symm k4) fun hvs => ?_
    refine ite_some_elim hvs (fun c _ => absurd c.symm k1) fun hvs => ?_
    cases hvs

/-- C7 (witness): a geocoding forward request with countries `US`, `CA`, and a category
request with a two-point route. -/
theorem optional_keys_nonempty_witness :
    (∃ v, ["US,CA"] = [v] ∧ v ≠ "") ∧
    (∃ v, ["-122.400000,37.800000;-122.500000,37.700000"] = [v] ∧ v ≠ "") :=
  ⟨optional_keys_nonempty goStrconv sampleService sampleSearchService
      (geocoding.Service.buildForwardQuery goStrconv sampleService
        { Query := "a", Country := ["US", "CA"] })
      "country" ["US,CA"]
      (Or.inl ⟨{ Query := "a", Country := ["US", "CA"] }, by decide, by decide, rfl⟩)
      (by decide) (by decide),
   optional_keys_nonempty goStrconv sampleService sampleSearchService
      (searchbox.Service.buildCategorySearchQuery goStrconv sampleSearchService
        { CategoryID := "cafe",
          SAR := some { Route := [[fNeg122_4, f37_8], [fNeg122_5, f37_7]] } })
      "route" ["-122.400000,37.800000;-122.500000,37.700000"]
      (Or.inr (Or.inr (Or.inr (Or.inr (Or.inr (Or.inr (Or.inl
        ⟨{ CategoryID := "cafe",
           SAR := some { Route := [[fNeg122_4, f37_8], [fNeg122_5, f37_7]] } },
          by decide,
          (by
            intro sar hs
            cases hs
            rintro ⟨p, hp, _⟩
            cases hp),
          rfl⟩)))))))
      (by decide) (by decide)⟩


/-! ## Error classification -/

/-- An error is itself, for `errors.Is`. -/
theorem errors_Is_self (e : GoError) : errors.Is e e = true := by
  cases e <;> simp [errors.Is]

/-- An error made by `%w` is the error it wraps, for `errors.Is`. -/
theorem errors_Is_wrapError (msg : String) (err : GoError) :
    errors.Is (.wrapError msg err) err = true := by
  simp [errors.Is, errors_Is_self]

/-- C11 (counterexample): status 403 is not one of the codes the claim lists, yet it does
not give the generic error: it gives an error wrapping `ErrInvalidToken`. -/
theorem mapStatusCodeToError_403 :
    mapStatusCodeToError 403 "forbidden" =
      .wrapError "mapbox: invalid or missing access token: forbidden" ErrInvalidToken ∧
    mapStatusCodeToError 403 "forbidden" ≠ .apiError 403 "forbidden" "" := by
  decide

/-- C11 (amended): `mapStatusCodeToError` gives an error wrapping `ErrInvalidToken` for 401
and 403, `ErrNotFound` for 404, `ErrInvalidRequest` for 422, `ErrRateLimitExceeded` for
429, `ErrServerError` for 500, 502, 503 and 504, each with the text of the wrapped error,
a colon and the message; every other code gives the generic `*Error` with exactly that
status code, the message and no code. -/
theorem mapStatusCodeToError_spec (statusCode : Int) (message : String) :
    (statusCode = 401 ∨ statusCode = 403 →
      mapStatusCodeToError statusCode message =
        .wrapError ("mapbox: invalid or missing access token: " ++ message) ErrInvalidToken) ∧
    (statusCode = 404 →
      mapStatusCodeToError statusCode message =
        .wrapError ("mapbox: resource not found: " ++ message) ErrNotFound) ∧
    (statusCode = 422 →
      mapStatusCodeToError statusCode message =
        .wrapError ("mapbox: invalid request: " ++ message) ErrInvalidRequest) ∧
    (statusCode = 429 →
      mapStatusCodeToError statusCode message =
        .wrapError ("mapbox: rate limit exceeded: " ++ message) ErrRateLimitExceeded) ∧
    (statusCode = 500 ∨ statusCode = 502 ∨ statusCode = 503 ∨ statusCode = 504 →
      mapStatusCodeToError statusCode message =
        .wrapError ("mapbox: server error: " ++ message) ErrServerError) ∧
    (statusCode ∉ [401, 403, 404, 422, 429, 500, 502, 503, 504] →
      mapStatusCodeToError statusCode message = .apiError statusCode message "") ∧
    (∀ msg err, mapStatusCodeToError statusCode message = .wrapError msg err →
      (mapStatusCodeToError statusCode message).Unwrap = some err ∧
      errors.Is (mapStatusCodeToError statusCode message) err = true) := by
  have a1 : ∀ s : String, "mapbox: invalid or missing access token" ++ ": " ++ s =
      "mapbox: invalid or missing access token: " ++ s := by
    intro s; rw [String.append_assoc]; rfl
  have a2 : ∀ s : String, "mapbox: resource not found" ++ ": " ++ s =
      "mapbox: resource not found: " ++ s := by
    intro s; rw [String.append_assoc]; rfl
  have a3 : ∀ s : String, "mapbox: invalid request" ++ ": " ++ s =
      "mapbox: invalid request: " ++ s := by
    intro s; rw [String.append_assoc]; rfl
  have a4 : ∀ s : String, "mapbox: rate limit exceeded" ++ ": " ++ s =
      "mapbox: rate limit exceeded: " ++ s := by
    intro s; rw [String.append_assoc]; rfl
  have a5 : ∀ s : String, "mapbox: server error" ++ ": " ++ s =
      "mapbox: server error: " ++ s := by
    intro s; rw [String.append_assoc]; rfl
  refine ⟨?_, ?_, ?_, ?_, ?_, ?_, ?_⟩
  · rintro (h | h) <;> subst h <;>
      simp [mapStatusCodeToError, ErrInvalidToken, GoError.Error, a1]
  · rintro rfl
    simp [mapStatusCodeToError, ErrNotFound, GoError.Error, a2]
  · rintro rfl
    simp [mapStatusCodeToError, ErrInvalidRequest, GoError.Error, a3]
  · rintro rfl
    simp [mapStatusCodeToError, ErrRateLimitExceeded, GoError.Error, a4]
  · rintro (h | h | h | h) <;> subst h <;>
      simp [mapStatusCodeToError, ErrServerError, GoError.Error, a5]
  · intro h
    simp only [List.mem_cons, List.mem_singleton, List.not_mem_nil, or_false, not_or] at h
    obtain ⟨h1, h2, h3, h4, h5, h6, h7, h8, h9⟩ := h
    simp [mapStatusCodeToError, h1, h2, h3, h4, h5, h6, h7, h8, h9]
  · intro msg err h
    rw [h]
    exact ⟨rfl, errors_Is_wrapError msg err⟩

/-- C11 (witness): the codes 401, 404, 422, 429, 503 and the unlisted code 418. -/
theorem mapStatusCodeToError_spec_witness :
    mapStatusCodeToError 401 "m" =
      .wrapError ("mapbox: invalid or missing access token: " ++ "m") ErrInvalidToken ∧
    mapStatusCodeToError 404 "m" =
      .wrapError ("mapbox: resource not found: " ++ "m") ErrNotFound ∧
    mapStatusCodeToError 422 "m" =
      .wrapError ("mapbox: invalid request: " ++ "m") ErrInvalidRequest ∧
    mapStatusCodeToError 429 "m" =
      .wrapError ("mapbox: rate limit exceeded: " ++ "m") ErrRateLimitExceeded ∧
    mapStatusCodeToError 503 "m" =
      .wrapError ("mapbox: server error: " ++ "m") ErrServerError ∧
    mapStatusCodeToError 418 "m" = .apiError 418 "m" "" ∧
    ((mapStatusCodeToError 401 "m").Unwrap = some ErrInvalidToken ∧
      errors.Is (mapStatusCodeToError 401 "m") ErrInvalidToken = true) :=
  ⟨(mapStatusCodeToError_spec 401 "m").1 (Or.inl rfl),
   (mapStatusCodeToError_spec 404 "m").2.1 rfl,
   (mapStatusCodeToError_spec 422 "m").2.2.1 rfl,
   (mapStatusCodeToError_spec 429 "m").2.2.2.1 rfl,
   (mapStatusCodeToError_spec 503 "m").2.2.2.2.1 (Or.inr (Or.inr (Or.inl rfl))),
   (mapStatusCodeToError_spec 418 "m").2.2.2.2.2.1 (by decide),
   (mapStatusCodeToError_spec 401 "m").2.2.2.2.2.2
     "mapbox: invalid or missing access token: m" ErrInvalidToken (by decide)⟩

/-- C12 (counterexample): status 501 is in the 5xx range, yet the error it gives is the
generic one and is not `ErrServerError`. -/
theorem mapStatusCodeToError_501 :
    mapStatusCodeToError 501 "not implemented" = .apiError 501 "not implemented" "" ∧
    errors.Is (mapStatusCodeToError 501 "not implemented") ErrServerError = false := by
  decide

/-- C12 (amended): among the status codes 500 to 599, `mapStatusCodeToError` returns an
error that is `ErrServerError` exactly for 500, 502, 503 and 504, and the generic `*Error`
with that code and message for the others; 401 and 403 both give an error that is
`ErrInvalidToken`. -/
theorem mapStatusCodeToError_5xx (statusCode : Int) (message : String)
    (h : 500 ≤ statusCode ∧ statusCode ≤ 599) :
    (errors.Is (mapStatusCodeToError statusCode message) ErrServerError = true ↔
      statusCode ∈ [500, 502, 503, 504]) ∧
    (statusCode ∉ [500, 502, 503, 504] →
      mapStatusCodeToError statusCode message = .apiError statusCode message "") ∧
    errors.Is (mapStatusCodeToError 401 message) ErrInvalidToken = true ∧
    errors.Is (mapStatusCodeToError 403 message) ErrInvalidToken = true := by
  obtain ⟨hlo, hhi⟩ := h
  have n1 : ¬ (statusCode = 401 ∨ statusCode = 403) := by omega
  have n2 : statusCode ≠ 404 := by omega
  have n3 : statusCode ≠ 422 := by omega
  have n4 : statusCode ≠ 429 := by omega
  have hmem : statusCode ∈ [500, 502, 503, 504] ↔
      (statusCode = 500 ∨ statusCode = 502 ∨ statusCode = 503 ∨ statusCode = 504) := by
    simp
  refine ⟨?_, ?_, ?_, ?_⟩
  · rw [hmem]
    by_cases hk : statusCode = 500 ∨ statusCode = 502 ∨ statusCode = 503 ∨ statusCode = 504
    · have e : mapStatusCodeToError statusCode message =
          .wrapError (ErrServerError.Error ++ ": " ++ message) ErrServerError := by
        simp [mapStatusCodeToError, n1, n2, n3, n4, hk]
      rw [e]
      simp [errors_Is_wrapError, hk]
    · have e : mapStatusCodeToError statusCode message = .apiError statusCode message "" := by
        simp [mapStatusCodeToError, n1, n2, n3, n4, hk]
      rw [e]
      simp [errors.Is, ErrServerError, hk]
  · rw [hmem]
    intro hk
    simp [mapStatusCodeToError, n1, n2, n3, n4, hk]
  · have e : mapStatusCodeToError 401 message =
        .wrapError (ErrInvalidToken.Error ++ ": " ++ message) ErrInvalidToken := by
      simp [mapStatusCodeToError]
    rw [e]
    exact errors_Is_wrapError _ _
  · have e : mapStatusCodeToError 403 message =
        .wrapError (ErrInvalidToken.Error ++ ": " ++ message) ErrInvalidToken := by
      simp [mapStatusCodeToError]
    rw [e]
    exact errors_Is_wrapError _ _

/-- C12 (witness): the codes 503 and 505. -/
theorem mapStatusCodeToError_5xx_witness :
    ((errors.Is (mapStatusCodeToError 503 "m") ErrServerError = true ↔
      (503 : Int) ∈ [500, 502, 503, 504]) ∧
    ((503 : Int) ∉ [500, 502, 503, 504] →
      mapStatusCodeToError 503 "m" = .apiError 503 "m" "") ∧
    errors.Is (mapStatusCodeToError 401 "m") ErrInvalidToken = true ∧
    errors.Is (mapStatusCodeToError 403 "m") ErrInvalidToken = true) ∧
    mapStatusCodeToError 505 "m" = .apiError 505 "m" "" :=
  ⟨mapStatusCodeToError_5xx 503 "m" (by decide),
   (mapStatusCodeToError_5xx 505 "m" (by decide)).2.1 (by decide)⟩

/-! ## The transport's response handling -/

/-- What `handleResponse` returns for a response outside 200..299 whose body was read:
the structured error, and the target as it was. -/
theorem handleResponse_non2xx {β ρ : Type} (std : http.Stdlib β ρ) (c : http.Client)
    (resp : http.Response) (result : Option ρ) (body : String) (hb : resp.Body = .ok body)
    (hs : resp.StatusCode < 200 ∨ resp.StatusCode ≥ 300) :
    c.handleResponse std resp result =
      (some (match std.UnmarshalEnvelope body with
        | .ok (Message, Code) =>
          if Message ≠ "" then .errorResponse resp.StatusCode Message Code
          else .errorResponse resp.StatusCode resp.Status ""
        | .error _ => .errorResponse resp.StatusCode resp.Status ""), result) := by
  unfold http.Client.handleResponse
  rw [hb]
  simp only [hs, if_true]
  rcases hu : std.UnmarshalEnvelope body with e | ⟨m, code⟩
  · rfl
  · by_cases hm : m = "" <;> simp [hm]

/-- For a response outside 200..299 whose body was read, the error is an
`*ErrorResponse` with the response status. -/
theorem handleResponse_non2xx_errorResponse {β ρ : Type} (std : http.Stdlib β ρ)
    (c : http.Client) (resp : http.Response) (result : Option ρ) (body : String)
    (hb : resp.Body = .ok body) (hs : resp.StatusCode < 200 ∨ resp.StatusCode ≥ 300) :
    ∃ m code, (c.handleResponse std resp result).1 =
      some (.errorResponse resp.StatusCode m code) := by
  rw [handleResponse_non2xx std c resp result body hb hs]
  rcases hu : std.UnmarshalEnvelope body with e | ⟨m, code⟩
  · exact ⟨_, _, rfl⟩
  · by_cases hm : m = ""
    · exact ⟨resp.Status, "", by simp [hm]⟩
    · exact ⟨m, code, by simp [hm]⟩

/-- What `handleResponse` returns for a response in 200..299 whose body was read. -/
theorem handleResponse_2xx {β ρ : Type} (std : http.Stdlib β ρ) (c : http.Client)
    (resp : http.Response) (result : Option ρ) (body : String) (hb : resp.Body = .ok body)
    (hs : 200 ≤ resp.StatusCode ∧ resp.StatusCode < 300) :
    c.handleResponse std resp result =
      match result with
      | some target =>
        match std.Unmarshal body target with
        | (some err, target) =>
          (some (.wrapError ("failed to unmarshal response: " ++ err.Error) err), some target)
        | (none, target) => (none, some target)
      | none => (none, none) := by
  unfold http.Client.handleResponse
  rw [hb]
  have hn : ¬ (resp.StatusCode < 200 ∨ resp.StatusCode ≥ 300) := by omega
  simp only [hn, if_false]

/-- C13 (failing input): for a response outside 200..299 whose body was read, the error
`handleResponse` returns is an `*ErrorResponse`; it is none of the five error kinds of
the classifier and differs from `mapStatusCodeToError` of the status with any message.
A GET on a transport whose engine answers 401 with an error envelope returns
`ErrorResponse 401`, which is not `ErrInvalidToken`, whereas the classifier's error for
401 is. -/
theorem transport_error_not_classified {β ρ : Type} (std : http.Stdlib β ρ) (c : http.Client)
    (status : Int) (text body : String) (result : Option ρ) :
    ((200 ≤ status ∧ status < 300) ∨
      ∃ e, (c.handleResponse std ⟨status, text, .ok body⟩ result).1 = some e ∧
        errors.Is e ErrInvalidToken = false ∧ errors.Is e ErrNotFound = false ∧
        errors.Is e ErrInvalidRequest = false ∧ errors.Is e ErrRateLimitExceeded = false ∧
        errors.Is e ErrServerError = false ∧
        ∀ message, e ≠ mapStatusCodeToError status message) ∧
    (unauthorizedClient.Get sampleCodec "/search/geocode/v6/forward"
        (some [("access_token", ["bad"])]) (some "")).1 =
      some (.errorResponse 401 "invalid token" "TOKEN_INVALID") ∧
    errors.Is (.errorResponse 401 "invalid token" "TOKEN_INVALID") ErrInvalidToken = false ∧
    errors.Is (mapStatusCodeToError 401 "invalid token") ErrInvalidToken = true := by
  refine ⟨?_, rfl, by decide, by decide⟩
  by_cases hs : 200 ≤ status ∧ status < 300
  · exact Or.inl hs
  · right
    have hs2 : status < 200 ∨ status ≥ 300 := by omega
    have hne : ∀ (st : Int) (m code message : String),
        GoError.errorResponse st m code ≠ mapStatusCodeToError status message := by
      intro st m code message
      unfold mapStatusCodeToError
      split_ifs <;> simp
    obtain ⟨m, code, he⟩ := handleResponse_non2xx_errorResponse std c
      ⟨status, text, .ok body⟩ result body rfl hs2
    exact ⟨_, he, rfl, rfl, rfl, rfl, rfl, hne _ _ _⟩

/-- C14 (counterexample): a response with status 500 whose body cannot be read gives the
read error, which is not an `*ErrorResponse`. -/
theorem handleResponse_unreadable_body :
    (sampleService.httpClient.handleResponse sampleCodec
      ⟨500, "500 Internal Server Error", .error (.errorString "unexpected EOF")⟩ (some "")).1 =
      some (.wrapError "failed to read response body: unexpected EOF"
        (.errorString "unexpected EOF")) := by
  rfl

/-- C14 (amended): for every response with status below 200 or at least 300 whose body
was read, `handleResponse` returns an `*ErrorResponse` and leaves the target as it was:
when the body decodes as an envelope with a non-empty message, the error carries the
response status, that message and that code; when the body does not decode, or decodes
with an empty message, it carries the status, the status line text and an empty code. -/
theorem handleResponse_error_envelope {β ρ : Type} (std : http.Stdlib β ρ) (c : http.Client)
    (resp : http.Response) (result : Option ρ) (body : String) (hb : resp.Body = .ok body)
    (hs : resp.StatusCode < 200 ∨ resp.StatusCode ≥ 300) :
    (c.handleResponse std resp result).2 = result ∧
    (∃ m code, (c.handleResponse std resp result).1 =
      some (.errorResponse resp.StatusCode m code)) ∧
    (∀ m code, std.UnmarshalEnvelope body = .ok (m, code) → m ≠ "" →
      (c.handleResponse std resp result).1 = some (.errorResponse resp.StatusCode m code)) ∧
    ((∀ m code, std.UnmarshalEnvelope body = .ok (m, code) → m = "") →
      (c.handleResponse std resp result).1 =
        some (.errorResponse resp.StatusCode resp.Status "")) := by
  have hex := handleResponse_non2xx_errorResponse std c resp result body hb hs
  rw [handleResponse_non2xx std c resp result body hb hs] at hex ⊢
  refine ⟨rfl, hex, ?_, ?_⟩
  · intro m code hu hm
    simp [hu, hm]
  · intro hall
    rcases hu : std.UnmarshalEnvelope body with e | ⟨m, code⟩
    · rfl
    · have := hall m code hu
      simp [this]

/-- C14 (witness): a 401 with a decodable envelope, and a 502 whose body is no
envelope. -/
theorem handleResponse_error_envelope_witness :
    (sampleService.httpClient.handleResponse sampleCodec
        ⟨401, "401 Unauthorized", .ok "envelope"⟩ (some "t")).1 =
      some (.errorResponse 401 "invalid token" "TOKEN_INVALID") ∧
    (sampleService.httpClient.handleResponse sampleCodec
        ⟨401, "401 Unauthorized", .ok "envelope"⟩ (some "t")).2 = some "t" ∧
    (sampleService.httpClient.handleResponse sampleCodec
        ⟨502, "502 Bad Gateway", .ok "not json"⟩ (some "t")).1 =
      some (.errorResponse 502 "502 Bad Gateway" "") :=
  ⟨(handleResponse_error_envelope sampleCodec sampleService.httpClient
      ⟨401, "401 Unauthorized", .ok "envelope"⟩ (some "t") "envelope" rfl
      (Or.inr (by decide))).2.2.1 "invalid token" "TOKEN_INVALID" rfl (by decide),
   (handleResponse_error_envelope sampleCodec sampleService.httpClient
      ⟨401, "401 Unauthorized", .ok "envelope"⟩ (some "t") "envelope" rfl
      (Or.inr (by decide))).1,
   (handleResponse_error_envelope sampleCodec sampleService.httpClient
      ⟨502, "502 Bad Gateway", .ok "not json"⟩ (some "t") "not json" rfl
      (Or.inr (by decide))).2.2.2 (by intro m code h; cases h)⟩

/-- C15: for a response whose body was read, `handleResponse` returns no error exactly
when the status is in 200..299 and either there is no target or the body decodes into
the target; when the status is in 200..299 and decoding fails, the error is a wrap of
the decoder's error with the text `failed to unmarshal response: `, and so is not an
`*ErrorResponse`. -/
theorem handleResponse_success_iff {β ρ : Type} (std : http.Stdlib β ρ) (c : http.Client)
    (resp : http.Response) (result : Option ρ) (body : String) (hb : resp.Body = .ok body) :
    ((c.handleResponse std resp result).1 = none ↔
      (200 ≤ resp.StatusCode ∧ resp.StatusCode ≤ 299) ∧
      (result = none ∨ ∃ t, result = some t ∧ (std.Unmarshal body t).1 = none)) ∧
    (∀ t err, 200 ≤ resp.StatusCode → resp.StatusCode ≤ 299 → result = some t →
      (std.Unmarshal body t).1 = some err →
      (c.handleResponse std resp result).1 =
        some (.wrapError ("failed to unmarshal response: " ++ err.Error) err) ∧
      ∀ st m code, (c.handleResponse std resp result).1 ≠ some (.errorResponse st m code)) := by
  constructor
  · by_cases hs : 200 ≤ resp.StatusCode ∧ resp.StatusCode < 300
    · rw [handleResponse_2xx std c resp result body hb hs]
      have hs2 : 200 ≤ resp.StatusCode ∧ resp.StatusCode ≤ 299 := by omega
      cases result with
      | none => simp [hs2]
      | some t =>
        rcases hu : std.Unmarshal body t with ⟨_ | err, t2⟩ <;> simp [hs2, hu]
    · have hs2 : resp.StatusCode < 200 ∨ resp.StatusCode ≥ 300 := by omega
      rw [handleResponse_non2xx std c resp result body hb hs2]
      have hs3 : ¬ (200 ≤ resp.StatusCode ∧ resp.StatusCode ≤ 299) := by omega
      simp [hs3]
  · intro t err h1 h2 hr hu
    rw [handleResponse_2xx std c resp result body hb ⟨h1, by omega⟩, hr]
    rcases hu2 : std.Unmarshal body t with ⟨_ | err2, t2⟩
    · rw [hu2] at hu; simp at hu
    · rw [hu2] at hu
      simp only [Option.some.injEq] at hu
      subst hu
      simp [hu2]

/-- C15 (witness): a 200 whose body decodes, and a 200 whose body does not. -/
theorem handleResponse_success_iff_witness :
    ((sampleService.httpClient.handleResponse sampleCodec ⟨200, "200 OK", .ok "body"⟩
        (some "")).1 = none ↔
      (200 ≤ (200 : Int) ∧ (200 : Int) ≤ 299) ∧
      ((some "" : Option String) = none ∨
        ∃ t, (some "" : Option String) = some t ∧ (sampleCodec.Unmarshal "body" t).1 = none)) ∧
    (sampleService.httpClient.handleResponse sampleCodec ⟨200, "200 OK", .ok "not json"⟩
        (some "")).1 =
      some (.wrapError ("failed to unmarshal response: " ++
        (GoError.errorString "invalid character").Error) (.errorString "invalid character")) :=
  ⟨(handleResponse_success_iff sampleCodec sampleService.httpClient ⟨200, "200 OK", .ok "body"⟩
      (some "") "body" rfl).1,
   ((handleResponse_success_iff sampleCodec sampleService.httpClient
      ⟨200, "200 OK", .ok "not json"⟩ (some "") "not json" rfl).2 ""
      (.errorString "invalid character") (by decide) (by decide) rfl rfl).1⟩



/-! ## Search-box validators -/

/-- Acceptance by `validateSuggestRequest`, the length of the query counted in bytes. -/
theorem validateSuggestRequest_none_iff (req : searchbox.SuggestRequest) :
    searchbox.validateSuggestRequest req = none ↔
      req.Query ≠ "" ∧ req.Query.utf8ByteSize ≤ 256 ∧ req.SessionToken ≠ "" ∧
      (∀ limit, req.Limit = some limit → 1 ≤ limit ∧ limit ≤ 10) := by
  obtain ⟨Query, SessionToken, Proximity, ProximityIP, BBox, Country, Language, Limit, Types,
    POICategory, Navigation⟩ := req
  unfold searchbox.validateSuggestRequest
  by_cases h1 : Query = "" <;> by_cases h2 : Query.utf8ByteSize > 256 <;>
    by_cases h3 : SessionToken = "" <;> cases Limit <;> simp [h1, h2, h3] <;> omega

/-- Acceptance by `validateForwardRequest`, the length of the query counted in bytes. -/
theorem validateForwardRequest_none_iff (req : searchbox.ForwardRequest) :
    searchbox.validateForwardRequest req = none ↔
      req.Query ≠ "" ∧ req.Query.utf8ByteSize ≤ 256 ∧
      (∀ limit, req.Limit = some limit → 1 ≤ limit ∧ limit ≤ 10) := by
  obtain ⟨Query, Autocomplete, Proximity, ProximityIP, BBox, Country, Language, Limit, Types,
    POICategory, Navigation⟩ := req
  unfold searchbox.validateForwardRequest
  by_cases h1 : Query = "" <;> by_cases h2 : Query.utf8ByteSize > 256 <;>
    cases Limit <;> simp [h1, h2] <;> omega

/-- C19: `validateCategorySearchRequest` returns no error exactly when the category id is
not empty, at least one of a 2-element proximity coordinate, the IP-proximity flag, a
4-element bbox, or SAR options with a non-empty route is given, and the limit is absent
or between 1 and 25. -/
theorem validateCategorySearchRequest_none_iff (req : searchbox.CategorySearchRequest) :
    searchbox.validateCategorySearchRequest req = none ↔
      req.CategoryID ≠ "" ∧
      (req.Proximity.length = 2 ∨ req.ProximityIP = true ∨ req.BBox.length = 4 ∨
        ∃ sar, req.SAR = some sar ∧ sar.Route ≠ []) ∧
      (∀ limit, req.Limit = some limit → 1 ≤ limit ∧ limit ≤ 25) := by
  obtain ⟨CategoryID, Proximity, ProximityIP, BBox, Country, Language, Limit, Navigation,
    SAR⟩ := req
  have hlen : ∀ l : List (List Float64), l.length > 0 ↔ l ≠ [] := by
    intro l; cases l <;> simp
  unfold searchbox.validateCategorySearchRequest
  rcases SAR with _ | ⟨t, r, d⟩
  · by_cases h1 : CategoryID = "" <;> by_cases h2 : Proximity.length = 2 <;>
      by_cases h3 : BBox.length = 4 <;> cases ProximityIP <;> cases Limit <;>
      simp [h1, h2, h3]
  · by_cases h4 : r = [] <;> by_cases h1 : CategoryID = "" <;>
      by_cases h2 : Proximity.length = 2 <;> by_cases h3 : BBox.length = 4 <;>
      cases ProximityIP <;> cases Limit <;> simp [h1, h2, h3, h4, hlen]

/-- A string of ASCII characters has as many bytes as characters. -/
theorem utf8ByteSize_eq_length_of_ascii (s : String) (h : ∀ c ∈ s.data, c.val ≤ 127) :
    s.utf8ByteSize = s.length := by
  obtain ⟨l⟩ := s
  simp only [String.utf8ByteSize, String.length]
  induction l with
  | nil => rfl
  | cons c cs ih =>
    have hc : c.utf8Size = 1 := by
      have := h c (by simp)
      simp [Char.utf8Size, this]
    simp only [String.utf8ByteSize.go, List.length_cons, hc]
    rw [ih (fun x hx => h x (by simp [hx]))]

/-- C18 (failing input): a suggest request whose query has 86 characters, each of three
bytes, and a session token is rejected with the "256 characters" error, because the
length is counted in bytes (258): `validateSuggestRequest` returns no error exactly when
the query is not empty and has at most 256 bytes, the session token is not empty and the
limit is absent or between 1 and 10. -/
theorem validateSuggestRequest_counts_bytes :
    (∀ req : searchbox.SuggestRequest, searchbox.validateSuggestRequest req = none ↔
      req.Query ≠ "" ∧ req.Query.utf8ByteSize ≤ 256 ∧ req.SessionToken ≠ "" ∧
      (∀ limit, req.Limit = some limit → 1 ≤ limit ∧ limit ≤ 10)) ∧
    longQuery ≠ "" ∧ longQuery.length = 86 ∧ longQuery.utf8ByteSize = 258 ∧
    searchbox.validateSuggestRequest { Query := longQuery, SessionToken := "session" } =
      some (.errorString "query exceeds maximum length of 256 characters") := by
  refine ⟨validateSuggestRequest_none_iff, ?_⟩
  decide

/-- C20 (failing input): a forward request whose query has 86 characters, each of three
bytes, is rejected with the "256 characters" error, because the length is counted in
bytes (258): `validateForwardRequest` returns no error exactly when the query is not
empty and has at most 256 bytes and the limit is absent or between 1 and 10, whatever
the other fields; the request has no session token. -/
theorem validateForwardRequest_counts_bytes :
    (∀ req : searchbox.ForwardRequest, searchbox.validateForwardRequest req = none ↔
      req.Query ≠ "" ∧ req.Query.utf8ByteSize ≤ 256 ∧
      (∀ limit, req.Limit = some limit → 1 ≤ limit ∧ limit ≤ 10)) ∧
    longQuery ≠ "" ∧ longQuery.length = 86 ∧ longQuery.utf8ByteSize = 258 ∧
    searchbox.validateForwardRequest { Query := longQuery } =
      some (.errorString "query exceeds maximum length of 256 characters") := by
  refine ⟨validateForwardRequest_none_iff, ?_⟩
  decide

/-! ## Session tokens -/

/-- A list of sixteen elements, written out. -/
theorem list_length_sixteen {α : Type} (b : List α) (h : b.length = 16) :
    ∃ b0 b1 b2 b3 b4 b5 b6 b7 b8 b9 b10 b11 b12 b13 b14 b15,
      b = [b0, b1, b2, b3, b4, b5, b6, b7, b8, b9, b10, b11, b12, b13, b14, b15] := by
  rcases b with _ | ⟨b0, _ | ⟨b1, _ | ⟨b2, _ | ⟨b3, _ | ⟨b4, _ | ⟨b5, _ | ⟨b6, _ | ⟨b7,
    _ | ⟨b8, _ | ⟨b9, _ | ⟨b10, _ | ⟨b11, _ | ⟨b12, _ | ⟨b13, _ | ⟨b14, _ | ⟨b15, _ | ⟨b16, r⟩
    ⟩⟩⟩⟩⟩⟩⟩⟩⟩⟩⟩⟩⟩⟩⟩⟩ <;> simp at h
  exact ⟨b0, b1, b2, b3, b4, b5, b6, b7, b8, b9, b10, b11, b12, b13, b14, b15, rfl⟩

/-- The token of sixteen bytes, character by character. -/
theorem NewSessionToken_chars (b0 b1 b2 b3 b4 b5 b6 b7 b8 b9 b10 b11 b12 b13 b14 b15 : Nat) :
    searchbox.NewSessionToken
      (.ok [b0, b1, b2, b3, b4, b5, b6, b7, b8, b9, b10, b11, b12, b13, b14, b15]) =
    .ok (String.mk [
      Nat.digitChar (b0 / 16), Nat.digitChar (b0 % 16),
      Nat.digitChar (b1 / 16), Nat.digitChar (b1 % 16),
      Nat.digitChar (b2 / 16), Nat.digitChar (b2 % 16),
      Nat.digitChar (b3 / 16), Nat.digitChar (b3 % 16), '-',
      Nat.digitChar (b4 / 16), Nat.digitChar (b4 % 16),
      Nat.digitChar (b5 / 16), Nat.digitChar (b5 % 16), '-',
      Nat.digitChar (((b6 &&& 0x0f) ||| 0x40) / 16), Nat.digitChar (((b6 &&& 0x0f) ||| 0x40) % 16),
      Nat.digitChar (b7 / 16), Nat.digitChar (b7 % 16), '-',
      Nat.digitChar (((b8 &&& 0x3f) ||| 0x80) / 16), Nat.digitChar (((b8 &&& 0x3f) ||| 0x80) % 16),
      Nat.digitChar (b9 / 16), Nat.digitChar (b9 % 16), '-',
      Nat.digitChar (b10 / 16), Nat.digitChar (b10 % 16),
      Nat.digitChar (b11 / 16), Nat.digitChar (b11 % 16),
      Nat.digitChar (b12 / 16), Nat.digitChar (b12 % 16),
      Nat.digitChar (b13 / 16), Nat.digitChar (b13 % 16),
      Nat.digitChar (b14 / 16), Nat.digitChar (b14 % 16),
      Nat.digitChar (b15 / 16), Nat.digitChar (b15 % 16)]) := by
  rfl

/-- A number below 16 prints as a lower-case hexadecimal digit. -/
theorem digitChar_lowerHex (n : Nat) (h : n < 16) :
    Nat.digitChar n ∈ "0123456789abcdef".data := by
  interval_cases n <;> decide

set_option maxRecDepth 20000 in
/-- Setting the version: the high nibble becomes 4 and the low nibble is kept. -/
theorem version_bits (x : Nat) (h : x < 256) :
    ((x &&& 0x0f) ||| 0x40) / 16 = 4 ∧ ((x &&& 0x0f) ||| 0x40) % 16 = x % 16 := by
  have key : ∀ y : Fin 256,
      ((y.val &&& 0x0f) ||| 0x40) / 16 = 4 ∧ ((y.val &&& 0x0f) ||| 0x40) % 16 = y.val % 16 := by
    decide
  exact key ⟨x, h⟩

set_option maxRecDepth 20000 in
/-- Setting the variant: the top two bits become 10 and the low six bits are kept. -/
theorem variant_bits (x : Nat) (h : x < 256) :
    ((x &&& 0x3f) ||| 0x80) = 128 + x % 64 := by
  have key : ∀ y : Fin 256, ((y.val &&& 0x3f) ||| 0x80) = 128 + y.val % 64 := by
    decide
  exact key ⟨x, h⟩

/-- C16: for sixteen bytes from the random source, `NewSessionToken` returns a string of
36 characters with `-` at positions 8, 13, 18 and 23, a lower-case hexadecimal digit at
every other position, `4` at position 14 and one of `8`, `9`, `a`, `b` at position 19. -/
theorem NewSessionToken_format (b : List Nat) (hlen : b.length = 16)
    (hbyte : ∀ x ∈ b, x < 256) :
    ∃ s, searchbox.NewSessionToken (.ok b) = .ok s ∧ s.length = 36 ∧
      s.data.getD 8 ' ' = '-' ∧ s.data.getD 13 ' ' = '-' ∧ s.data.getD 18 ' ' = '-' ∧
      s.data.getD 23 ' ' = '-' ∧
      (∀ i, i < 36 → i ∉ [8, 13, 18, 23] → s.data.getD i ' ' ∈ "0123456789abcdef".data) ∧
      s.data.getD 14 ' ' = '4' ∧ s.data.getD 19 ' ' ∈ ['8', '9', 'a', 'b'] := by
  obtain ⟨b0, b1, b2, b3, b4, b5, b6, b7, b8, b9, b10, b11, b12, b13, b14, b15, rfl⟩ :=
    list_length_sixteen b hlen
  have h6 := version_bits b6 (hbyte b6 (by simp))
  have h8 := variant_bits b8 (hbyte b8 (by simp))
  have hd : ∀ x, Nat.digitChar (x % 16) ∈ "0123456789abcdef".data :=
    fun x => digitChar_lowerHex _ (Nat.mod_lt _ (by decide))
  have hq : ∀ x ∈ [b0, b1, b2, b3, b4, b5, b6, b7, b8, b9, b10, b11, b12, b13, b14, b15],
      Nat.digitChar (x / 16) ∈ "0123456789abcdef".data :=
    fun x hx => digitChar_lowerHex _ (by have := hbyte x hx; omega)
  have h8q : ((b8 &&& 0x3f) ||| 0x80) / 16 = 8 ∨ ((b8 &&& 0x3f) ||| 0x80) / 16 = 9 ∨
      ((b8 &&& 0x3f) ||| 0x80) / 16 = 10 ∨ ((b8 &&& 0x3f) ||| 0x80) / 16 = 11 := by
    rw [h8]; omega
  refine ⟨_, NewSessionToken_chars _ _ _ _ _ _ _ _ _ _ _ _ _ _ _ _, rfl, rfl, rfl, rfl, rfl,
    ?_, ?_, ?_⟩
  · intro i hi hn
    simp only [List.mem_cons, List.mem_singleton, List.not_mem_nil, or_false, not_or] at hn
    interval_cases i
    all_goals first
      | omega
      | exact hd _
      | (show Nat.digitChar (((b6 &&& 0x0f) ||| 0x40) / 16) ∈ _
         rw [h6.1]; decide)
      | (show Nat.digitChar (((b8 &&& 0x3f) ||| 0x80) / 16) ∈ _
         rcases h8q with h | h | h | h <;> rw [h] <;> decide)
      | (apply hq; simp)
  · show Nat.digitChar (((b6 &&& 0x0f) ||| 0x40) / 16) = '4'
    rw [h6.1]; rfl
  · show Nat.digitChar (((b8 &&& 0x3f) ||| 0x80) / 16) ∈ ['8', '9', 'a', 'b']
    rcases h8q with h | h | h | h <;> rw [h] <;> decide

/-- C16 (witness): the bytes 0, 1, ..., 14, 255. -/
theorem NewSessionToken_format_witness :
    ∃ s, searchbox.NewSessionToken
        (.ok [0, 1, 2, 3, 4, 5, 6, 7, 8, 9, 10, 11, 12, 13, 14, 255]) = .ok s ∧
      s.length = 36 ∧
      s.data.getD 8 ' ' = '-' ∧ s.data.getD 13 ' ' = '-' ∧ s.data.getD 18 ' ' = '-' ∧
      s.data.getD 23 ' ' = '-' ∧
      (∀ i, i < 36 → i ∉ [8, 13, 18, 23] → s.data.getD i ' ' ∈ "0123456789abcdef".data) ∧
      s.data.getD 14 ' ' = '4' ∧ s.data.getD 19 ' ' ∈ ['8', '9', 'a', 'b'] :=
  NewSessionToken_format [0, 1, 2, 3, 4, 5, 6, 7, 8, 9, 10, 11, 12, 13, 14, 255] rfl
    (by decide)

/-- Strings are equal exactly when their characters are. -/
theorem String_mk_inj (a b : List Char) : String.mk a = String.mk b ↔ a = b :=
  ⟨fun h => congrArg String.data h, fun h => congrArg String.mk h⟩

/-- Two numbers below 16 with the same hexadecimal digit are equal. -/
theorem digitChar_inj (a b : Nat) (ha : a < 16) (hb : b < 16)
    (h : Nat.digitChar a = Nat.digitChar b) : a = b := by
  have key : ∀ x y : Fin 16, Nat.digitChar x.val = Nat.digitChar y.val → x = y := by decide
  have := key ⟨a, ha⟩ ⟨b, hb⟩ h
  exact congrArg Fin.val this

/-- Two bytes with the same two hexadecimal digits are equal. -/
theorem hex_pair_inj (x y : Nat) (hx : x < 256) (hy : y < 256)
    (hq : Nat.digitChar (x / 16) = Nat.digitChar (y / 16))
    (hr : Nat.digitChar (x % 16) = Nat.digitChar (y % 16)) : x = y := by
  have h1 := digitChar_inj _ _ (by omega) (by omega) hq
  have h2 := digitChar_inj _ _ (Nat.mod_lt _ (by decide)) (Nat.mod_lt _ (by decide)) hr
  omega

/-- The tokens of two sixteen-byte values are equal exactly when the values agree on
every byte other than bytes 6 and 8, on the low four bits of byte 6 and on the low six
bits of byte 8. -/
theorem NewSessionToken_eq_iff_bytes (b c : List Nat) (hb : b.length = 16)
    (hc : c.length = 16) (hbb : ∀ x ∈ b, x < 256) (hcb : ∀ x ∈ c, x < 256) :
    searchbox.NewSessionToken (.ok b) = searchbox.NewSessionToken (.ok c) ↔
      (∀ i, i < 16 → i ≠ 6 → i ≠ 8 → b.getD i 0 = c.getD i 0) ∧
      b.getD 6 0 % 16 = c.getD 6 0 % 16 ∧ b.getD 8 0 % 64 = c.getD 8 0 % 64 := by
  obtain ⟨b0, b1, b2, b3, b4, b5, b6, b7, b8, b9, b10, b11, b12, b13, b14, b15, rfl⟩ :=
    list_length_sixteen b hb
  obtain ⟨c0, c1, c2, c3, c4, c5, c6, c7, c8, c9, c10, c11, c12, c13, c14, c15, rfl⟩ :=
    list_length_sixteen c hc
  have vb := version_bits b6 (hbb b6 (by simp))
  have vc := version_bits c6 (hcb c6 (by simp))
  have wb := variant_bits b8 (hbb b8 (by simp))
  have wc := variant_bits c8 (hcb c8 (by simp))
  rw [NewSessionToken_chars, NewSessionToken_chars]
  simp only [Except.ok.injEq, String_mk_inj, List.cons.injEq, and_true, true_and]
  constructor
  · rintro ⟨q0, r0, q1, r1, q2, r2, q3, r3, q4, r4, q5, r5, q6, r6, q7, r7, q8, r8, q9, r9, q10, r10, q11, r11, q12, r12, q13, r13, q14, r14, q15, r15⟩
    have e0 : b0 = c0 := hex_pair_inj _ _ (hbb _ (by simp)) (hcb _ (by simp)) q0 r0
    have e1 : b1 = c1 := hex_pair_inj _ _ (hbb _ (by simp)) (hcb _ (by simp)) q1 r1
    have e2 : b2 = c2 := hex_pair_inj _ _ (hbb _ (by simp)) (hcb _ (by simp)) q2 r2
    have e3 : b3 = c3 := hex_pair_inj _ _ (hbb _ (by simp)) (hcb _ (by simp)) q3 r3
    have e4 : b4 = c4 := hex_pair_inj _ _ (hbb _ (by simp)) (hcb _ (by simp)) q4 r4
    have e5 : b5 = c5 := hex_pair_inj _ _ (hbb _ (by simp)) (hcb _ (by simp)) q5 r5
    have e7 : b7 = c7 := hex_pair_inj _ _ (hbb _ (by simp)) (hcb _ (by simp)) q7 r7
    have e9 : b9 = c9 := hex_pair_inj _ _ (hbb _ (by simp)) (hcb _ (by simp)) q9 r9
    have e10 : b10 = c10 := hex_pair_inj _ _ (hbb _ (by simp)) (hcb _ (by simp)) q10 r10
    have e11 : b11 = c11 := hex_pair_inj _ _ (hbb _ (by simp)) (hcb _ (by simp)) q11 r11
    have e12 : b12 = c12 := hex_pair_inj _ _ (hbb _ (by simp)) (hcb _ (by simp)) q12 r12
    have e13 : b13 = c13 := hex_pair_inj _ _ (hbb _ (by simp)) (hcb _ (by simp)) q13 r13
    have e14 : b14 = c14 := hex_pair_inj _ _ (hbb _ (by simp)) (hcb _ (by simp)) q14 r14
    have e15 : b15 = c15 := hex_pair_inj _ _ (hbb _ (by simp)) (hcb _ (by simp)) q15 r15
    have e6 : b6 % 16 = c6 % 16 := by
      have := digitChar_inj _ _ (Nat.mod_lt _ (by decide)) (Nat.mod_lt _ (by decide)) r6
      rw [vb.2, vc.2] at this
      exact this
    have e8 : b8 % 64 = c8 % 64 := by
      have h1 := digitChar_inj _ _ (by rw [wb]; omega) (by rw [wc]; omega) q8
      have h2 := digitChar_inj _ _ (Nat.mod_lt _ (by decide)) (Nat.mod_lt _ (by decide)) r8
      rw [wb, wc] at h1 h2
      omega
    refine ⟨?_, e6, e8⟩
    intro i hi h6 h8
    interval_cases i <;> first | omega | assumption
  · rintro ⟨hall, e6, e8⟩
    have e0 : b0 = c0 := hall 0 (by omega) (by omega) (by omega)
    have e1 : b1 = c1 := hall 1 (by omega) (by omega) (by omega)
    have e2 : b2 = c2 := hall 2 (by omega) (by omega) (by omega)
    have e3 : b3 = c3 := hall 3 (by omega) (by omega) (by omega)
    have e4 : b4 = c4 := hall 4 (by omega) (by omega) (by omega)
    have e5 : b5 = c5 := hall 5 (by omega) (by omega) (by omega)
    have e7 : b7 = c7 := hall 7 (by omega) (by omega) (by omega)
    have e9 : b9 = c9 := hall 9 (by omega) (by omega) (by omega)
    have e10 : b10 = c10 := hall 10 (by omega) (by omega) (by omega)
    have e11 : b11 = c11 := hall 11 (by omega) (by omega) (by omega)
    have e12 : b12 = c12 := hall 12 (by omega) (by omega) (by omega)
    have e13 : b13 = c13 := hall 13 (by omega) (by omega) (by omega)
    have e14 : b14 = c14 := hall 14 (by omega) (by omega) (by omega)
    have e15 : b15 = c15 := hall 15 (by omega) (by omega) (by omega)
    subst e0 e1 e2 e3 e4 e5 e7 e9 e10 e11 e12 e13 e14 e15
    simp only [List.getD_cons_succ, List.getD_cons_zero] at e6 e8
    simp only [and_self, true_and, and_true, vb.1, vc.1, vb.2, vc.2, e6, wb, wc, e8]

/-- C17: the tokens of two sixteen-byte random values are equal if and only if the values
agree on every bit other than the high nibble of byte 6 and the top two bits of byte 8;
hence draws that pairwise differ on those bits give pairwise distinct tokens. -/
theorem NewSessionToken_distinct :
    (∀ b c : List Nat, b.length = 16 → c.length = 16 → (∀ x ∈ b, x < 256) →
      (∀ x ∈ c, x < 256) →
      (searchbox.NewSessionToken (.ok b) = searchbox.NewSessionToken (.ok c) ↔
        (∀ i, i < 16 → i ≠ 6 → i ≠ 8 → b.getD i 0 = c.getD i 0) ∧
        b.getD 6 0 % 16 = c.getD 6 0 % 16 ∧ b.getD 8 0 % 64 = c.getD 8 0 % 64)) ∧
    (∀ draws : List (List Nat), (∀ d ∈ draws, d.length = 16 ∧ ∀ x ∈ d, x < 256) →
      draws.Pairwise (fun b c =>
        ¬ ((∀ i, i < 16 → i ≠ 6 → i ≠ 8 → b.getD i 0 = c.getD i 0) ∧
          b.getD 6 0 % 16 = c.getD 6 0 % 16 ∧ b.getD 8 0 % 64 = c.getD 8 0 % 64)) →
      (draws.map (fun d => searchbox.NewSessionToken (.ok d))).Nodup) := by
  refine ⟨fun b c hb hc hbb hcb => NewSessionToken_eq_iff_bytes b c hb hc hbb hcb, ?_⟩
  intro draws hwf hpair
  rw [List.Nodup, List.pairwise_map]
  refine List.Pairwise.imp_of_mem ?_ hpair
  intro b c hb hc hne heq
  exact hne ((NewSessionToken_eq_iff_bytes b c (hwf b hb).1 (hwf c hc).1 (hwf b hb).2
    (hwf c hc).2).mp heq)

/-- C17 (witness): two draws that differ only in the high nibble of byte 6 and the top
bits of byte 8 give the same token, and two draws that differ in byte 15 give different
tokens. -/
theorem NewSessionToken_distinct_witness :
    searchbox.NewSessionToken (.ok [0, 1, 2, 3, 4, 5, 6, 7, 8, 9, 10, 11, 12, 13, 14, 255]) =
      searchbox.NewSessionToken
        (.ok [0, 1, 2, 3, 4, 5, 246, 7, 200, 9, 10, 11, 12, 13, 14, 255]) ∧
    (List.map (fun d => searchbox.NewSessionToken (.ok d))
      [[0, 1, 2, 3, 4, 5, 6, 7, 8, 9, 10, 11, 12, 13, 14, 255],
       [0, 1, 2, 3, 4, 5, 6, 7, 8, 9, 10, 11, 12, 13, 14, 254]]).Nodup :=
  ⟨(NewSessionToken_distinct.1 [0, 1, 2, 3, 4, 5, 6, 7, 8, 9, 10, 11, 12, 13, 14, 255]
      [0, 1, 2, 3, 4, 5, 246, 7, 200, 9, 10, 11, 12, 13, 14, 255] rfl rfl
      (by decide) (by decide)).mpr
      ⟨by intro i hi h6 h8; interval_cases i <;> first | omega | rfl, by decide, by decide⟩,
   NewSessionToken_distinct.2
      [[0, 1, 2, 3, 4, 5, 6, 7, 8, 9, 10, 11, 12, 13, 14, 255],
       [0, 1, 2, 3, 4, 5, 6, 7, 8, 9, 10, 11, 12, 13, 14, 254]]
      (by decide)
      (by
        simp only [List.pairwise_cons, List.mem_singleton, forall_eq, List.Pairwise.nil,
          and_true, List.not_mem_nil, false_implies, implies_true]
        intro h
        have := h.1 15 (by omega) (by omega) (by omega)
        simp at this)⟩

/-! ## Search-box validators: reverse and retrieve -/

/-- The function `validateReverseRequest` accepts exactly the requests on which none of
its guards fires. -/
theorem validateReverseRequest_none_iff (req : searchbox.ReverseRequest) :
    searchbox.validateReverseRequest req = none ↔
      (Float64.lt req.Longitude (ofInt (-180)) = false ∧
       Float64.gt req.Longitude (ofInt 180) = false ∧
       Float64.lt req.Latitude (ofInt (-90)) = false ∧
       Float64.gt req.Latitude (ofInt 90) = false ∧
       ∀ l, req.Limit = some l → 1 ≤ l ∧ l ≤ 10) := by
  unfold searchbox.validateReverseRequest
  cases h1 : Float64.lt req.Longitude (ofInt (-180)) <;>
  cases h2 : Float64.gt req.Longitude (ofInt 180) <;>
  cases h3 : Float64.lt req.Latitude (ofInt (-90)) <;>
  cases h4 : Float64.gt req.Latitude (ofInt 90) <;>
  cases h5 : req.Limit <;> simp

/-- On coordinates that are numbers, `validateReverseRequest` accepts exactly the requests
with `-180 <= longitude <= 180`, `-90 <= latitude <= 90` and a limit that is absent or in
1..10. -/
theorem validateReverseRequest_none_iff_of_ne_nan (req : searchbox.ReverseRequest)
    (hL : req.Longitude ≠ nan) (hT : req.Latitude ≠ nan) :
    searchbox.validateReverseRequest req = none ↔
      (Float64.le (ofInt (-180)) req.Longitude = true ∧
       Float64.le req.Longitude (ofInt 180) = true ∧
       Float64.le (ofInt (-90)) req.Latitude = true ∧
       Float64.le req.Latitude (ofInt 90) = true ∧
       (req.Limit = none ∨ ∃ l, req.Limit = some l ∧ 1 ≤ l ∧ l ≤ 10)) := by
  have c : ∀ i : Int, ofInt i ≠ nan := by intro i; simp [ofInt]
  rw [validateReverseRequest_none_iff]
  simp only [Float64.gt,
    Float64.lt_eq_not_le _ _ hL (c _), Float64.lt_eq_not_le _ _ (c _) hL,
    Float64.lt_eq_not_le _ _ hT (c _), Float64.lt_eq_not_le _ _ (c _) hT]
  cases h1 : Float64.le (ofInt (-180)) req.Longitude <;>
  cases h2 : Float64.le req.Longitude (ofInt 180) <;>
  cases h3 : Float64.le (ofInt (-90)) req.Latitude <;>
  cases h4 : Float64.le req.Latitude (ofInt 90) <;>
  cases h5 : req.Limit <;> simp

/-- C21 (failing input): `validateReverseRequest` returns no error when the longitude, or
the latitude, is NaN, although NaN satisfies none of `-180 <= L`, `L <= 180`, `-90 <= T`,
`T <= 90`. What the function does decide is whether one of its strict comparisons holds:
it accepts a request exactly when the longitude is neither below -180 nor above 180, the
latitude neither below -90 nor above 90, and the limit, if present, in 1..10. The
boundary values are accepted, -181, 181, -91 and 91 are rejected, and so are the limits 0
and 11. -/
theorem validateReverseRequest_accepts_nan :
    searchbox.validateReverseRequest { Longitude := nan, Latitude := ofInt 0 } = none ∧
    searchbox.validateReverseRequest { Longitude := ofInt 0, Latitude := nan } = none ∧
    Float64.le (ofInt (-180)) nan = false ∧ Float64.le nan (ofInt 180) = false ∧
    Float64.le (ofInt (-90)) nan = false ∧ Float64.le nan (ofInt 90) = false ∧
    (∀ req : searchbox.ReverseRequest, searchbox.validateReverseRequest req = none ↔
      (Float64.lt req.Longitude (ofInt (-180)) = false ∧
       Float64.gt req.Longitude (ofInt 180) = false ∧
       Float64.lt req.Latitude (ofInt (-90)) = false ∧
       Float64.gt req.Latitude (ofInt 90) = false ∧
       ∀ l, req.Limit = some l → 1 ≤ l ∧ l ≤ 10)) ∧
    searchbox.validateReverseRequest
      { Longitude := ofInt 180, Latitude := ofInt 90, Limit := some 10 } = none ∧
    searchbox.validateReverseRequest
      { Longitude := ofInt (-180), Latitude := ofInt (-90), Limit := some 1 } = none ∧
    searchbox.validateReverseRequest { Longitude := ofInt (-181), Latitude := ofInt 0 } =
      some (.errorString "longitude must be between -180 and 180") ∧
    searchbox.validateReverseRequest { Longitude := ofInt 181, Latitude := ofInt 0 } =
      some (.errorString "longitude must be between -180 and 180") ∧
    searchbox.validateReverseRequest { Longitude := ofInt 0, Latitude := ofInt (-91) } =
      some (.errorString "latitude must be between -90 and 90") ∧
    searchbox.validateReverseRequest { Longitude := ofInt 0, Latitude := ofInt 91 } =
      some (.errorString "latitude must be between -90 and 90") ∧
    searchbox.validateReverseRequest
      { Longitude := ofInt 0, Latitude := ofInt 0, Limit := some 0 } =
      some (.errorString "limit must be between 1 and 10") ∧
    searchbox.validateReverseRequest
      { Longitude := ofInt 0, Latitude := ofInt 0, Limit := some 11 } =
      some (.errorString "limit must be between 1 and 10") := by
  refine ⟨by decide, by decide, by decide, by decide, by decide, by decide,
    validateReverseRequest_none_iff, by decide, by decide, by decide, by decide, by decide,
    by decide, by decide, by decide⟩

/-- C22: `validateRetrieveRequest` returns no error if and only if the feature id and the
session token are both non-empty, and replacing the navigation options of a request by
any others never changes what it returns. -/
theorem validateRetrieveRequest_none_iff (req : searchbox.RetrieveRequest) :
    (searchbox.validateRetrieveRequest req = none ↔
      (req.MapboxID ≠ "" ∧ req.SessionToken ≠ "")) ∧
    (∀ nav : Option searchbox.NavigationOptions,
      searchbox.validateRetrieveRequest { req with Navigation := nav } =
        searchbox.validateRetrieveRequest req) ∧
    (req.MapboxID = "" → searchbox.validateRetrieveRequest req =
      some (.errorString "mapbox_id is required")) ∧
    (req.MapboxID ≠ "" → req.SessionToken = "" → searchbox.validateRetrieveRequest req =
      some (.errorString "session_token is required")) := by
  unfold searchbox.validateRetrieveRequest
  refine ⟨?_, fun _ => rfl, ?_, ?_⟩
  · by_cases h1 : req.MapboxID = "" <;> by_cases h2 : req.SessionToken = "" <;> simp [h1, h2]
  · intro h; simp [h]
  · intro h1 h2; simp [h1, h2]

/-- C22 (witness): a request with both fields is accepted, with or without navigation
options; one without feature id, and one without session token, are rejected. -/
theorem validateRetrieveRequest_none_iff_witness :
    searchbox.validateRetrieveRequest { MapboxID := "dXJuOm1ieHBvaTo", SessionToken := "s" } =
      none ∧
    searchbox.validateRetrieveRequest
      { MapboxID := "dXJuOm1ieHBvaTo", SessionToken := "s",
        Navigation := some { Profile := "driving" } } = none ∧
    searchbox.validateRetrieveRequest { SessionToken := "s" } =
      some (.errorString "mapbox_id is required") ∧
    searchbox.validateRetrieveRequest { MapboxID := "dXJuOm1ieHBvaTo" } =
      some (.errorString "session_token is required") :=
  ⟨(validateRetrieveRequest_none_iff
      { MapboxID := "dXJuOm1ieHBvaTo", SessionToken := "s" }).1.2 ⟨by decide, by decide⟩,
   ((validateRetrieveRequest_none_iff { MapboxID := "dXJuOm1ieHBvaTo", SessionToken := "s" }).2.1
      (some { Profile := "driving" })).trans
    ((validateRetrieveRequest_none_iff
      { MapboxID := "dXJuOm1ieHBvaTo", SessionToken := "s" }).1.2 ⟨by decide, by decide⟩),
   (validateRetrieveRequest_none_iff { SessionToken := "s" }).2.2.1 rfl,
   (validateRetrieveRequest_none_iff { MapboxID := "dXJuOm1ieHBvaTo" }).2.2.2
     (by decide) rfl⟩

/-! ## The endpoint methods -/

/-- A call of `handleResponse` with a target leaves a target. -/
theorem handleResponse_target {β ρ : Type} (std : http.Stdlib β ρ) (c : http.Client)
    (resp : http.Response) (t : ρ) :
    ∃ r, (c.handleResponse std resp (some t)).2 = some r := by
  unfold http.Client.handleResponse
  rcases hb : resp.Body with err | body
  · exact ⟨t, rfl⟩
  · by_cases hs : resp.StatusCode < 200 ∨ resp.StatusCode ≥ 300
    · simp only [hs, if_true]
      rcases std.UnmarshalEnvelope body with _ | ⟨m, code⟩
      · exact ⟨t, rfl⟩
      · by_cases hm : m ≠ ""
        · exact ⟨t, by simp [hm]⟩
        · exact ⟨t, by simp [hm]⟩
    · simp only [hs, if_false]
      rcases hu : std.Unmarshal body t with ⟨_ | err, t2⟩
      · exact ⟨t2, by simp [hu]⟩
      · exact ⟨t2, by simp [hu]⟩

/-- A call of `Get` with a target leaves a target. -/
theorem Get_target {β ρ : Type} (std : http.Stdlib β ρ) (c : http.Client) (path : String)
    (query : Option Values) (t : ρ) :
    ∃ r, (c.Get std path query (some t)).2 = some r := by
  unfold http.Client.Get
  rcases c.Do std "GET" path query none with err | resp
  · exact ⟨t, rfl⟩
  · exact handleResponse_target std c resp t

/-- A call of `Post` with a target leaves a target. -/
theorem Post_target {β ρ : Type} (std : http.Stdlib β ρ) (c : http.Client) (path : String)
    (body : Option β) (t : ρ) :
    ∃ r, (c.Post std path body (some t)).2 = some r := by
  unfold http.Client.Post
  rcases c.Do std "POST" path none body with err | resp
  · exact ⟨t, rfl⟩
  · exact handleResponse_target std c resp t

/-- What `Get` makes of the engine's answer, once the URL parses and the request can be
created: the engine receives a GET with the given query, no body and the two fixed
headers. -/
theorem Get_engine {β ρ : Type} (std : http.Stdlib β ρ) (base : String)
    (engine : http.Request → Except GoError http.Response) (path : String) (query : Values)
    (result : Option ρ) (hp : std.urlParse (base ++ path) = none)
    (hn : std.NewRequest "GET" (base ++ path) = none) :
    http.Client.Get std ⟨base, engine⟩ path (some query) result =
      match engine (expectedGet (base ++ path) query) with
      | .error err =>
        (some (.wrapError ("failed to execute request: " ++ err.Error) err), result)
      | .ok resp => http.Client.handleResponse std ⟨base, engine⟩ resp result := by
  unfold http.Client.Get http.Client.Do
  simp only [hp, hn]
  show (match (match engine (expectedGet (base ++ path) query) with
      | .error err => Except.error (GoError.wrapError ("failed to execute request: " ++ err.Error) err)
      | .ok resp => Except.ok resp) with
    | .error err => (some err, result)
    | .ok resp => http.Client.handleResponse std ⟨base, engine⟩ resp result) = _
  cases engine (expectedGet (base ++ path) query) <;> rfl

/-- What `Post` makes of the engine's answer, once the URL parses, the body is marshalled
to `data` and the request can be created: the engine receives a POST with no query, the
body `data` and the three headers. -/
theorem Post_engine {β ρ : Type} (std : http.Stdlib β ρ) (base : String)
    (engine : http.Request → Except GoError http.Response) (path : String) (body : β)
    (data : String) (result : Option ρ) (hp : std.urlParse (base ++ path) = none)
    (hm : std.Marshal body = .ok data)
    (hn : std.NewRequest "POST" (base ++ path) = none) :
    http.Client.Post std ⟨base, engine⟩ path (some body) result =
      match engine (expectedPost (base ++ path) data) with
      | .error err =>
        (some (.wrapError ("failed to execute request: " ++ err.Error) err), result)
      | .ok resp => http.Client.handleResponse std ⟨base, engine⟩ resp result := by
  unfold http.Client.Post http.Client.Do
  simp only [hp, hn, hm]
  show (match (match engine (expectedPost (base ++ path) data) with
      | .error err => Except.error (GoError.wrapError ("failed to execute request: " ++ err.Error) err)
      | .ok resp => Except.ok resp) with
    | .error err => (some err, result)
    | .ok resp => http.Client.handleResponse std ⟨base, engine⟩ resp result) = _
  cases engine (expectedPost (base ++ path) data) <;> rfl

/-- The method `Forward` of package `geocoding` on a request that passes validation: the outcome of the
GET, with an error wrapped. -/
theorem geocoding_Forward_of_valid {β ρ : Type} (std : Strconv) (net : http.Stdlib β ρ)
    (zero : ρ) (s : geocoding.Service) (req : geocoding.ForwardRequest)
    (h : req.Query ≠ "") :
    geocoding.Service.Forward std net zero s req =
      match s.httpClient.Get net geocoding.forwardPath
          (some (geocoding.Service.buildForwardQuery std s req)) (some zero) with
      | (some err, _) => .error (.wrapError ("forward geocoding failed: " ++ err.Error) err)
      | (none, result) => .ok (result.getD zero) := by
  unfold geocoding.Service.Forward
  simp only [h, if_false]

/-- The method `Forward` of package `geocoding` and the engine: on a request that passes validation, when the
URL parses and the request can be created, the engine is asked the expected GET, its
failure comes back wrapped twice, and its answer is processed as the answer of any other
engine would be. -/
theorem geocoding_Forward_dispatch {β ρ : Type} (std : Strconv) (net : http.Stdlib β ρ)
    (zero : ρ) (token base : String) (engine : http.Request → Except GoError http.Response)
    (req : geocoding.ForwardRequest) (h : req.Query ≠ "")
    (hp : net.urlParse (base ++ geocoding.forwardPath) = none)
    (hn : net.NewRequest "GET" (base ++ geocoding.forwardPath) = none) :
    geocoding.Service.Forward std net zero ⟨token, ⟨base, engine⟩⟩ req =
      match engine (expectedGet (base ++ geocoding.forwardPath)
          (geocoding.Service.buildForwardQuery std ⟨token, ⟨base, engine⟩⟩ req)) with
      | .error e => .error (.wrapError
          ("forward geocoding failed: " ++ ("failed to execute request: " ++ e.Error))
          (.wrapError ("failed to execute request: " ++ e.Error) e))
      | .ok resp =>
        geocoding.Service.Forward std net zero ⟨token, ⟨base, fun _ => .ok resp⟩⟩ req := by
  simp only [geocoding_Forward_of_valid _ _ _ _ _ h, Get_engine _ _ _ _ _ _ hp hn]
  cases engine (expectedGet (base ++ geocoding.forwardPath)
      (geocoding.Service.buildForwardQuery std ⟨token, ⟨base, engine⟩⟩ req)) <;> rfl

/-- The method `ForwardStructured` on a request that passes validation: the outcome of the
GET, with an error wrapped. -/
theorem geocoding_ForwardStructured_of_valid {β ρ : Type} (std : Strconv) (net : http.Stdlib β ρ)
    (zero : ρ) (s : geocoding.Service) (req : geocoding.StructuredForwardRequest)
    (h : ¬ (req.AddressNumber = "" ∧ req.Street = "" ∧ req.Block = "" ∧
      req.Place = "" ∧ req.Region = "" ∧ req.Postcode = "" ∧ req.Country = "")) :
    geocoding.Service.ForwardStructured std net zero s req =
      match s.httpClient.Get net geocoding.forwardPath
          (some (geocoding.Service.buildStructuredForwardQuery std s req)) (some zero) with
      | (some err, _) => .error (.wrapError ("structured forward geocoding failed: " ++ err.Error) err)
      | (none, result) => .ok (result.getD zero) := by
  unfold geocoding.Service.ForwardStructured
  simp only [h, if_false]

/-- The method `ForwardStructured` and the engine: on a request that passes validation, when the
URL parses and the request can be created, the engine is asked the expected GET, its
failure comes back wrapped twice, and its answer is processed as the answer of any other
engine would be. -/
theorem geocoding_ForwardStructured_dispatch {β ρ : Type} (std : Strconv) (net : http.Stdlib β ρ)
    (zero : ρ) (token base : String) (engine : http.Request → Except GoError http.Response)
    (req : geocoding.StructuredForwardRequest) (h : ¬ (req.AddressNumber = "" ∧ req.Street = "" ∧ req.Block = "" ∧
      req.Place = "" ∧ req.Region = "" ∧ req.Postcode = "" ∧ req.Country = ""))
    (hp : net.urlParse (base ++ geocoding.forwardPath) = none)
    (hn : net.NewRequest "GET" (base ++ geocoding.forwardPath) = none) :
    geocoding.Service.ForwardStructured std net zero ⟨token, ⟨base, engine⟩⟩ req =
      match engine (expectedGet (base ++ geocoding.forwardPath)
          (geocoding.Service.buildStructuredForwardQuery std ⟨token, ⟨base, engine⟩⟩ req)) with
      | .error e => .error (.wrapError
          ("structured forward geocoding failed: " ++ ("failed to execute request: " ++ e.Error))
          (.wrapError ("failed to execute request: " ++ e.Error) e))
      | .ok resp =>
        geocoding.Service.ForwardStructured std net zero ⟨token, ⟨base, fun _ => .ok resp⟩⟩ req := by
  simp only [geocoding_ForwardStructured_of_valid _ _ _ _ _ h, Get_engine _ _ _ _ _ _ hp hn]
  cases engine (expectedGet (base ++ geocoding.forwardPath)
      (geocoding.Service.buildStructuredForwardQuery std ⟨token, ⟨base, engine⟩⟩ req)) <;> rfl

/-- The method `Reverse` of package `geocoding` on a request that passes validation: the outcome of the
GET, with an error wrapped. -/
theorem geocoding_Reverse_of_valid {β ρ : Type} (std : Strconv) (net : http.Stdlib β ρ)
    (zero : ρ) (s : geocoding.Service) (req : geocoding.ReverseRequest)
    (h : geocoding.validateCoordinates std req.Longitude req.Latitude = none) :
    geocoding.Service.Reverse std net zero s req =
      match s.httpClient.Get net geocoding.reversePath
          (some (geocoding.Service.buildReverseQuery std s req)) (some zero) with
      | (some err, _) => .error (.wrapError ("reverse geocoding failed: " ++ err.Error) err)
      | (none, result) => .ok (result.getD zero) := by
  unfold geocoding.Service.Reverse
  simp only [h]

/-- The method `Reverse` of package `geocoding` and the engine: on a request that passes validation, when the
URL parses and the request can be created, the engine is asked the expected GET, its
failure comes back wrapped twice, and its answer is processed as the answer of any other
engine would be. -/
theorem geocoding_Reverse_dispatch {β ρ : Type} (std : Strconv) (net : http.Stdlib β ρ)
    (zero : ρ) (token base : String) (engine : http.Request → Except GoError http.Response)
    (req : geocoding.ReverseRequest) (h : geocoding.validateCoordinates std req.Longitude req.Latitude = none)
    (hp : net.urlParse (base ++ geocoding.reversePath) = none)
    (hn : net.NewRequest "GET" (base ++ geocoding.reversePath) = none) :
    geocoding.Service.Reverse std net zero ⟨token, ⟨base, engine⟩⟩ req =
      match engine (expectedGet (base ++ geocoding.reversePath)
          (geocoding.Service.buildReverseQuery std ⟨token, ⟨base, engine⟩⟩ req)) with
      | .error e => .error (.wrapError
          ("reverse geocoding failed: " ++ ("failed to execute request: " ++ e.Error))
          (.wrapError ("failed to execute request: " ++ e.Error) e))
      | .ok resp =>
        geocoding.Service.Reverse std net zero ⟨token, ⟨base, fun _ => .ok resp⟩⟩ req := by
  simp only [geocoding_Reverse_of_valid _ _ _ _ _ h, Get_engine _ _ _ _ _ _ hp hn]
  cases engine (expectedGet (base ++ geocoding.reversePath)
      (geocoding.Service.buildReverseQuery std ⟨token, ⟨base, engine⟩⟩ req)) <;> rfl

/-- The method `Suggest` on a request that passes validation: the outcome of the
GET, with an error wrapped. -/
theorem searchbox_Suggest_of_valid {β ρ : Type} (std : Strconv) (net : http.Stdlib β ρ)
    (zero : ρ) (s : searchbox.Service) (req : searchbox.SuggestRequest)
    (h : searchbox.validateSuggestRequest req = none) :
    searchbox.Service.Suggest std net zero s req =
      match s.httpClient.Get net searchbox.suggestPath
          (some (searchbox.Service.buildSuggestQuery std s req)) (some zero) with
      | (some err, _) => .error (.wrapError ("suggest search failed: " ++ err.Error) err)
      | (none, result) => .ok (result.getD zero) := by
  unfold searchbox.Service.Suggest
  simp only [h]

/-- The method `Suggest` and the engine: on a request that passes validation, when the
URL parses and the request can be created, the engine is asked the expected GET, its
failure comes back wrapped twice, and its answer is processed as the answer of any other
engine would be. -/
theorem searchbox_Suggest_dispatch {β ρ : Type} (std : Strconv) (net : http.Stdlib β ρ)
    (zero : ρ) (token base : String) (engine : http.Request → Except GoError http.Response)
    (req : searchbox.SuggestRequest) (h : searchbox.validateSuggestRequest req = none)
    (hp : net.urlParse (base ++ searchbox.suggestPath) = none)
    (hn : net.NewRequest "GET" (base ++ searchbox.suggestPath) = none) :
    searchbox.Service.Suggest std net zero ⟨token, ⟨base, engine⟩⟩ req =
      match engine (expectedGet (base ++ searchbox.suggestPath)
          (searchbox.Service.buildSuggestQuery std ⟨token, ⟨base, engine⟩⟩ req)) with
      | .error e => .error (.wrapError
          ("suggest search failed: " ++ ("failed to execute request: " ++ e.Error))
          (.wrapError ("failed to execute request: " ++ e.Error) e))
      | .ok resp =>
        searchbox.Service.Suggest std net zero ⟨token, ⟨base, fun _ => .ok resp⟩⟩ req := by
  simp only [searchbox_Suggest_of_valid _ _ _ _ _ h, Get_engine _ _ _ _ _ _ hp hn]
  cases engine (expectedGet (base ++ searchbox.suggestPath)
      (searchbox.Service.buildSuggestQuery std ⟨token, ⟨base, engine⟩⟩ req)) <;> rfl

/-- The method `Retrieve` on a request that passes validation: the outcome of the
GET, with an error wrapped. -/
theorem searchbox_Retrieve_of_valid {β ρ : Type} (std : Strconv) (net : http.Stdlib β ρ)
    (zero : ρ) (s : searchbox.Service) (req : searchbox.RetrieveRequest)
    (h : searchbox.validateRetrieveRequest req = none) :
    searchbox.Service.Retrieve std net zero s req =
      match s.httpClient.Get net (searchbox.retrievePath ++ "/" ++ req.MapboxID)
          (some (searchbox.Service.buildRetrieveQuery std s req)) (some zero) with
      | (some err, _) => .error (.wrapError ("retrieve feature failed: " ++ err.Error) err)
      | (none, result) => .ok (result.getD zero) := by
  unfold searchbox.Service.Retrieve
  simp only [h]

/-- The method `Retrieve` and the engine: on a request that passes validation, when the
URL parses and the request can be created, the engine is asked the expected GET, its
failure comes back wrapped twice, and its answer is processed as the answer of any other
engine would be. -/
theorem searchbox_Retrieve_dispatch {β ρ : Type} (std : Strconv) (net : http.Stdlib β ρ)
    (zero : ρ) (token base : String) (engine : http.Request → Except GoError http.Response)
    (req : searchbox.RetrieveRequest) (h : searchbox.validateRetrieveRequest req = none)
    (hp : net.urlParse (base ++ (searchbox.retrievePath ++ "/" ++ req.MapboxID)) = none)
    (hn : net.NewRequest "GET" (base ++ (searchbox.retrievePath ++ "/" ++ req.MapboxID)) = none) :
    searchbox.Service.Retrieve std net zero ⟨token, ⟨base, engine⟩⟩ req =
      match engine (expectedGet (base ++ (searchbox.retrievePath ++ "/" ++ req.MapboxID))
          (searchbox.Service.buildRetrieveQuery std ⟨token, ⟨base, engine⟩⟩ req)) with
      | .error e => .error (.wrapError
          ("retrieve feature failed: " ++ ("failed to execute request: " ++ e.Error))
          (.wrapError ("failed to execute request: " ++ e.Error) e))
      | .ok resp =>
        searchbox.Service.Retrieve std net zero ⟨token, ⟨base, fun _ => .ok resp⟩⟩ req := by
  simp only [searchbox_Retrieve_of_valid _ _ _ _ _ h, Get_engine _ _ _ _ _ _ hp hn]
  cases engine (expectedGet (base ++ (searchbox.retrievePath ++ "/" ++ req.MapboxID))
      (searchbox.Service.buildRetrieveQuery std ⟨token, ⟨base, engine⟩⟩ req)) <;> rfl

/-- The method `Forward` of package `searchbox` on a request that passes validation: the outcome of the
GET, with an error wrapped. -/
theorem searchbox_Forward_of_valid {β ρ : Type} (std : Strconv) (net : http.Stdlib β ρ)
    (zero : ρ) (s : searchbox.Service) (req : searchbox.ForwardRequest)
    (h : searchbox.validateForwardRequest req = none) :
    searchbox.Service.Forward std net zero s req =
      match s.httpClient.Get net searchbox.forwardPath
          (some (searchbox.Service.buildForwardQuery std s req)) (some zero) with
      | (some err, _) => .error (.wrapError ("forward search failed: " ++ err.Error) err)
      | (none, result) => .ok (result.getD zero) := by
  unfold searchbox.Service.Forward
  simp only [h]

/-- The method `Forward` of package `searchbox` and the engine: on a request that passes validation, when the
URL parses and the request can be created, the engine is asked the expected GET, its
failure comes back wrapped twice, and its answer is processed as the answer of any other
engine would be. -/
theorem searchbox_Forward_dispatch {β ρ : Type} (std : Strconv) (net : http.Stdlib β ρ)
    (zero : ρ) (token base : String) (engine : http.Request → Except GoError http.Response)
    (req : searchbox.ForwardRequest) (h : searchbox.validateForwardRequest req = none)
    (hp : net.urlParse (base ++ searchbox.forwardPath) = none)
    (hn : net.NewRequest "GET" (base ++ searchbox.forwardPath) = none) :
    searchbox.Service.Forward std net zero ⟨token, ⟨base, engine⟩⟩ req =
      match engine (expectedGet (base ++ searchbox.forwardPath)
          (searchbox.Service.buildForwardQuery std ⟨token, ⟨base, engine⟩⟩ req)) with
      | .error e => .error (.wrapError
          ("forward search failed: " ++ ("failed to execute request: " ++ e.Error))
          (.wrapError ("failed to execute request: " ++ e.Error) e))
      | .ok resp =>
        searchbox.Service.Forward std net zero ⟨token, ⟨base, fun _ => .ok resp⟩⟩ req := by
  simp only [searchbox_Forward_of_valid _ _ _ _ _ h, Get_engine _ _ _ _ _ _ hp hn]
  cases engine (expectedGet (base ++ searchbox.forwardPath)
      (searchbox.Service.buildForwardQuery std ⟨token, ⟨base, engine⟩⟩ req)) <;> rfl

/-- The method `CategorySearch` on a request that passes validation: the outcome of the
GET, with an error wrapped. -/
theorem searchbox_CategorySearch_of_valid {β ρ : Type} (std : Strconv) (net : http.Stdlib β ρ)
    (zero : ρ) (s : searchbox.Service) (req : searchbox.CategorySearchRequest)
    (h : searchbox.validateCategorySearchRequest req = none) :
    searchbox.Service.CategorySearch std net zero s req =
      match s.httpClient.Get net (searchbox.categorySearchPath ++ "/" ++ req.CategoryID)
          (some (searchbox.Service.buildCategorySearchQuery std s req)) (some zero) with
      | (some err, _) => .error (.wrapError ("category search failed: " ++ err.Error) err)
      | (none, result) => .ok (result.getD zero) := by
  unfold searchbox.Service.CategorySearch
  simp only [h]

/-- The method `CategorySearch` and the engine: on a request that passes validation, when the
URL parses and the request can be created, the engine is asked the expected GET, its
failure comes back wrapped twice, and its answer is processed as the answer of any other
engine would be. -/
theorem searchbox_CategorySearch_dispatch {β ρ : Type} (std : Strconv) (net : http.Stdlib β ρ)
    (zero : ρ) (token base : String) (engine : http.Request → Except GoError http.Response)
    (req : searchbox.CategorySearchRequest) (h : searchbox.validateCategorySearchRequest req = none)
    (hp : net.urlParse (base ++ (searchbox.categorySearchPath ++ "/" ++ req.CategoryID)) = none)
    (hn : net.NewRequest "GET" (base ++ (searchbox.categorySearchPath ++ "/" ++ req.CategoryID)) = none) :
    searchbox.Service.CategorySearch std net zero ⟨token, ⟨base, engine⟩⟩ req =
      match engine (expectedGet (base ++ (searchbox.categorySearchPath ++ "/" ++ req.CategoryID))
          (searchbox.Service.buildCategorySearchQuery std ⟨token, ⟨base, engine⟩⟩ req)) with
      | .error e => .error (.wrapError
          ("category search failed: " ++ ("failed to execute request: " ++ e.Error))
          (.wrapError ("failed to execute request: " ++ e.Error) e))
      | .ok resp =>
        searchbox.Service.CategorySearch std net zero ⟨token, ⟨base, fun _ => .ok resp⟩⟩ req := by
  simp only [searchbox_CategorySearch_of_valid _ _ _ _ _ h, Get_engine _ _ _ _ _ _ hp hn]
  cases engine (expectedGet (base ++ (searchbox.categorySearchPath ++ "/" ++ req.CategoryID))
      (searchbox.Service.buildCategorySearchQuery std ⟨token, ⟨base, engine⟩⟩ req)) <;> rfl

/-- The method `ListCategories`: the outcome of the GET, with an error wrapped. -/
theorem searchbox_ListCategories_of_valid {β ρ : Type} (net : http.Stdlib β ρ)
    (zero : ρ) (s : searchbox.Service) (req : searchbox.ListCategoriesRequest) :
    searchbox.Service.ListCategories net zero s req =
      match s.httpClient.Get net searchbox.listCategoriesPath
          (some (searchbox.Service.buildListCategoriesQuery s req)) (some zero) with
      | (some err, _) => .error (.wrapError ("list categories failed: " ++ err.Error) err)
      | (none, result) => .ok (result.getD zero) := rfl

/-- The method `ListCategories` and the engine: on a request that passes validation, when the
URL parses and the request can be created, the engine is asked the expected GET, its
failure comes back wrapped twice, and its answer is processed as the answer of any other
engine would be. -/
theorem searchbox_ListCategories_dispatch {β ρ : Type} (net : http.Stdlib β ρ)
    (zero : ρ) (token base : String) (engine : http.Request → Except GoError http.Response)
    (req : searchbox.ListCategoriesRequest)
    (hp : net.urlParse (base ++ searchbox.listCategoriesPath) = none)
    (hn : net.NewRequest "GET" (base ++ searchbox.listCategoriesPath) = none) :
    searchbox.Service.ListCategories net zero ⟨token, ⟨base, engine⟩⟩ req =
      match engine (expectedGet (base ++ searchbox.listCategoriesPath)
          (searchbox.Service.buildListCategoriesQuery ⟨token, ⟨base, engine⟩⟩ req)) with
      | .error e => .error (.wrapError
          ("list categories failed: " ++ ("failed to execute request: " ++ e.Error))
          (.wrapError ("failed to execute request: " ++ e.Error) e))
      | .ok resp =>
        searchbox.Service.ListCategories net zero ⟨token, ⟨base, fun _ => .ok resp⟩⟩ req := by
  simp only [searchbox_ListCategories_of_valid, Get_engine _ _ _ _ _ _ hp hn]
  cases engine (expectedGet (base ++ searchbox.listCategoriesPath)
      (searchbox.Service.buildListCategoriesQuery ⟨token, ⟨base, engine⟩⟩ req)) <;> rfl

/-- The method `Reverse` of package `searchbox` on a request that passes validation: the outcome of the
GET, with an error wrapped. -/
theorem searchbox_Reverse_of_valid {β ρ : Type} (std : Strconv) (net : http.Stdlib β ρ)
    (zero : ρ) (s : searchbox.Service) (req : searchbox.ReverseRequest)
    (h : searchbox.validateReverseRequest req = none) :
    searchbox.Service.Reverse std net zero s req =
      match s.httpClient.Get net searchbox.reversePath
          (some (searchbox.Service.buildReverseQuery std s req)) (some zero) with
      | (some err, _) => .error (.wrapError ("reverse geocoding failed: " ++ err.Error) err)
      | (none, result) => .ok (result.getD zero) := by
  unfold searchbox.Service.Reverse
  simp only [h]

/-- The method `Reverse` of package `searchbox` and the engine: on a request that passes validation, when the
URL parses and the request can be created, the engine is asked the expected GET, its
failure comes back wrapped twice, and its answer is processed as the answer of any other
engine would be. -/
theorem searchbox_Reverse_dispatch {β ρ : Type} (std : Strconv) (net : http.Stdlib β ρ)
    (zero : ρ) (token base : String) (engine : http.Request → Except GoError http.Response)
    (req : searchbox.ReverseRequest) (h : searchbox.validateReverseRequest req = none)
    (hp : net.urlParse (base ++ searchbox.reversePath) = none)
    (hn : net.NewRequest "GET" (base ++ searchbox.reversePath) = none) :
    searchbox.Service.Reverse std net zero ⟨token, ⟨base, engine⟩⟩ req =
      match engine (expectedGet (base ++ searchbox.reversePath)
          (searchbox.Service.buildReverseQuery std ⟨token, ⟨base, engine⟩⟩ req)) with
      | .error e => .error (.wrapError
          ("reverse geocoding failed: " ++ ("failed to execute request: " ++ e.Error))
          (.wrapError ("failed to execute request: " ++ e.Error) e))
      | .ok resp =>
        searchbox.Service.Reverse std net zero ⟨token, ⟨base, fun _ => .ok resp⟩⟩ req := by
  simp only [searchbox_Reverse_of_valid _ _ _ _ _ h, Get_engine _ _ _ _ _ _ hp hn]
  cases engine (expectedGet (base ++ searchbox.reversePath)
      (searchbox.Service.buildReverseQuery std ⟨token, ⟨base, engine⟩⟩ req)) <;> rfl

/-- What an endpoint method makes of the outcome `out` of its transport call, when the
call was given a target: an error `e` comes back wrapped under the endpoint's message,
and without error the target is the result. -/
theorem endpoint_outcome {ρ : Type} (msg : String) (zero : ρ) (out : Option GoError × Option ρ)
    (hout : ∃ r, out.2 = some r) :
    (∀ e t, out = (some e, t) →
      (match out with
        | (some err, _) => Except.error (GoError.wrapError (msg ++ err.Error) err)
        | (none, result) => Except.ok (result.getD zero)) =
      .error (.wrapError (msg ++ e.Error) e)) ∧
    (∀ t, out = (none, t) → ∃ r, t = some r ∧
      (match out with
        | (some err, _) => Except.error (GoError.wrapError (msg ++ err.Error) err)
        | (none, result) => Except.ok (result.getD zero)) = .ok r) := by
  obtain ⟨r, hr⟩ := hout
  constructor
  · intro e t h; rw [h]
  · intro t h
    rw [h] at hr
    simp only at hr
    subst hr
    exact ⟨r, rfl, by rw [h]; rfl⟩

/-- An endpoint method that went on to its transport call does not return an
`errorString`: the errors of the transport come back wrapped. -/
theorem endpoint_outcome_ne_errorString {ρ : Type} (msg text : String) (zero : ρ)
    (out : Option GoError × Option ρ) :
    (match out with
      | (some err, _) => Except.error (GoError.wrapError (msg ++ err.Error) err)
      | (none, result) => Except.ok (result.getD zero)) ≠
    .error (.errorString text) := by
  rcases out with ⟨_ | err, result⟩ <;> simp

/-- The method `Forward` of package `geocoding` on a request without query. -/
theorem geocoding_Forward_of_invalid {β ρ : Type} (std : Strconv) (net : http.Stdlib β ρ)
    (zero : ρ) (s : geocoding.Service) (req : geocoding.ForwardRequest) (h : req.Query = "") :
    geocoding.Service.Forward std net zero s req =
      .error (.errorString "query is required") := by
  unfold geocoding.Service.Forward
  simp only [h, if_true]

/-- C23: `ForwardStructured` returns its validation error if and only if all seven address
components are empty; otherwise it goes on to the GET with the query of
`buildStructuredForwardQuery`, and that query holds, for each of the seven components,
the component as the only value of its key when the component is not empty and no such
key when it is empty. -/
theorem ForwardStructured_spec {β ρ : Type} (std : Strconv) (net : http.Stdlib β ρ)
    (zero : ρ) (s : geocoding.Service) (req : geocoding.StructuredForwardRequest) :
    (geocoding.Service.ForwardStructured std net zero s req =
        .error (.errorString "at least one address component is required") ↔
      (req.AddressNumber = "" ∧ req.Street = "" ∧ req.Block = "" ∧
        req.Place = "" ∧ req.Region = "" ∧ req.Postcode = "" ∧ req.Country = "")) ∧
    (¬ (req.AddressNumber = "" ∧ req.Street = "" ∧ req.Block = "" ∧
        req.Place = "" ∧ req.Region = "" ∧ req.Postcode = "" ∧ req.Country = "") →
      geocoding.Service.ForwardStructured std net zero s req =
        match s.httpClient.Get net geocoding.forwardPath
            (some (s.buildStructuredForwardQuery std req)) (some zero) with
        | (some err, _) =>
          .error (.wrapError ("structured forward geocoding failed: " ++ err.Error) err)
        | (none, result) => .ok (result.getD zero)) ∧
    (s.buildStructuredForwardQuery std req).lookup "address_number" =
      (if req.AddressNumber ≠ "" then some [req.AddressNumber] else none) ∧
    (s.buildStructuredForwardQuery std req).lookup "street" =
      (if req.Street ≠ "" then some [req.Street] else none) ∧
    (s.buildStructuredForwardQuery std req).lookup "block" =
      (if req.Block ≠ "" then some [req.Block] else none) ∧
    (s.buildStructuredForwardQuery std req).lookup "place" =
      (if req.Place ≠ "" then some [req.Place] else none) ∧
    (s.buildStructuredForwardQuery std req).lookup "region" =
      (if req.Region ≠ "" then some [req.Region] else none) ∧
    (s.buildStructuredForwardQuery std req).lookup "postcode" =
      (if req.Postcode ≠ "" then some [req.Postcode] else none) ∧
    (s.buildStructuredForwardQuery std req).lookup "country" =
      (if req.Country ≠ "" then some [req.Country] else none) := by
  refine ⟨⟨?_, ?_⟩, geocoding_ForwardStructured_of_valid std net zero s req, ?_, ?_, ?_, ?_,
    ?_, ?_, ?_⟩
  · intro h
    by_contra hne
    rw [geocoding_ForwardStructured_of_valid std net zero s req hne] at h
    exact endpoint_outcome_ne_errorString _ _ _ _ h
  · intro h
    unfold geocoding.Service.ForwardStructured
    simp only [h, and_self, if_true]
  all_goals
    rw [geocoding_lookup_buildStructuredForwardQuery]
    simp

/-- C23 (witness): a request with street, place and country only. -/
theorem ForwardStructured_spec_witness :
    geocoding.Service.ForwardStructured goStrconv sampleNet "" echoService
        { Street := "Via Roma", Place := "Torino", Country := "IT" } =
      (match echoService.httpClient.Get sampleNet geocoding.forwardPath
          (some (echoService.buildStructuredForwardQuery goStrconv
            { Street := "Via Roma", Place := "Torino", Country := "IT" })) (some "") with
        | (some err, _) =>
          .error (.wrapError ("structured forward geocoding failed: " ++ err.Error) err)
        | (none, result) => .ok (result.getD "")) ∧
    geocoding.Service.ForwardStructured goStrconv sampleNet "" echoService {} =
      .error (.errorString "at least one address component is required") :=
  ⟨(ForwardStructured_spec goStrconv sampleNet "" echoService
      { Street := "Via Roma", Place := "Torino", Country := "IT" }).2.1 (by decide),
   (ForwardStructured_spec goStrconv sampleNet "" echoService {}).1.2 (by decide)⟩

/-- C24: `Forward` of package `geocoding` returns its validation error if and only if the
query is empty. A request with a non-empty query and any integer as limit goes out: the
built query holds the decimal form of the integer as the only value of `limit`, and that
query is the one of the GET the engine is asked. On an engine that echoes what it
received, the limits 0, -5 and 11 arrive as `limit=0`, `limit=-5` and `limit=11`. -/
theorem Forward_limit_not_enforced {β ρ : Type} (std : Strconv) (net : http.Stdlib β ρ)
    (zero : ρ) (token base : String) (engine : http.Request → Except GoError http.Response)
    (req : geocoding.ForwardRequest) :
    (geocoding.Service.Forward std net zero ⟨token, ⟨base, engine⟩⟩ req =
        .error (.errorString "query is required") ↔ req.Query = "") ∧
    (∀ l : Int, req.Query ≠ "" → req.Limit = some l →
      (geocoding.Service.buildForwardQuery std ⟨token, ⟨base, engine⟩⟩ req).lookup "limit" =
        some [Itoa l] ∧
      (net.urlParse (base ++ geocoding.forwardPath) = none →
       net.NewRequest "GET" (base ++ geocoding.forwardPath) = none →
       geocoding.Service.Forward std net zero ⟨token, ⟨base, engine⟩⟩ req =
        match engine (expectedGet (base ++ geocoding.forwardPath)
            (geocoding.Service.buildForwardQuery std ⟨token, ⟨base, engine⟩⟩ req)) with
        | .error e => .error (.wrapError
            ("forward geocoding failed: " ++ ("failed to execute request: " ++ e.Error))
            (.wrapError ("failed to execute request: " ++ e.Error) e))
        | .ok resp =>
          geocoding.Service.Forward std net zero ⟨token, ⟨base, fun _ => .ok resp⟩⟩ req)) ∧
    geocoding.Service.Forward goStrconv sampleNet "" echoService
        { Query := "Roma", Limit := some 0 } =
      .ok "GET https://api.mapbox.com/search/geocode/v6/forward limit=0 body=" ∧
    geocoding.Service.Forward goStrconv sampleNet "" echoService
        { Query := "Roma", Limit := some (-5) } =
      .ok "GET https://api.mapbox.com/search/geocode/v6/forward limit=-5 body=" ∧
    geocoding.Service.Forward goStrconv sampleNet "" echoService
        { Query := "Roma", Limit := some 11 } =
      .ok "GET https://api.mapbox.com/search/geocode/v6/forward limit=11 body=" := by
  refine ⟨⟨?_, geocoding_Forward_of_invalid std net zero _ req⟩, ?_, ?_, ?_, ?_⟩
  · intro h
    by_contra hne
    rw [geocoding_Forward_of_valid std net zero _ req hne] at h
    exact endpoint_outcome_ne_errorString _ _ _ _ h
  · intro l hq hl
    refine ⟨?_, geocoding_Forward_dispatch std net zero token base engine req hq⟩
    rw [geocoding_lookup_buildForwardQuery]
    simp [hl]
  · rfl
  · rfl
  · rfl

/-- C24 (witness): the limit 0 on a request with a query. -/
theorem Forward_limit_not_enforced_witness :
    (geocoding.Service.buildForwardQuery goStrconv echoService
        { Query := "Roma", Limit := some 0 }).lookup "limit" = some [Itoa 0] ∧
    geocoding.Service.Forward goStrconv sampleNet "" echoService
        { Query := "Roma", Limit := some 0 } =
      (match echoEngine (expectedGet ("https://api.mapbox.com" ++ geocoding.forwardPath)
          (geocoding.Service.buildForwardQuery goStrconv echoService
            { Query := "Roma", Limit := some 0 })) with
        | .error e => .error (.wrapError
            ("forward geocoding failed: " ++ ("failed to execute request: " ++ e.Error))
            (.wrapError ("failed to execute request: " ++ e.Error) e))
        | .ok resp =>
          geocoding.Service.Forward goStrconv sampleNet ""
            ⟨"test-token", ⟨"https://api.mapbox.com", fun _ => .ok resp⟩⟩
            { Query := "Roma", Limit := some 0 }) :=
  ⟨((Forward_limit_not_enforced goStrconv sampleNet "" "test-token" "https://api.mapbox.com"
      echoEngine { Query := "Roma", Limit := some 0 }).2.1 0 (by decide) rfl).1,
   ((Forward_limit_not_enforced goStrconv sampleNet "" "test-token" "https://api.mapbox.com"
      echoEngine { Query := "Roma", Limit := some 0 }).2.1 0 (by decide) rfl).2 rfl rfl⟩

/-- The method `Batch` on a request without queries. -/
theorem Batch_of_empty {ρ : Type} (std : Strconv) (net : http.Stdlib geocoding.BatchBody ρ)
    (zero : ρ) (s : geocoding.Service) (req : geocoding.BatchRequest)
    (h : req.Queries.length = 0) :
    geocoding.Service.Batch std net zero s req =
      .error (.errorString "at least one query is required") := by
  simp [geocoding.Service.Batch, h]

/-- The method `Batch` on a request of more than 1000 queries. -/
theorem Batch_of_too_many {ρ : Type} (std : Strconv) (net : http.Stdlib geocoding.BatchBody ρ)
    (zero : ρ) (s : geocoding.Service) (req : geocoding.BatchRequest)
    (h : 1000 < req.Queries.length) :
    geocoding.Service.Batch std net zero s req =
      .error (.errorString
        ("maximum 1000 queries allowed, got " ++ Itoa req.Queries.length)) := by
  have hmsg : "maximum " ++ Itoa geocoding.maxBatchQueries ++ " queries allowed, got " =
      "maximum 1000 queries allowed, got " := by decide
  have h0 : req.Queries.length ≠ 0 := by omega
  have h3 : (req.Queries.length : Int) > geocoding.maxBatchQueries := by
    simp only [geocoding.maxBatchQueries]; omega
  unfold geocoding.Service.Batch
  simp only [h0, h3, if_false, if_true, hmsg]

/-- The method `Batch` on a request of 1 to 1000 queries one of which is rejected: the
error of the first rejected query, in index order. -/
theorem Batch_of_rejected_query {ρ : Type} (std : Strconv)
    (net : http.Stdlib geocoding.BatchBody ρ) (zero : ρ) (s : geocoding.Service)
    (req : geocoding.BatchRequest) (err : GoError)
    (h1 : 1 ≤ req.Queries.length) (h2 : req.Queries.length ≤ 1000)
    (hf : req.Queries.enum.findSome? (fun iq => geocoding.validateBatchQuery std iq.2 iq.1) =
      some err) :
    geocoding.Service.Batch std net zero s req = .error err := by
  have h0 : req.Queries.length ≠ 0 := by omega
  have h3 : ¬ ((req.Queries.length : Int) > geocoding.maxBatchQueries) := by
    simp only [geocoding.maxBatchQueries]; omega
  unfold geocoding.Service.Batch
  simp only [h0, h3, hf, if_false]

/-- The method `Batch` and the engine: on a request that passes validation, when the URL
parses, the body `queries` is marshalled to `data` and the request can be created, the
engine is asked the expected POST, its failure comes back wrapped twice, and its answer is
processed as the answer of any other engine would be. -/
theorem Batch_dispatch {ρ : Type} (std : Strconv) (net : http.Stdlib geocoding.BatchBody ρ)
    (zero : ρ) (token base : String) (engine : http.Request → Except GoError http.Response)
    (req : geocoding.BatchRequest) (data : String)
    (h1 : 1 ≤ req.Queries.length) (h2 : req.Queries.length ≤ 1000)
    (hv : ∀ q ∈ req.Queries, ∀ i, geocoding.validateBatchQuery std q i = none)
    (hp : net.urlParse (base ++ geocoding.batchPath) = none)
    (hm : net.Marshal [("queries", req.Queries)] = .ok data)
    (hn : net.NewRequest "POST" (base ++ geocoding.batchPath) = none) :
    geocoding.Service.Batch std net zero ⟨token, ⟨base, engine⟩⟩ req =
      match engine (expectedPost (base ++ geocoding.batchPath) data) with
      | .error e => .error (.wrapError
          ("batch geocoding failed: " ++ ("failed to execute request: " ++ e.Error))
          (.wrapError ("failed to execute request: " ++ e.Error) e))
      | .ok resp =>
        geocoding.Service.Batch std net zero ⟨token, ⟨base, fun _ => .ok resp⟩⟩ req := by
  simp only [Batch_of_valid std net zero _ req h1 h2 hv, Post_engine _ _ _ _ _ _ _ hp hm hn]
  cases engine (expectedPost (base ++ geocoding.batchPath) data) <;> rfl

/-! ## The claims about the endpoint methods -/

/-- On the transport of the service, without effect, the method `Forward` of package `geocoding` with
the transport as an effect is the method `Forward` of package `geocoding`. -/
theorem traced_geocoding_Forward_eq {β ρ : Type} (std : Strconv) (net : http.Stdlib β ρ)
    (zero : ρ) (s : geocoding.Service) (req : geocoding.ForwardRequest) :
    traced.geocoding.Service.Forward std (traced.Transport.ofClient net s.httpClient)
        zero s req =
      geocoding.Service.Forward std net zero s req := by
  unfold traced.geocoding.Service.Forward geocoding.Service.Forward
  rfl

/-- On the transport of the service, without effect, the method `ForwardStructured` of package `geocoding` with
the transport as an effect is the method `ForwardStructured` of package `geocoding`. -/
theorem traced_geocoding_ForwardStructured_eq {β ρ : Type} (std : Strconv) (net : http.Stdlib β ρ)
    (zero : ρ) (s : geocoding.Service) (req : geocoding.StructuredForwardRequest) :
    traced.geocoding.Service.ForwardStructured std (traced.Transport.ofClient net s.httpClient)
        zero s req =
      geocoding.Service.ForwardStructured std net zero s req := by
  unfold traced.geocoding.Service.ForwardStructured geocoding.Service.ForwardStructured
  rfl

/-- On the transport of the service, without effect, the method `Reverse` of package `geocoding` with
the transport as an effect is the method `Reverse` of package `geocoding`. -/
theorem traced_geocoding_Reverse_eq {β ρ : Type} (std : Strconv) (net : http.Stdlib β ρ)
    (zero : ρ) (s : geocoding.Service) (req : geocoding.ReverseRequest) :
    traced.geocoding.Service.Reverse std (traced.Transport.ofClient net s.httpClient)
        zero s req =
      geocoding.Service.Reverse std net zero s req := by
  unfold traced.geocoding.Service.Reverse geocoding.Service.Reverse
  rfl

/-- On the transport of the service, without effect, the method `Batch` with the transport
as an effect is the method `Batch`. -/
theorem traced_Batch_eq {ρ : Type} (std : Strconv) (net : http.Stdlib geocoding.BatchBody ρ)
    (zero : ρ) (s : geocoding.Service) (req : geocoding.BatchRequest) :
    traced.geocoding.Service.Batch std (traced.Transport.ofClient net s.httpClient) zero s req =
      geocoding.Service.Batch std net zero s req := by
  unfold traced.geocoding.Service.Batch geocoding.Service.Batch
  rfl

/-- On the transport of the service, without effect, the method `Suggest` of package `searchbox` with
the transport as an effect is the method `Suggest` of package `searchbox`. -/
theorem traced_searchbox_Suggest_eq {β ρ : Type} (std : Strconv) (net : http.Stdlib β ρ)
    (zero : ρ) (s : searchbox.Service) (req : searchbox.SuggestRequest) :
    traced.searchbox.Service.Suggest std (traced.Transport.ofClient net s.httpClient)
        zero s req =
      searchbox.Service.Suggest std net zero s req := by
  unfold traced.searchbox.Service.Suggest searchbox.Service.Suggest
  rfl

/-- On the transport of the service, without effect, the method `Retrieve` of package `searchbox` with
the transport as an effect is the method `Retrieve` of package `searchbox`. -/
theorem traced_searchbox_Retrieve_eq {β ρ : Type} (std : Strconv) (net : http.Stdlib β ρ)
    (zero : ρ) (s : searchbox.Service) (req : searchbox.RetrieveRequest) :
    traced.searchbox.Service.Retrieve std (traced.Transport.ofClient net s.httpClient)
        zero s req =
      searchbox.Service.Retrieve std net zero s req := by
  unfold traced.searchbox.Service.Retrieve searchbox.Service.Retrieve
  rfl

/-- On the transport of the service, without effect, the method `Forward` of package `searchbox` with
the transport as an effect is the method `Forward` of package `searchbox`. -/
theorem traced_searchbox_Forward_eq {β ρ : Type} (std : Strconv) (net : http.Stdlib β ρ)
    (zero : ρ) (s : searchbox.Service) (req : searchbox.ForwardRequest) :
    traced.searchbox.Service.Forward std (traced.Transport.ofClient net s.httpClient)
        zero s req =
      searchbox.Service.Forward std net zero s req := by
  unfold traced.searchbox.Service.Forward searchbox.Service.Forward
  rfl

/-- On the transport of the service, without effect, the method `CategorySearch` of package `searchbox` with
the transport as an effect is the method `CategorySearch` of package `searchbox`. -/
theorem traced_searchbox_CategorySearch_eq {β ρ : Type} (std : Strconv) (net : http.Stdlib β ρ)
    (zero : ρ) (s : searchbox.Service) (req : searchbox.CategorySearchRequest) :
    traced.searchbox.Service.CategorySearch std (traced.Transport.ofClient net s.httpClient)
        zero s req =
      searchbox.Service.CategorySearch std net zero s req := by
  unfold traced.searchbox.Service.CategorySearch searchbox.Service.CategorySearch
  rfl

/-- On the transport of the service, without effect, the method `Reverse` of package `searchbox` with
the transport as an effect is the method `Reverse` of package `searchbox`. -/
theorem traced_searchbox_Reverse_eq {β ρ : Type} (std : Strconv) (net : http.Stdlib β ρ)
    (zero : ρ) (s : searchbox.Service) (req : searchbox.ReverseRequest) :
    traced.searchbox.Service.Reverse std (traced.Transport.ofClient net s.httpClient)
        zero s req =
      searchbox.Service.Reverse std net zero s req := by
  unfold traced.searchbox.Service.Reverse searchbox.Service.Reverse
  rfl

/-! ## Validation comes before the transport -/

/-- C25: a request that the validation of its endpoint method rejects never reaches the
transport. The nine methods are written with the transport as an effect: its `Get` and
`Post` are actions of a monad. On a rejected request each method is the action that does
nothing and returns the validation error, in every monad and on every transport:
`Forward`, `ForwardStructured` and `Reverse` of package `geocoding`, `Batch` (a size error,
or the error `validateBatchQuery` gives for one of the queries), and `Suggest`,
`Retrieve`, `Forward`, `CategorySearch` and `Reverse` of package `searchbox`. On the
transport of the service, taken without effect, each of these is the method itself. On a
transport that records its calls, a valid request leaves one call on the record and a
rejected one leaves none. An error result carries no response. -/
theorem validation_short_circuits {m : Type → Type} [Monad m] {β ρ : Type} (std : Strconv)
    (zero : ρ) :
    (∀ (t : traced.Transport m β ρ) (s : geocoding.Service)
        (req : geocoding.ForwardRequest),
      req.Query = "" →
      traced.geocoding.Service.Forward std t zero s req =
        pure (.error (.errorString "query is required"))) ∧
    (∀ (t : traced.Transport m β ρ) (s : geocoding.Service)
        (req : geocoding.StructuredForwardRequest),
      (req.AddressNumber = "" ∧ req.Street = "" ∧ req.Block = "" ∧
        req.Place = "" ∧ req.Region = "" ∧ req.Postcode = "" ∧ req.Country = "") →
      traced.geocoding.Service.ForwardStructured std t zero s req =
        pure (.error (.errorString "at least one address component is required"))) ∧
    (∀ (t : traced.Transport m β ρ) (s : geocoding.Service)
        (req : geocoding.ReverseRequest) (err : GoError),
      geocoding.validateCoordinates std req.Longitude req.Latitude = some err →
      traced.geocoding.Service.Reverse std t zero s req =
        pure (.error err)) ∧
    (∀ req : geocoding.BatchRequest,
      (req.Queries.length = 0 ∨ 1000 < req.Queries.length ∨
        ∃ (i : Nat) (q : geocoding.BatchQuery), req.Queries[i]? = some q ∧
          (geocoding.validateBatchQuery std q i).isSome = true) →
      ∃ err,
        (∀ (t : traced.Transport m geocoding.BatchBody ρ) (s : geocoding.Service),
          traced.geocoding.Service.Batch std t zero s req = pure (.error err)) ∧
        (err = .errorString "at least one query is required" ∨
         err = .errorString
           ("maximum 1000 queries allowed, got " ++ Itoa req.Queries.length) ∨
         ∃ (i : Nat) (q : geocoding.BatchQuery), req.Queries[i]? = some q ∧
           geocoding.validateBatchQuery std q i = some err)) ∧
    (∀ (t : traced.Transport m β ρ) (s : searchbox.Service)
        (req : searchbox.SuggestRequest) (err : GoError),
      searchbox.validateSuggestRequest req = some err →
      traced.searchbox.Service.Suggest std t zero s req =
        pure (.error err)) ∧
    (∀ (t : traced.Transport m β ρ) (s : searchbox.Service)
        (req : searchbox.RetrieveRequest) (err : GoError),
      searchbox.validateRetrieveRequest req = some err →
      traced.searchbox.Service.Retrieve std t zero s req =
        pure (.error err)) ∧
    (∀ (t : traced.Transport m β ρ) (s : searchbox.Service)
        (req : searchbox.ForwardRequest) (err : GoError),
      searchbox.validateForwardRequest req = some err →
      traced.searchbox.Service.Forward std t zero s req =
        pure (.error err)) ∧
    (∀ (t : traced.Transport m β ρ) (s : searchbox.Service)
        (req : searchbox.CategorySearchRequest) (err : GoError),
      searchbox.validateCategorySearchRequest req = some err →
      traced.searchbox.Service.CategorySearch std t zero s req =
        pure (.error err)) ∧
    (∀ (t : traced.Transport m β ρ) (s : searchbox.Service)
        (req : searchbox.ReverseRequest) (err : GoError),
      searchbox.validateReverseRequest req = some err →
      traced.searchbox.Service.Reverse std t zero s req =
        pure (.error err)) ∧
    (∀ (net : http.Stdlib β ρ) (s : geocoding.Service) (req : geocoding.ForwardRequest),
      traced.geocoding.Service.Forward std (traced.Transport.ofClient net s.httpClient)
          zero s req =
        geocoding.Service.Forward std net zero s req) ∧
    (∀ (net : http.Stdlib β ρ) (s : geocoding.Service) (req : geocoding.StructuredForwardRequest),
      traced.geocoding.Service.ForwardStructured std (traced.Transport.ofClient net s.httpClient)
          zero s req =
        geocoding.Service.ForwardStructured std net zero s req) ∧
    (∀ (net : http.Stdlib β ρ) (s : geocoding.Service) (req : geocoding.ReverseRequest),
      traced.geocoding.Service.Reverse std (traced.Transport.ofClient net s.httpClient)
          zero s req =
        geocoding.Service.Reverse std net zero s req) ∧
    (∀ (net : http.Stdlib geocoding.BatchBody ρ) (s : geocoding.Service)
        (req : geocoding.BatchRequest),
      traced.geocoding.Service.Batch std (traced.Transport.ofClient net s.httpClient)
          zero s req =
        geocoding.Service.Batch std net zero s req) ∧
    (∀ (net : http.Stdlib β ρ) (s : searchbox.Service) (req : searchbox.SuggestRequest),
      traced.searchbox.Service.Suggest std (traced.Transport.ofClient net s.httpClient)
          zero s req =
        searchbox.Service.Suggest std net zero s req) ∧
    (∀ (net : http.Stdlib β ρ) (s : searchbox.Service) (req : searchbox.RetrieveRequest),
      traced.searchbox.Service.Retrieve std (traced.Transport.ofClient net s.httpClient)
          zero s req =
        searchbox.Service.Retrieve std net zero s req) ∧
    (∀ (net : http.Stdlib β ρ) (s : searchbox.Service) (req : searchbox.ForwardRequest),
      traced.searchbox.Service.Forward std (traced.Transport.ofClient net s.httpClient)
          zero s req =
        searchbox.Service.Forward std net zero s req) ∧
    (∀ (net : http.Stdlib β ρ) (s : searchbox.Service) (req : searchbox.CategorySearchRequest),
      traced.searchbox.Service.CategorySearch std (traced.Transport.ofClient net s.httpClient)
          zero s req =
        searchbox.Service.CategorySearch std net zero s req) ∧
    (∀ (net : http.Stdlib β ρ) (s : searchbox.Service) (req : searchbox.ReverseRequest),
      traced.searchbox.Service.Reverse std (traced.Transport.ofClient net s.httpClient)
          zero s req =
        searchbox.Service.Reverse std net zero s req) ∧
    (traced.geocoding.Service.Forward goStrconv
        (traced.Transport.recording sampleNet echoService.httpClient) "" echoService
        { Query := "Roma" }).run [] =
      (.ok "GET https://api.mapbox.com/search/geocode/v6/forward limit= body=",
        [("GET", "/search/geocode/v6/forward")]) ∧
    (traced.geocoding.Service.Forward goStrconv
        (traced.Transport.recording sampleNet echoService.httpClient) "" echoService
        {}).run [] =
      (.error (.errorString "query is required"), []) ∧
    (traced.geocoding.Service.Batch goStrconv
        (traced.Transport.recording sampleNet echoService.httpClient) "" echoService
        ⟨[testQuery]⟩).run [] =
      (.ok "POST https://api.mapbox.com/search/geocode/v6/batch limit= body=json",
        [("POST", "/search/geocode/v6/batch")]) ∧
    (traced.geocoding.Service.Batch goStrconv
        (traced.Transport.recording sampleNet echoService.httpClient) "" echoService
        ⟨[testQuery, badPairQuery]⟩).run [] =
      (.error (.wrapError
        "query at index 1: longitude must be between -180 and 180, got 200.000000"
        (.errorString "longitude must be between -180 and 180, got 200.000000")), []) := by
  refine ⟨?_, ?_, ?_, ?_, ?_, ?_, ?_, ?_, ?_, ?_, ?_, ?_, ?_, ?_, ?_, ?_, ?_, ?_, ?_, ?_, ?_, ?_⟩
  · intro t s req h
    unfold traced.geocoding.Service.Forward
    simp only [h, if_true]
  · intro t s req h
    unfold traced.geocoding.Service.ForwardStructured
    simp only [h, and_self, if_true]
  · intro t s req err h
    unfold traced.geocoding.Service.Reverse
    simp only [h]
  · intro req h
    have hmsg : "maximum " ++ Itoa geocoding.maxBatchQueries ++ " queries allowed, got " =
        "maximum 1000 queries allowed, got " := by decide
    by_cases h0 : req.Queries.length = 0
    · refine ⟨_, fun t s => ?_, Or.inl rfl⟩
      unfold traced.geocoding.Service.Batch
      simp only [h0, if_true]
    by_cases hbig : 1000 < req.Queries.length
    · have h3 : (req.Queries.length : Int) > geocoding.maxBatchQueries := by
        simp only [geocoding.maxBatchQueries]; omega
      refine ⟨_, fun t s => ?_, Or.inr (Or.inl rfl)⟩
      unfold traced.geocoding.Service.Batch
      simp only [h0, h3, if_false, if_true, hmsg]
    rcases h with h | h | ⟨i, q, hq, hsome⟩
    · exact absurd h h0
    · exact absurd h hbig
    have hex : (req.Queries.enum.findSome?
        (fun iq => geocoding.validateBatchQuery std iq.2 iq.1)).isSome = true := by
      rw [List.findSome?_isSome_iff]
      exact ⟨(i, q), List.mk_mem_enum_iff_getElem?.2 hq, hsome⟩
    obtain ⟨err, herr⟩ := Option.isSome_iff_exists.1 hex
    obtain ⟨iq, hmem, hiq⟩ := List.exists_of_findSome?_eq_some herr
    have h3 : ¬ ((req.Queries.length : Int) > geocoding.maxBatchQueries) := by
      simp only [geocoding.maxBatchQueries]; omega
    refine ⟨err, fun t s => ?_, Or.inr (Or.inr ⟨iq.1, iq.2, ?_, hiq⟩)⟩
    · unfold traced.geocoding.Service.Batch
      simp only [h0, h3, herr, if_false]
    · exact List.mem_enum_iff_getElem?.1 hmem
  · intro t s req err h
    unfold traced.searchbox.Service.Suggest
    simp only [h]
  · intro t s req err h
    unfold traced.searchbox.Service.Retrieve
    simp only [h]
  · intro t s req err h
    unfold traced.searchbox.Service.Forward
    simp only [h]
  · intro t s req err h
    unfold traced.searchbox.Service.CategorySearch
    simp only [h]
  · intro t s req err h
    unfold traced.searchbox.Service.Reverse
    simp only [h]
  · exact fun net s req => traced_geocoding_Forward_eq std net zero s req
  · exact fun net s req => traced_geocoding_ForwardStructured_eq std net zero s req
  · exact fun net s req => traced_geocoding_Reverse_eq std net zero s req
  · exact fun net s req => traced_Batch_eq std net zero s req
  · exact fun net s req => traced_searchbox_Suggest_eq std net zero s req
  · exact fun net s req => traced_searchbox_Retrieve_eq std net zero s req
  · exact fun net s req => traced_searchbox_Forward_eq std net zero s req
  · exact fun net s req => traced_searchbox_CategorySearch_eq std net zero s req
  · exact fun net s req => traced_searchbox_Reverse_eq std net zero s req
  · rfl
  · rfl
  · rfl
  · rfl

/-- C25 (witness): one rejected request for each of the nine methods, on a transport that
records its calls: the method is the action that leaves the record as it is. -/
theorem validation_short_circuits_witness :
    traced.geocoding.Service.Forward goStrconv
        (traced.Transport.recording sampleNet sampleService.httpClient) "" sampleService
        {} =
      pure (.error (.errorString "query is required")) ∧
    traced.geocoding.Service.ForwardStructured goStrconv
        (traced.Transport.recording sampleNet sampleService.httpClient) "" sampleService
        {} =
      pure (.error (.errorString "at least one address component is required")) ∧
    traced.geocoding.Service.Reverse goStrconv
        (traced.Transport.recording sampleNet sampleService.httpClient) "" sampleService
        { Longitude := ofInt 200 } =
      pure (.error (.errorString "longitude must be between -180 and 180, got 200.000000")) ∧
    (∃ err,
      (∀ (t : traced.Transport (StateM (List (String × String))) geocoding.BatchBody String)
          (s : geocoding.Service),
        traced.geocoding.Service.Batch goStrconv t "" s ⟨[badPairQuery]⟩ =
          pure (.error err)) ∧
      (err = .errorString "at least one query is required" ∨
       err = .errorString ("maximum 1000 queries allowed, got " ++
         Itoa (⟨[badPairQuery]⟩ : geocoding.BatchRequest).Queries.length) ∨
       ∃ (i : Nat) (q : geocoding.BatchQuery),
         (⟨[badPairQuery]⟩ : geocoding.BatchRequest).Queries[i]? = some q ∧
         geocoding.validateBatchQuery goStrconv q i = some err)) ∧
    traced.searchbox.Service.Suggest goStrconv
        (traced.Transport.recording sampleNet sampleSearchService.httpClient) "" sampleSearchService
        {} =
      pure (.error (.errorString "query is required")) ∧
    traced.searchbox.Service.Retrieve goStrconv
        (traced.Transport.recording sampleNet sampleSearchService.httpClient) "" sampleSearchService
        {} =
      pure (.error (.errorString "mapbox_id is required")) ∧
    traced.searchbox.Service.Forward goStrconv
        (traced.Transport.recording sampleNet sampleSearchService.httpClient) "" sampleSearchService
        {} =
      pure (.error (.errorString "query is required")) ∧
    traced.searchbox.Service.CategorySearch goStrconv
        (traced.Transport.recording sampleNet sampleSearchService.httpClient) "" sampleSearchService
        {} =
      pure (.error (.errorString "category_id is required")) ∧
    traced.searchbox.Service.Reverse goStrconv
        (traced.Transport.recording sampleNet sampleSearchService.httpClient) "" sampleSearchService
        { Longitude := ofInt 200 } =
      pure (.error (.errorString "longitude must be between -180 and 180")) :=
  ⟨(validation_short_circuits goStrconv "").1
     (traced.Transport.recording sampleNet sampleService.httpClient) sampleService
     {} rfl,
   (validation_short_circuits goStrconv "").2.1
     (traced.Transport.recording sampleNet sampleService.httpClient) sampleService
     {} (by decide),
   (validation_short_circuits goStrconv "").2.2.1
     (traced.Transport.recording sampleNet sampleService.httpClient) sampleService
     { Longitude := ofInt 200 } _ (by decide),
   (validation_short_circuits (m := StateM (List (String × String)))
      (β := geocoding.BatchBody) goStrconv "").2.2.2.1 ⟨[badPairQuery]⟩
     (Or.inr (Or.inr ⟨0, badPairQuery, rfl, by decide⟩)),
   (validation_short_circuits goStrconv "").2.2.2.2.1
     (traced.Transport.recording sampleNet sampleSearchService.httpClient) sampleSearchService
     {} _ (by decide),
   (validation_short_circuits goStrconv "").2.2.2.2.2.1
     (traced.Transport.recording sampleNet sampleSearchService.httpClient) sampleSearchService
     {} _ (by decide),
   (validation_short_circuits goStrconv "").2.2.2.2.2.2.1
     (traced.Transport.recording sampleNet sampleSearchService.httpClient) sampleSearchService
     {} _ (by decide),
   (validation_short_circuits goStrconv "").2.2.2.2.2.2.2.1
     (traced.Transport.recording sampleNet sampleSearchService.httpClient) sampleSearchService
     {} _ (by decide),
   (validation_short_circuits goStrconv "").2.2.2.2.2.2.2.2.1
     (traced.Transport.recording sampleNet sampleSearchService.httpClient) sampleSearchService
     { Longitude := ofInt 200 } _ (by decide)⟩

/-- C26: for each of the ten endpoint methods and each request that passes its validation:
when the transport call (`Get`, for `Batch` the `Post`) returns an error `e`, the method
returns the error that wraps `e` under the message of the endpoint followed by the text
of `e`, and no response; when the transport call returns no error, the method returns the
target the transport decoded into, and no error. Unwrapping such an error gives `e`, and
`errors.Is` finds `e` in it. -/
theorem endpoint_error_wrapping {β ρ : Type} (std : Strconv) (zero : ρ) :
    (∀ (net : http.Stdlib β ρ) (s : geocoding.Service) (req : geocoding.ForwardRequest),
      req.Query ≠ "" →
      (∀ e t, s.httpClient.Get net geocoding.forwardPath
          (some (geocoding.Service.buildForwardQuery std s req)) (some zero) = (some e, t) →
        geocoding.Service.Forward std net zero s req =
          .error (.wrapError ("forward geocoding failed: " ++ e.Error) e)) ∧
      (∀ t, s.httpClient.Get net geocoding.forwardPath
          (some (geocoding.Service.buildForwardQuery std s req)) (some zero) = (none, t) →
        ∃ r, t = some r ∧ geocoding.Service.Forward std net zero s req = .ok r)) ∧
    (∀ (net : http.Stdlib β ρ) (s : geocoding.Service) (req : geocoding.StructuredForwardRequest),
      ¬ (req.AddressNumber = "" ∧ req.Street = "" ∧ req.Block = "" ∧
        req.Place = "" ∧ req.Region = "" ∧ req.Postcode = "" ∧ req.Country = "") →
      (∀ e t, s.httpClient.Get net geocoding.forwardPath
          (some (geocoding.Service.buildStructuredForwardQuery std s req)) (some zero) = (some e, t) →
        geocoding.Service.ForwardStructured std net zero s req =
          .error (.wrapError ("structured forward geocoding failed: " ++ e.Error) e)) ∧
      (∀ t, s.httpClient.Get net geocoding.forwardPath
          (some (geocoding.Service.buildStructuredForwardQuery std s req)) (some zero) = (none, t) →
        ∃ r, t = some r ∧ geocoding.Service.ForwardStructured std net zero s req = .ok r)) ∧
    (∀ (net : http.Stdlib β ρ) (s : geocoding.Service) (req : geocoding.ReverseRequest),
      geocoding.validateCoordinates std req.Longitude req.Latitude = none →
      (∀ e t, s.httpClient.Get net geocoding.reversePath
          (some (geocoding.Service.buildReverseQuery std s req)) (some zero) = (some e, t) →
        geocoding.Service.Reverse std net zero s req =
          .error (.wrapError ("reverse geocoding failed: " ++ e.Error) e)) ∧
      (∀ t, s.httpClient.Get net geocoding.reversePath
          (some (geocoding.Service.buildReverseQuery std s req)) (some zero) = (none, t) →
        ∃ r, t = some r ∧ geocoding.Service.Reverse std net zero s req = .ok r)) ∧
    (∀ (net : http.Stdlib geocoding.BatchBody ρ) (s : geocoding.Service)
        (req : geocoding.BatchRequest),
      1 ≤ req.Queries.length → req.Queries.length ≤ 1000 →
      (∀ q ∈ req.Queries, ∀ i, geocoding.validateBatchQuery std q i = none) →
      (∀ e t, s.httpClient.Post net geocoding.batchPath
          (some [("queries", req.Queries)]) (some zero) = (some e, t) →
        geocoding.Service.Batch std net zero s req =
          .error (.wrapError ("batch geocoding failed: " ++ e.Error) e)) ∧
      (∀ t, s.httpClient.Post net geocoding.batchPath
          (some [("queries", req.Queries)]) (some zero) = (none, t) →
        ∃ r, t = some r ∧ geocoding.Service.Batch std net zero s req = .ok r)) ∧
    (∀ (net : http.Stdlib β ρ) (s : searchbox.Service) (req : searchbox.SuggestRequest),
      searchbox.validateSuggestRequest req = none →
      (∀ e t, s.httpClient.Get net searchbox.suggestPath
          (some (searchbox.Service.buildSuggestQuery std s req)) (some zero) = (some e, t) →
        searchbox.Service.Suggest std net zero s req =
          .error (.wrapError ("suggest search failed: " ++ e.Error) e)) ∧
      (∀ t, s.httpClient.Get net searchbox.suggestPath
          (some (searchbox.Service.buildSuggestQuery std s req)) (some zero) = (none, t) →
        ∃ r, t = some r ∧ searchbox.Service.Suggest std net zero s req = .ok r)) ∧
    (∀ (net : http.Stdlib β ρ) (s : searchbox.Service) (req : searchbox.RetrieveRequest),
      searchbox.validateRetrieveRequest req = none →
      (∀ e t, s.httpClient.Get net (searchbox.retrievePath ++ "/" ++ req.MapboxID)
          (some (searchbox.Service.buildRetrieveQuery std s req)) (some zero) = (some e, t) →
        searchbox.Service.Retrieve std net zero s req =
          .error (.wrapError ("retrieve feature failed: " ++ e.Error) e)) ∧
      (∀ t, s.httpClient.Get net (searchbox.retrievePath ++ "/" ++ req.MapboxID)
          (some (searchbox.Service.buildRetrieveQuery std s req)) (some zero) = (none, t) →
        ∃ r, t = some r ∧ searchbox.Service.Retrieve std net zero s req = .ok r)) ∧
    (∀ (net : http.Stdlib β ρ) (s : searchbox.Service) (req : searchbox.ForwardRequest),
      searchbox.validateForwardRequest req = none →
      (∀ e t, s.httpClient.Get net searchbox.forwardPath
          (some (searchbox.Service.buildForwardQuery std s req)) (some zero) = (some e, t) →
        searchbox.Service.Forward std net zero s req =
          .error (.wrapError ("forward search failed: " ++ e.Error) e)) ∧
      (∀ t, s.httpClient.Get net searchbox.forwardPath
          (some (searchbox.Service.buildForwardQuery std s req)) (some zero) = (none, t) →
        ∃ r, t = some r ∧ searchbox.Service.Forward std net zero s req = .ok r)) ∧
    (∀ (net : http.Stdlib β ρ) (s : searchbox.Service) (req : searchbox.CategorySearchRequest),
      searchbox.validateCategorySearchRequest req = none →
      (∀ e t, s.httpClient.Get net (searchbox.categorySearchPath ++ "/" ++ req.CategoryID)
          (some (searchbox.Service.buildCategorySearchQuery std s req)) (some zero) = (some e, t) →
        searchbox.Service.CategorySearch std net zero s req =
          .error (.wrapError ("category search failed: " ++ e.Error) e)) ∧
      (∀ t, s.httpClient.Get net (searchbox.categorySearchPath ++ "/" ++ req.CategoryID)
          (some (searchbox.Service.buildCategorySearchQuery std s req)) (some zero) = (none, t) →
        ∃ r, t = some r ∧ searchbox.Service.CategorySearch std net zero s req = .ok r)) ∧
    (∀ (net : http.Stdlib β ρ) (s : searchbox.Service) (req : searchbox.ListCategoriesRequest),
      (∀ e t, s.httpClient.Get net searchbox.listCategoriesPath
          (some (searchbox.Service.buildListCategoriesQuery s req)) (some zero) = (some e, t) →
        searchbox.Service.ListCategories net zero s req =
          .error (.wrapError ("list categories failed: " ++ e.Error) e)) ∧
      (∀ t, s.httpClient.Get net searchbox.listCategoriesPath
          (some (searchbox.Service.buildListCategoriesQuery s req)) (some zero) = (none, t) →
        ∃ r, t = some r ∧ searchbox.Service.ListCategories net zero s req = .ok r)) ∧
    (∀ (net : http.Stdlib β ρ) (s : searchbox.Service) (req : searchbox.ReverseRequest),
      searchbox.validateReverseRequest req = none →
      (∀ e t, s.httpClient.Get net searchbox.reversePath
          (some (searchbox.Service.buildReverseQuery std s req)) (some zero) = (some e, t) →
        searchbox.Service.Reverse std net zero s req =
          .error (.wrapError ("reverse geocoding failed: " ++ e.Error) e)) ∧
      (∀ t, s.httpClient.Get net searchbox.reversePath
          (some (searchbox.Service.buildReverseQuery std s req)) (some zero) = (none, t) →
        ∃ r, t = some r ∧ searchbox.Service.Reverse std net zero s req = .ok r)) ∧
    (∀ (msg : String) (e : GoError), (GoError.wrapError msg e).Unwrap = some e ∧
      (GoError.wrapError msg e).Error = msg ∧ errors.Is (GoError.wrapError msg e) e = true) := by
  refine ⟨?_, ?_, ?_, ?_, ?_, ?_, ?_, ?_, ?_, ?_, ?_⟩
  · intro net s req h
    rw [geocoding_Forward_of_valid std net zero s req h]
    exact endpoint_outcome _ _ _ (Get_target _ _ _ _ _)
  · intro net s req h
    rw [geocoding_ForwardStructured_of_valid std net zero s req h]
    exact endpoint_outcome _ _ _ (Get_target _ _ _ _ _)
  · intro net s req h
    rw [geocoding_Reverse_of_valid std net zero s req h]
    exact endpoint_outcome _ _ _ (Get_target _ _ _ _ _)
  · intro net s req h1 h2 hv
    rw [Batch_of_valid std net zero s req h1 h2 hv]
    exact endpoint_outcome _ _ _ (Post_target _ _ _ _ _)
  · intro net s req h
    rw [searchbox_Suggest_of_valid std net zero s req h]
    exact endpoint_outcome _ _ _ (Get_target _ _ _ _ _)
  · intro net s req h
    rw [searchbox_Retrieve_of_valid std net zero s req h]
    exact endpoint_outcome _ _ _ (Get_target _ _ _ _ _)
  · intro net s req h
    rw [searchbox_Forward_of_valid std net zero s req h]
    exact endpoint_outcome _ _ _ (Get_target _ _ _ _ _)
  · intro net s req h
    rw [searchbox_CategorySearch_of_valid std net zero s req h]
    exact endpoint_outcome _ _ _ (Get_target _ _ _ _ _)
  · intro net s req
    rw [searchbox_ListCategories_of_valid net zero s req]
    exact endpoint_outcome _ _ _ (Get_target _ _ _ _ _)
  · intro net s req h
    rw [searchbox_Reverse_of_valid std net zero s req h]
    exact endpoint_outcome _ _ _ (Get_target _ _ _ _ _)
  · exact fun msg e => ⟨rfl, rfl, errors_Is_wrapError msg e⟩

/-- C26 (witness): each of the ten methods on an engine that refuses the connection, and
`Batch` on an engine that answers. -/
theorem endpoint_error_wrapping_witness :
    geocoding.Service.Forward goStrconv sampleNet ""
        refusedService { Query := "Roma" } =
      .error (.wrapError ("forward geocoding failed: " ++
          (GoError.wrapError "failed to execute request: connection refused"
            (.errorString "connection refused")).Error)
        (.wrapError "failed to execute request: connection refused"
          (.errorString "connection refused"))) ∧
    geocoding.Service.ForwardStructured goStrconv sampleNet ""
        refusedService { Street := "Via Roma" } =
      .error (.wrapError ("structured forward geocoding failed: " ++
          (GoError.wrapError "failed to execute request: connection refused"
            (.errorString "connection refused")).Error)
        (.wrapError "failed to execute request: connection refused"
          (.errorString "connection refused"))) ∧
    geocoding.Service.Reverse goStrconv sampleNet ""
        refusedService { Longitude := fNeg122_4, Latitude := f37_8 } =
      .error (.wrapError ("reverse geocoding failed: " ++
          (GoError.wrapError "failed to execute request: connection refused"
            (.errorString "connection refused")).Error)
        (.wrapError "failed to execute request: connection refused"
          (.errorString "connection refused"))) ∧
    geocoding.Service.Batch goStrconv sampleNet ""
        refusedService ⟨[testQuery]⟩ =
      .error (.wrapError ("batch geocoding failed: " ++
          (GoError.wrapError "failed to execute request: connection refused"
            (.errorString "connection refused")).Error)
        (.wrapError "failed to execute request: connection refused"
          (.errorString "connection refused"))) ∧
    (∃ r, some "POST https://api.mapbox.com/search/geocode/v6/batch limit= body=json" =
        some r ∧
      geocoding.Service.Batch goStrconv sampleNet "" echoService ⟨[testQuery]⟩ = .ok r) ∧
    searchbox.Service.Suggest goStrconv sampleNet ""
        refusedSearchService { Query := "coffee", SessionToken := "s" } =
      .error (.wrapError ("suggest search failed: " ++
          (GoError.wrapError "failed to execute request: connection refused"
            (.errorString "connection refused")).Error)
        (.wrapError "failed to execute request: connection refused"
          (.errorString "connection refused"))) ∧
    searchbox.Service.Retrieve goStrconv sampleNet ""
        refusedSearchService { MapboxID := "abc", SessionToken := "s" } =
      .error (.wrapError ("retrieve feature failed: " ++
          (GoError.wrapError "failed to execute request: connection refused"
            (.errorString "connection refused")).Error)
        (.wrapError "failed to execute request: connection refused"
          (.errorString "connection refused"))) ∧
    searchbox.Service.Forward goStrconv sampleNet ""
        refusedSearchService { Query := "coffee" } =
      .error (.wrapError ("forward search failed: " ++
          (GoError.wrapError "failed to execute request: connection refused"
            (.errorString "connection refused")).Error)
        (.wrapError "failed to execute request: connection refused"
          (.errorString "connection refused"))) ∧
    searchbox.Service.CategorySearch goStrconv sampleNet ""
        refusedSearchService { CategoryID := "cafe", ProximityIP := true } =
      .error (.wrapError ("category search failed: " ++
          (GoError.wrapError "failed to execute request: connection refused"
            (.errorString "connection refused")).Error)
        (.wrapError "failed to execute request: connection refused"
          (.errorString "connection refused"))) ∧
    searchbox.Service.ListCategories sampleNet ""
        refusedSearchService {} =
      .error (.wrapError ("list categories failed: " ++
          (GoError.wrapError "failed to execute request: connection refused"
            (.errorString "connection refused")).Error)
        (.wrapError "failed to execute request: connection refused"
          (.errorString "connection refused"))) ∧
    searchbox.Service.Reverse goStrconv sampleNet ""
        refusedSearchService { Longitude := fNeg122_4, Latitude := f37_8 } =
      .error (.wrapError ("reverse geocoding failed: " ++
          (GoError.wrapError "failed to execute request: connection refused"
            (.errorString "connection refused")).Error)
        (.wrapError "failed to execute request: connection refused"
          (.errorString "connection refused"))) :=
  ⟨((endpoint_error_wrapping goStrconv "").1 sampleNet
      refusedService { Query := "Roma" } (by decide)).1 _ _ rfl,
   ((endpoint_error_wrapping goStrconv "").2.1 sampleNet
      refusedService { Street := "Via Roma" } (by decide)).1 _ _ rfl,
   ((endpoint_error_wrapping goStrconv "").2.2.1 sampleNet
      refusedService { Longitude := fNeg122_4, Latitude := f37_8 } (by decide)).1 _ _ rfl,
   ((endpoint_error_wrapping (β := geocoding.BatchBody) goStrconv "").2.2.2.1 sampleNet
      refusedService ⟨[testQuery]⟩
      (by decide) (by decide) (by intro q hq i; rw [List.mem_singleton.1 hq]; rfl)).1 _ _ rfl,
   ((endpoint_error_wrapping (β := geocoding.BatchBody) goStrconv "").2.2.2.1 sampleNet
      echoService ⟨[testQuery]⟩
      (by decide) (by decide) (by intro q hq i; rw [List.mem_singleton.1 hq]; rfl)).2 _ rfl,
   ((endpoint_error_wrapping goStrconv "").2.2.2.2.1 sampleNet
      refusedSearchService { Query := "coffee", SessionToken := "s" } (by decide)).1 _ _ rfl,
   ((endpoint_error_wrapping goStrconv "").2.2.2.2.2.1 sampleNet
      refusedSearchService { MapboxID := "abc", SessionToken := "s" } (by decide)).1 _ _ rfl,
   ((endpoint_error_wrapping goStrconv "").2.2.2.2.2.2.1 sampleNet
      refusedSearchService { Query := "coffee" } (by decide)).1 _ _ rfl,
   ((endpoint_error_wrapping goStrconv "").2.2.2.2.2.2.2.1 sampleNet
      refusedSearchService { CategoryID := "cafe", ProximityIP := true } (by decide)).1 _ _ rfl,
   ((endpoint_error_wrapping goStrconv "").2.2.2.2.2.2.2.2.1 sampleNet
      refusedSearchService {}).1 _ _ rfl,
   ((endpoint_error_wrapping goStrconv "").2.2.2.2.2.2.2.2.2.1 sampleNet
      refusedSearchService { Longitude := fNeg122_4, Latitude := f37_8 } (by decide)).1 _ _ rfl⟩

/-- C27: what each endpoint method asks the engine, on a request that passes validation
when the URL parses and the request can be created. Each of the nine methods other than
`Batch` asks one GET: method GET, the base URL followed by the path of the endpoint, the
query of the endpoint's builder as query, and no body (`Retrieve` and `CategorySearch`
end the path with the feature id and the category id). `Batch` asks one POST to the batch
path, without query, whose body is the JSON text of the object with the single key
`queries` holding the queries of the request as they are. In each case the outcome of the
method is set by the engine's answer to that one request. -/
theorem endpoints_dispatch {β ρ : Type} (std : Strconv) (zero : ρ) :
    (∀ (net : http.Stdlib β ρ) (token base : String)
        (engine : http.Request → Except GoError http.Response) (req : geocoding.ForwardRequest),
      req.Query ≠ "" →
      net.urlParse (base ++ geocoding.forwardPath) = none →
      net.NewRequest "GET" (base ++ geocoding.forwardPath) = none →
      geocoding.Service.Forward std net zero ⟨token, ⟨base, engine⟩⟩ req =
        match engine (expectedGet (base ++ geocoding.forwardPath)
            (geocoding.Service.buildForwardQuery std ⟨token, ⟨base, engine⟩⟩ req)) with
        | .error e => .error (.wrapError
            ("forward geocoding failed: " ++ ("failed to execute request: " ++ e.Error))
            (.wrapError ("failed to execute request: " ++ e.Error) e))
        | .ok resp =>
          geocoding.Service.Forward std net zero ⟨token, ⟨base, fun _ => .ok resp⟩⟩ req) ∧
    (∀ (net : http.Stdlib β ρ) (token base : String)
        (engine : http.Request → Except GoError http.Response) (req : geocoding.StructuredForwardRequest),
      ¬ (req.AddressNumber = "" ∧ req.Street = "" ∧ req.Block = "" ∧
        req.Place = "" ∧ req.Region = "" ∧ req.Postcode = "" ∧ req.Country = "") →
      net.urlParse (base ++ geocoding.forwardPath) = none →
      net.NewRequest "GET" (base ++ geocoding.forwardPath) = none →
      geocoding.Service.ForwardStructured std net zero ⟨token, ⟨base, engine⟩⟩ req =
        match engine (expectedGet (base ++ geocoding.forwardPath)
            (geocoding.Service.buildStructuredForwardQuery std ⟨token, ⟨base, engine⟩⟩ req)) with
        | .error e => .error (.wrapError
            ("structured forward geocoding failed: " ++ ("failed to execute request: " ++ e.Error))
            (.wrapError ("failed to execute request: " ++ e.Error) e))
        | .ok resp =>
          geocoding.Service.ForwardStructured std net zero ⟨token, ⟨base, fun _ => .ok resp⟩⟩ req) ∧
    (∀ (net : http.Stdlib β ρ) (token base : String)
        (engine : http.Request → Except GoError http.Response) (req : geocoding.ReverseRequest),
      geocoding.validateCoordinates std req.Longitude req.Latitude = none →
      net.urlParse (base ++ geocoding.reversePath) = none →
      net.NewRequest "GET" (base ++ geocoding.reversePath) = none →
      geocoding.Service.Reverse std net zero ⟨token, ⟨base, engine⟩⟩ req =
        match engine (expectedGet (base ++ geocoding.reversePath)
            (geocoding.Service.buildReverseQuery std ⟨token, ⟨base, engine⟩⟩ req)) with
        | .error e => .error (.wrapError
            ("reverse geocoding failed: " ++ ("failed to execute request: " ++ e.Error))
            (.wrapError ("failed to execute request: " ++ e.Error) e))
        | .ok resp =>
          geocoding.Service.Reverse std net zero ⟨token, ⟨base, fun _ => .ok resp⟩⟩ req) ∧
    (∀ (net : http.Stdlib geocoding.BatchBody ρ) (token base : String)
        (engine : http.Request → Except GoError http.Response) (req : geocoding.BatchRequest)
        (data : String),
      1 ≤ req.Queries.length → req.Queries.length ≤ 1000 →
      (∀ q ∈ req.Queries, ∀ i, geocoding.validateBatchQuery std q i = none) →
      net.urlParse (base ++ geocoding.batchPath) = none →
      net.Marshal [("queries", req.Queries)] = .ok data →
      net.NewRequest "POST" (base ++ geocoding.batchPath) = none →
      geocoding.Service.Batch std net zero ⟨token, ⟨base, engine⟩⟩ req =
        match engine (expectedPost (base ++ geocoding.batchPath) data) with
        | .error e => .error (.wrapError
            ("batch geocoding failed: " ++ ("failed to execute request: " ++ e.Error))
            (.wrapError ("failed to execute request: " ++ e.Error) e))
        | .ok resp =>
          geocoding.Service.Batch std net zero ⟨token, ⟨base, fun _ => .ok resp⟩⟩ req) ∧
    (∀ (net : http.Stdlib β ρ) (token base : String)
        (engine : http.Request → Except GoError http.Response) (req : searchbox.SuggestRequest),
      searchbox.validateSuggestRequest req = none →
      net.urlParse (base ++ searchbox.suggestPath) = none →
      net.NewRequest "GET" (base ++ searchbox.suggestPath) = none →
      searchbox.Service.Suggest std net zero ⟨token, ⟨base, engine⟩⟩ req =
        match engine (expectedGet (base ++ searchbox.suggestPath)
            (searchbox.Service.buildSuggestQuery std ⟨token, ⟨base, engine⟩⟩ req)) with
        | .error e => .error (.wrapError
            ("suggest search failed: " ++ ("failed to execute request: " ++ e.Error))
            (.wrapError ("failed to execute request: " ++ e.Error) e))
        | .ok resp =>
          searchbox.Service.Suggest std net zero ⟨token, ⟨base, fun _ => .ok resp⟩⟩ req) ∧
    (∀ (net : http.Stdlib β ρ) (token base : String)
        (engine : http.Request → Except GoError http.Response) (req : searchbox.RetrieveRequest),
      searchbox.validateRetrieveRequest req = none →
      net.urlParse (base ++ (searchbox.retrievePath ++ "/" ++ req.MapboxID)) = none →
      net.NewRequest "GET" (base ++ (searchbox.retrievePath ++ "/" ++ req.MapboxID)) = none →
      searchbox.Service.Retrieve std net zero ⟨token, ⟨base, engine⟩⟩ req =
        match engine (expectedGet (base ++ (searchbox.retrievePath ++ "/" ++ req.MapboxID))
            (searchbox.Service.buildRetrieveQuery std ⟨token, ⟨base, engine⟩⟩ req)) with
        | .error e => .error (.wrapError
            ("retrieve feature failed: " ++ ("failed to execute request: " ++ e.Error))
            (.wrapError ("failed to execute request: " ++ e.Error) e))
        | .ok resp =>
          searchbox.Service.Retrieve std net zero ⟨token, ⟨base, fun _ => .ok resp⟩⟩ req) ∧
    (∀ (net : http.Stdlib β ρ) (token base : String)
        (engine : http.Request → Except GoError http.Response) (req : searchbox.ForwardRequest),
      searchbox.validateForwardRequest req = none →
      net.urlParse (base ++ searchbox.forwardPath) = none →
      net.NewRequest "GET" (base ++ searchbox.forwardPath) = none →
      searchbox.Service.Forward std net zero ⟨token, ⟨base, engine⟩⟩ req =
        match engine (expectedGet (base ++ searchbox.forwardPath)
            (searchbox.Service.buildForwardQuery std ⟨token, ⟨base, engine⟩⟩ req)) with
        | .error e => .error (.wrapError
            ("forward search failed: " ++ ("failed to execute request: " ++ e.Error))
            (.wrapError ("failed to execute request: " ++ e.Error) e))
        | .ok resp =>
          searchbox.Service.Forward std net zero ⟨token, ⟨base, fun _ => .ok resp⟩⟩ req) ∧
    (∀ (net : http.Stdlib β ρ) (token base : String)
        (engine : http.Request → Except GoError http.Response) (req : searchbox.CategorySearchRequest),
      searchbox.validateCategorySearchRequest req = none →
      net.urlParse (base ++ (searchbox.categorySearchPath ++ "/" ++ req.CategoryID)) = none →
      net.NewRequest "GET" (base ++ (searchbox.categorySearchPath ++ "/" ++ req.CategoryID)) = none →
      searchbox.Service.CategorySearch std net zero ⟨token, ⟨base, engine⟩⟩ req =
        match engine (expectedGet (base ++ (searchbox.categorySearchPath ++ "/" ++ req.CategoryID))
            (searchbox.Service.buildCategorySearchQuery std ⟨token, ⟨base, engine⟩⟩ req)) with
        | .error e => .error (.wrapError
            ("category search failed: " ++ ("failed to execute request: " ++ e.Error))
            (.wrapError ("failed to execute request: " ++ e.Error) e))
        | .ok resp =>
          searchbox.Service.CategorySearch std net zero ⟨token, ⟨base, fun _ => .ok resp⟩⟩ req) ∧
    (∀ (net : http.Stdlib β ρ) (token base : String)
        (engine : http.Request → Except GoError http.Response) (req : searchbox.ListCategoriesRequest),
      net.urlParse (base ++ searchbox.listCategoriesPath) = none →
      net.NewRequest "GET" (base ++ searchbox.listCategoriesPath) = none →
      searchbox.Service.ListCategories net zero ⟨token, ⟨base, engine⟩⟩ req =
        match engine (expectedGet (base ++ searchbox.listCategoriesPath)
            (searchbox.Service.buildListCategoriesQuery ⟨token, ⟨base, engine⟩⟩ req)) with
        | .error e => .error (.wrapError
            ("list categories failed: " ++ ("failed to execute request: " ++ e.Error))
            (.wrapError ("failed to execute request: " ++ e.Error) e))
        | .ok resp =>
          searchbox.Service.ListCategories net zero ⟨token, ⟨base, fun _ => .ok resp⟩⟩ req) ∧
    (∀ (net : http.Stdlib β ρ) (token base : String)
        (engine : http.Request → Except GoError http.Response) (req : searchbox.ReverseRequest),
      searchbox.validateReverseRequest req = none →
      net.urlParse (base ++ searchbox.reversePath) = none →
      net.NewRequest "GET" (base ++ searchbox.reversePath) = none →
      searchbox.Service.Reverse std net zero ⟨token, ⟨base, engine⟩⟩ req =
        match engine (expectedGet (base ++ searchbox.reversePath)
            (searchbox.Service.buildReverseQuery std ⟨token, ⟨base, engine⟩⟩ req)) with
        | .error e => .error (.wrapError
            ("reverse geocoding failed: " ++ ("failed to execute request: " ++ e.Error))
            (.wrapError ("failed to execute request: " ++ e.Error) e))
        | .ok resp =>
          searchbox.Service.Reverse std net zero ⟨token, ⟨base, fun _ => .ok resp⟩⟩ req) ∧
    (∀ (url : String) (query : Values), (expectedGet url query).Method = "GET" ∧
      (expectedGet url query).URL = url ∧ (expectedGet url query).Query = some query ∧
      (expectedGet url query).Body = none) ∧
    (∀ (url data : String), (expectedPost url data).Method = "POST" ∧
      (expectedPost url data).URL = url ∧ (expectedPost url data).Body = some data) ∧
    geocoding.batchPath = "/search/geocode/v6/batch" := by
  refine ⟨?_, ?_, ?_, ?_, ?_, ?_, ?_, ?_, ?_, ?_, ?_, ?_, ?_⟩
  · exact fun net token base engine req => geocoding_Forward_dispatch std net zero token base engine req
  · exact fun net token base engine req => geocoding_ForwardStructured_dispatch std net zero token base engine req
  · exact fun net token base engine req => geocoding_Reverse_dispatch std net zero token base engine req
  · exact fun net token base engine req data => Batch_dispatch std net zero token base engine req data
  · exact fun net token base engine req => searchbox_Suggest_dispatch std net zero token base engine req
  · exact fun net token base engine req => searchbox_Retrieve_dispatch std net zero token base engine req
  · exact fun net token base engine req => searchbox_Forward_dispatch std net zero token base engine req
  · exact fun net token base engine req => searchbox_CategorySearch_dispatch std net zero token base engine req
  · exact fun net token base engine req => searchbox_ListCategories_dispatch net zero token base engine req
  · exact fun net token base engine req => searchbox_Reverse_dispatch std net zero token base engine req
  · exact fun url query => ⟨rfl, rfl, rfl, rfl⟩
  · exact fun url data => ⟨rfl, rfl, rfl⟩
  · rfl

/-- C27 (witness): each of the ten methods on an engine that echoes what it receives. -/
theorem endpoints_dispatch_witness :
    geocoding.Service.Forward goStrconv sampleNet "" ⟨"test-token", ⟨"https://api.mapbox.com", echoEngine⟩⟩
        { Query := "Roma" } =
      (match echoEngine (expectedGet ("https://api.mapbox.com" ++ geocoding.forwardPath)
          (geocoding.Service.buildForwardQuery goStrconv ⟨"test-token", ⟨"https://api.mapbox.com", echoEngine⟩⟩ 
            { Query := "Roma" })) with
        | .error e => .error (.wrapError
            ("forward geocoding failed: " ++ ("failed to execute request: " ++ e.Error))
            (.wrapError ("failed to execute request: " ++ e.Error) e))
        | .ok resp =>
          geocoding.Service.Forward goStrconv sampleNet ""
            ⟨"test-token", ⟨"https://api.mapbox.com", fun _ => .ok resp⟩⟩
            { Query := "Roma" }) ∧
    geocoding.Service.ForwardStructured goStrconv sampleNet "" ⟨"test-token", ⟨"https://api.mapbox.com", echoEngine⟩⟩
        { Street := "Via Roma" } =
      (match echoEngine (expectedGet ("https://api.mapbox.com" ++ geocoding.forwardPath)
          (geocoding.Service.buildStructuredForwardQuery goStrconv ⟨"test-token", ⟨"https://api.mapbox.com", echoEngine⟩⟩ 
            { Street := "Via Roma" })) with
        | .error e => .error (.wrapError
            ("structured forward geocoding failed: " ++ ("failed to execute request: " ++ e.Error))
            (.wrapError ("failed to execute request: " ++ e.Error) e))
        | .ok resp =>
          geocoding.Service.ForwardStructured goStrconv sampleNet ""
            ⟨"test-token", ⟨"https://api.mapbox.com", fun _ => .ok resp⟩⟩
            { Street := "Via Roma" }) ∧
    geocoding.Service.Reverse goStrconv sampleNet "" ⟨"test-token", ⟨"https://api.mapbox.com", echoEngine⟩⟩
        { Longitude := fNeg122_4, Latitude := f37_8 } =
      (match echoEngine (expectedGet ("https://api.mapbox.com" ++ geocoding.reversePath)
          (geocoding.Service.buildReverseQuery goStrconv ⟨"test-token", ⟨"https://api.mapbox.com", echoEngine⟩⟩ 
            { Longitude := fNeg122_4, Latitude := f37_8 })) with
        | .error e => .error (.wrapError
            ("reverse geocoding failed: " ++ ("failed to execute request: " ++ e.Error))
            (.wrapError ("failed to execute request: " ++ e.Error) e))
        | .ok resp =>
          geocoding.Service.Reverse goStrconv sampleNet ""
            ⟨"test-token", ⟨"https://api.mapbox.com", fun _ => .ok resp⟩⟩
            { Longitude := fNeg122_4, Latitude := f37_8 }) ∧
    geocoding.Service.Batch goStrconv sampleNet "" echoService ⟨[testQuery]⟩ =
      (match echoEngine (expectedPost ("https://api.mapbox.com" ++ geocoding.batchPath)
          "json") with
        | .error e => .error (.wrapError
            ("batch geocoding failed: " ++ ("failed to execute request: " ++ e.Error))
            (.wrapError ("failed to execute request: " ++ e.Error) e))
        | .ok resp =>
          geocoding.Service.Batch goStrconv sampleNet ""
            ⟨"test-token", ⟨"https://api.mapbox.com", fun _ => .ok resp⟩⟩ ⟨[testQuery]⟩) ∧
    searchbox.Service.Suggest goStrconv sampleNet "" ⟨"test-token", ⟨"https://api.mapbox.com", echoEngine⟩⟩
        { Query := "coffee", SessionToken := "s" } =
      (match echoEngine (expectedGet ("https://api.mapbox.com" ++ searchbox.suggestPath)
          (searchbox.Service.buildSuggestQuery goStrconv ⟨"test-token", ⟨"https://api.mapbox.com", echoEngine⟩⟩ 
            { Query := "coffee", SessionToken := "s" })) with
        | .error e => .error (.wrapError
            ("suggest search failed: " ++ ("failed to execute request: " ++ e.Error))
            (.wrapError ("failed to execute request: " ++ e.Error) e))
        | .ok resp =>
          searchbox.Service.Suggest goStrconv sampleNet ""
            ⟨"test-token", ⟨"https://api.mapbox.com", fun _ => .ok resp⟩⟩
            { Query := "coffee", SessionToken := "s" }) ∧
    searchbox.Service.Retrieve goStrconv sampleNet "" ⟨"test-token", ⟨"https://api.mapbox.com", echoEngine⟩⟩
        { MapboxID := "abc", SessionToken := "s" } =
      (match echoEngine (expectedGet ("https://api.mapbox.com" ++ (searchbox.retrievePath ++ "/" ++ "abc"))
          (searchbox.Service.buildRetrieveQuery goStrconv ⟨"test-token", ⟨"https://api.mapbox.com", echoEngine⟩⟩ 
            { MapboxID := "abc", SessionToken := "s" })) with
        | .error e => .error (.wrapError
            ("retrieve feature failed: " ++ ("failed to execute request: " ++ e.Error))
            (.wrapError ("failed to execute request: " ++ e.Error) e))
        | .ok resp =>
          searchbox.Service.Retrieve goStrconv sampleNet ""
            ⟨"test-token", ⟨"https://api.mapbox.com", fun _ => .ok resp⟩⟩
            { MapboxID := "abc", SessionToken := "s" }) ∧
    searchbox.Service.Forward goStrconv sampleNet "" ⟨"test-token", ⟨"https://api.mapbox.com", echoEngine⟩⟩
        { Query := "coffee" } =
      (match echoEngine (expectedGet ("https://api.mapbox.com" ++ searchbox.forwardPath)
          (searchbox.Service.buildForwardQuery goStrconv ⟨"test-token", ⟨"https://api.mapbox.com", echoEngine⟩⟩ 
            { Query := "coffee" })) with
        | .error e => .error (.wrapError
            ("forward search failed: " ++ ("failed to execute request: " ++ e.Error))
            (.wrapError ("failed to execute request: " ++ e.Error) e))
        | .ok resp =>
          searchbox.Service.Forward goStrconv sampleNet ""
            ⟨"test-token", ⟨"https://api.mapbox.com", fun _ => .ok resp⟩⟩
            { Query := "coffee" }) ∧
    searchbox.Service.CategorySearch goStrconv sampleNet "" ⟨"test-token", ⟨"https://api.mapbox.com", echoEngine⟩⟩
        { CategoryID := "cafe", ProximityIP := true } =
      (match echoEngine (expectedGet ("https://api.mapbox.com" ++ (searchbox.categorySearchPath ++ "/" ++ "cafe"))
          (searchbox.Service.buildCategorySearchQuery goStrconv ⟨"test-token", ⟨"https://api.mapbox.com", echoEngine⟩⟩ 
            { CategoryID := "cafe", ProximityIP := true })) with
        | .error e => .error (.wrapError
            ("category search failed: " ++ ("failed to execute request: " ++ e.Error))
            (.wrapError ("failed to execute request: " ++ e.Error) e))
        | .ok resp =>
          searchbox.Service.CategorySearch goStrconv sampleNet ""
            ⟨"test-token", ⟨"https://api.mapbox.com", fun _ => .ok resp⟩⟩
            { CategoryID := "cafe", ProximityIP := true }) ∧
    searchbox.Service.ListCategories sampleNet "" ⟨"test-token", ⟨"https://api.mapbox.com", echoEngine⟩⟩
        {} =
      (match echoEngine (expectedGet ("https://api.mapbox.com" ++ searchbox.listCategoriesPath)
          (searchbox.Service.buildListCategoriesQuery ⟨"test-token", ⟨"https://api.mapbox.com", echoEngine⟩⟩ 
            {})) with
        | .error e => .error (.wrapError
            ("list categories failed: " ++ ("failed to execute request: " ++ e.Error))
            (.wrapError ("failed to execute request: " ++ e.Error) e))
        | .ok resp =>
          searchbox.Service.ListCategories sampleNet ""
            ⟨"test-token", ⟨"https://api.mapbox.com", fun _ => .ok resp⟩⟩
            {}) ∧
    searchbox.Service.Reverse goStrconv sampleNet "" ⟨"test-token", ⟨"https://api.mapbox.com", echoEngine⟩⟩
        { Longitude := fNeg122_4, Latitude := f37_8 } =
      (match echoEngine (expectedGet ("https://api.mapbox.com" ++ searchbox.reversePath)
          (searchbox.Service.buildReverseQuery goStrconv ⟨"test-token", ⟨"https://api.mapbox.com", echoEngine⟩⟩ 
            { Longitude := fNeg122_4, Latitude := f37_8 })) with
        | .error e => .error (.wrapError
            ("reverse geocoding failed: " ++ ("failed to execute request: " ++ e.Error))
            (.wrapError ("failed to execute request: " ++ e.Error) e))
        | .ok resp =>
          searchbox.Service.Reverse goStrconv sampleNet ""
            ⟨"test-token", ⟨"https://api.mapbox.com", fun _ => .ok resp⟩⟩
            { Longitude := fNeg122_4, Latitude := f37_8 }) :=
  ⟨(endpoints_dispatch goStrconv "").1 sampleNet "test-token" "https://api.mapbox.com"
     echoEngine { Query := "Roma" } (by decide) rfl rfl,
   (endpoints_dispatch goStrconv "").2.1 sampleNet "test-token" "https://api.mapbox.com"
     echoEngine { Street := "Via Roma" } (by decide) rfl rfl,
   (endpoints_dispatch goStrconv "").2.2.1 sampleNet "test-token" "https://api.mapbox.com"
     echoEngine { Longitude := fNeg122_4, Latitude := f37_8 } (by decide) rfl rfl,
   (endpoints_dispatch (β := geocoding.BatchBody) goStrconv "").2.2.2.1 sampleNet "test-token"
     "https://api.mapbox.com" echoEngine ⟨[testQuery]⟩ "json" (by decide) (by decide)
     (by intro q hq i; rw [List.mem_singleton.1 hq]; rfl) rfl rfl rfl,
   (endpoints_dispatch goStrconv "").2.2.2.2.1 sampleNet "test-token" "https://api.mapbox.com"
     echoEngine { Query := "coffee", SessionToken := "s" } (by decide) rfl rfl,
   (endpoints_dispatch goStrconv "").2.2.2.2.2.1 sampleNet "test-token" "https://api.mapbox.com"
     echoEngine { MapboxID := "abc", SessionToken := "s" } (by decide) rfl rfl,
   (endpoints_dispatch goStrconv "").2.2.2.2.2.2.1 sampleNet "test-token" "https://api.mapbox.com"
     echoEngine { Query := "coffee" } (by decide) rfl rfl,
   (endpoints_dispatch goStrconv "").2.2.2.2.2.2.2.1 sampleNet "test-token" "https://api.mapbox.com"
     echoEngine { CategoryID := "cafe", ProximityIP := true } (by decide) rfl rfl,
   (endpoints_dispatch goStrconv "").2.2.2.2.2.2.2.2.1 sampleNet "test-token" "https://api.mapbox.com"
     echoEngine {} rfl rfl,
   (endpoints_dispatch goStrconv "").2.2.2.2.2.2.2.2.2.1 sampleNet "test-token" "https://api.mapbox.com"
     echoEngine { Longitude := fNeg122_4, Latitude := f37_8 } (by decide) rfl rfl⟩

/-! ## The headers of a request -/

/-- C28: the requests `Do` builds. When the URL parses, the body (if one is supplied) can
be marshalled and the request can be created, `Do` hands the engine one request, the same
whatever the engine is: its `Accept` header is `application/json`, its `User-Agent`
header is `github.com/pettinz/mapbox-go-sdk-go`, its `Content-Type` header is
`application/json` if a body is supplied and absent if none is, it has no other header,
and it has a body exactly when one is supplied. In every other case `Do` fails without
the engine being asked anything. -/
theorem Do_headers {β ρ : Type} (std : http.Stdlib β ρ) (base method path : String)
    (query : Option Values) (body : Option β) :
    (std.urlParse (base ++ path) = none →
      (∀ b, body = some b → ∃ data, std.Marshal b = .ok data) →
      std.NewRequest method (base ++ path) = none →
      ∃ r : http.Request,
        r.Header.lookup "Accept" = some ["application/json"] ∧
        r.Header.lookup "User-Agent" = some ["github.com/pettinz/mapbox-go-sdk-go"] ∧
        r.Header.lookup "Content-Type" =
          (if body.isSome then some ["application/json"] else none) ∧
        ((r.Header.lookup "Content-Type").isSome = true ↔ body.isSome = true) ∧
        (∀ k, k ≠ "Accept" → k ≠ "User-Agent" → k ≠ "Content-Type" →
          r.Header.lookup k = none) ∧
        r.Method = method ∧ r.URL = base ++ path ∧ r.Query = query ∧
        r.Body.isSome = body.isSome ∧
        ∀ engine : http.Request → Except GoError http.Response,
          http.Client.Do std ⟨base, engine⟩ method path query body =
            match engine r with
            | .error err => .error (.wrapError ("failed to execute request: " ++ err.Error) err)
            | .ok resp => .ok resp) ∧
    (¬ (std.urlParse (base ++ path) = none ∧
        (∀ b, body = some b → ∃ data, std.Marshal b = .ok data) ∧
        std.NewRequest method (base ++ path) = none) →
      ∃ err, ∀ engine : http.Request → Except GoError http.Response,
        http.Client.Do std ⟨base, engine⟩ method path query body = .error err) := by
  constructor
  · intro hp hm hn
    cases body with
    | none =>
      refine ⟨⟨method, base ++ path, query, none,
        [("Accept", ["application/json"]),
          ("User-Agent", ["github.com/pettinz/mapbox-go-sdk-go"])]⟩,
        by simp [Values.lookup], by simp [Values.lookup], by simp [Values.lookup],
        by simp [Values.lookup], ?_, rfl, rfl, rfl, rfl, ?_⟩
      · intro k h1 h2 _
        simp [Values.lookup, Ne.symm h1, Ne.symm h2]
      · intro engine
        unfold http.Client.Do
        simp only [hp, hn]
        rfl
    | some b =>
      obtain ⟨data, hd⟩ := hm b rfl
      refine ⟨⟨method, base ++ path, query, some data,
        [("Content-Type", ["application/json"]), ("Accept", ["application/json"]),
          ("User-Agent", ["github.com/pettinz/mapbox-go-sdk-go"])]⟩,
        by simp [Values.lookup], by simp [Values.lookup], by simp [Values.lookup],
        by simp [Values.lookup], ?_, rfl, rfl, rfl, rfl, ?_⟩
      · intro k h1 h2 h3
        simp [Values.lookup, Ne.symm h1, Ne.symm h2, Ne.symm h3]
      · intro engine
        unfold http.Client.Do
        simp only [hp, hn, hd]
        rfl
  · intro h
    rcases hp : std.urlParse (base ++ path) with _ | e
    · cases body with
      | none =>
        rcases hn : std.NewRequest method (base ++ path) with _ | e
        · exact absurd ⟨hp, fun b hb => (by cases hb), hn⟩ h
        · refine ⟨.wrapError ("failed to create request: " ++ e.Error) e, fun engine => ?_⟩
          unfold http.Client.Do
          simp only [hp, hn]
      | some b =>
        rcases hd : std.Marshal b with e | data
        · refine ⟨.wrapError ("failed to marshal request body: " ++ e.Error) e,
            fun engine => ?_⟩
          unfold http.Client.Do
          simp only [hp, hd]
        · rcases hn : std.NewRequest method (base ++ path) with _ | e
          · refine absurd ⟨hp, fun b' hb => ?_, hn⟩ h
            cases hb
            exact ⟨data, hd⟩
          · refine ⟨.wrapError ("failed to create request: " ++ e.Error) e,
              fun engine => ?_⟩
            unfold http.Client.Do
            simp only [hp, hd, hn]
    · refine ⟨.wrapError ("failed to parse URL: " ++ e.Error) e, fun engine => ?_⟩
      unfold http.Client.Do
      simp only [hp]

/-- C28 (witness): a GET without body and a POST with a body, on a standard library where
nothing fails. -/
theorem Do_headers_witness :
    (∃ r : http.Request,
      r.Header.lookup "Accept" = some ["application/json"] ∧
      r.Header.lookup "User-Agent" = some ["github.com/pettinz/mapbox-go-sdk-go"] ∧
      r.Header.lookup "Content-Type" =
        (if (none : Option geocoding.BatchBody).isSome then some ["application/json"]
          else none) ∧
      ((r.Header.lookup "Content-Type").isSome = true ↔
        (none : Option geocoding.BatchBody).isSome = true) ∧
      (∀ k, k ≠ "Accept" → k ≠ "User-Agent" → k ≠ "Content-Type" →
        r.Header.lookup k = none) ∧
      r.Method = "GET" ∧ r.URL = "https://api.mapbox.com" ++ "/search/geocode/v6/forward" ∧
      r.Query = some [("q", ["Roma"])] ∧
      r.Body.isSome = (none : Option geocoding.BatchBody).isSome ∧
      ∀ engine : http.Request → Except GoError http.Response,
        http.Client.Do sampleNet ⟨"https://api.mapbox.com", engine⟩ "GET"
            "/search/geocode/v6/forward" (some [("q", ["Roma"])]) none =
          match engine r with
          | .error err => .error (.wrapError ("failed to execute request: " ++ err.Error) err)
          | .ok resp => .ok resp) ∧
    (∃ r : http.Request,
      r.Header.lookup "Accept" = some ["application/json"] ∧
      r.Header.lookup "User-Agent" = some ["github.com/pettinz/mapbox-go-sdk-go"] ∧
      r.Header.lookup "Content-Type" =
        (if (some [("queries", [testQuery])] : Option geocoding.BatchBody).isSome then
          some ["application/json"] else none) ∧
      ((r.Header.lookup "Content-Type").isSome = true ↔
        (some [("queries", [testQuery])] : Option geocoding.BatchBody).isSome = true) ∧
      (∀ k, k ≠ "Accept" → k ≠ "User-Agent" → k ≠ "Content-Type" →
        r.Header.lookup k = none) ∧
      r.Method = "POST" ∧ r.URL = "https://api.mapbox.com" ++ "/search/geocode/v6/batch" ∧
      r.Query = none ∧
      r.Body.isSome = (some [("queries", [testQuery])] : Option geocoding.BatchBody).isSome ∧
      ∀ engine : http.Request → Except GoError http.Response,
        http.Client.Do sampleNet ⟨"https://api.mapbox.com", engine⟩ "POST"
            "/search/geocode/v6/batch" none (some [("queries", [testQuery])]) =
          match engine r with
          | .error err => .error (.wrapError ("failed to execute request: " ++ err.Error) err)
          | .ok resp => .ok resp) :=
  ⟨(Do_headers sampleNet "https://api.mapbox.com" "GET" "/search/geocode/v6/forward"
      (some [("q", ["Roma"])]) none).1 rfl (fun b hb => by cases hb) rfl,
   (Do_headers sampleNet "https://api.mapbox.com" "POST" "/search/geocode/v6/batch"
      none (some [("queries", [testQuery])])).1 rfl (fun _ _ => ⟨"json", rfl⟩) rfl⟩

/-! ## The root client -/

/-- An option list whose members are not nil and never panic is applied to the end. -/
theorem foldlM_options_ok (opts : List (Option ClientOption))
    (hok : ∀ o ∈ opts, ∃ f, o = some f ∧ ∀ c, ∃ c', f c = .ok c') :
    ∀ c0 : Client, ∃ c, opts.foldlM (fun c opt =>
      match opt with
      | none => Except.error "runtime error: invalid memory address or nil pointer dereference"
      | some f => f c) c0 = .ok c := by
  induction opts with
  | nil => intro c0; exact ⟨c0, rfl⟩
  | cons o rest ih =>
    intro c0
    obtain ⟨f, rfl, hf⟩ := hok o (List.mem_cons_self _ _)
    obtain ⟨c1, hc1⟩ := hf c0
    obtain ⟨c, hc⟩ := ih (fun o ho => hok o (List.mem_cons_of_mem _ ho)) c1
    refine ⟨c, ?_⟩
    simp only [List.foldlM_cons, hc1]
    exact hc

/-- An option list with a nil member is never applied to the end: the nil option panics,
or an option before it does. -/
theorem foldlM_options_nil (opts : List (Option ClientOption)) (hnil : none ∈ opts) :
    ∀ c0 : Client, ∃ msg, opts.foldlM (fun c opt =>
      match opt with
      | none => Except.error "runtime error: invalid memory address or nil pointer dereference"
      | some f => f c) c0 = .error msg := by
  induction opts with
  | nil => cases hnil
  | cons o rest ih =>
    intro c0
    cases o with
    | none => exact ⟨_, rfl⟩
    | some f =>
      have hrest : none ∈ rest := by
        rcases List.mem_cons.1 hnil with h | h
        · cases h
        · exact h
      rcases hf : f c0 with msg | c1
      · exact ⟨msg, by simp only [List.foldlM_cons, hf]; rfl⟩
      · obtain ⟨msg, hm⟩ := ih hrest c1
        exact ⟨msg, by simp only [List.foldlM_cons, hf]; exact hm⟩

/-- What a list of calls of `WithHTTPClient` and `WithBaseURL`, applied in order, does to
a client. -/
theorem foldlM_optionCalls (calls : List OptionCall) :
    ∀ c0 : Client, ∃ c,
      (calls.map fun o => some o.toOption).foldlM (fun c opt =>
        match opt with
        | none =>
          Except.error "runtime error: invalid memory address or nil pointer dereference"
        | some f => f c) c0 = .ok c ∧
      c.baseURL = (lastBaseURL calls).getD c0.baseURL ∧
      c.httpClient = (lastHTTPClient calls).getD c0.httpClient ∧
      c.token = c0.token ∧ c.http = c0.http := by
  induction calls with
  | nil => intro c0; exact ⟨c0, rfl, rfl, rfl, rfl, rfl⟩
  | cons o rest ih =>
    intro c0
    cases o with
    | WithHTTPClient h =>
      obtain ⟨c, hc, h1, h2, h3, h4⟩ := ih { c0 with httpClient := h }
      refine ⟨c, ?_, h1, ?_, h3, h4⟩
      · simp only [List.map_cons, List.foldlM_cons, OptionCall.toOption, WithHTTPClient]
        exact hc
      · rw [h2]
        simp only [lastHTTPClient]
        cases lastHTTPClient rest <;> rfl
    | WithBaseURL u =>
      obtain ⟨c, hc, h1, h2, h3, h4⟩ := ih { c0 with baseURL := u }
      refine ⟨c, ?_, ?_, h2, h3, h4⟩
      · simp only [List.map_cons, List.foldlM_cons, OptionCall.toOption, WithBaseURL]
        exact hc
      · rw [h1]
        simp only [lastBaseURL]
        cases lastBaseURL rest <;> rfl

/-- With a non-empty token `NewClient` is the option loop followed by the creation of the
transport. -/
theorem NewClient_of_token (DefaultClient : http.Request → Except GoError http.Response)
    (token : String) (opts : List (Option ClientOption)) (h : token ≠ "") :
    NewClient DefaultClient token opts =
      match (opts.foldlM (fun c opt =>
        match opt with
        | none =>
          Except.error "runtime error: invalid memory address or nil pointer dereference"
        | some f => f c)
        ({ token := token, baseURL := DefaultBaseURL, httpClient := some DefaultClient,
           http := none } : Client) : Except String Client) with
      | .error msg => .error msg
      | .ok c => .ok { c with http := some (http.New DefaultClient c.baseURL c.httpClient) } := by
  unfold NewClient
  simp only [h, if_false]

/-- C29 (counterexample): with the non-empty token `pk.test`, `NewClient` panics when it
is given a nil option, and when it is given an option that panics. -/
theorem NewClient_nil_option_panics :
    "pk.test" ≠ "" ∧
    NewClient echoEngine "pk.test" [none] =
      .error "runtime error: invalid memory address or nil pointer dereference" ∧
    NewClient echoEngine "pk.test" [some (WithBaseURL "http://a"), none] =
      .error "runtime error: invalid memory address or nil pointer dereference" ∧
    NewClient echoEngine "pk.test" [some panickingOption] = .error "boom" :=
  ⟨by decide, rfl, rfl, rfl⟩

/-- C29 (amended): `NewClient` panics with `mapbox: access token is required` when the
token is empty. With a non-empty token it panics when one of the options is nil, and it
returns a client when every option is a function that returns; so on option lists whose
functions all return it panics if and only if the token is empty or an option is nil, and
on lists of calls of `WithHTTPClient` and `WithBaseURL` if and only if the token is empty.
With a non-empty token and no option the client's `BaseURL()` is
`https://api.mapbox.com`, its `HTTPClient()` is `http.DefaultClient`, its transport runs
on that engine at that base URL, and it holds the token. -/
theorem NewClient_spec (DefaultClient : http.Request → Except GoError http.Response)
    (token : String) (opts : List (Option ClientOption)) :
    (token = "" →
      NewClient DefaultClient token opts = .error "mapbox: access token is required") ∧
    (token ≠ "" → none ∈ opts → ∃ msg, NewClient DefaultClient token opts = .error msg) ∧
    (token ≠ "" → (∀ o ∈ opts, ∃ f, o = some f ∧ ∀ c, ∃ c', f c = .ok c') →
      ∃ c, NewClient DefaultClient token opts = .ok c) ∧
    ((∀ o ∈ opts, ∀ f, o = some f → ∀ c, ∃ c', f c = .ok c') →
      ((∃ msg, NewClient DefaultClient token opts = .error msg) ↔
        (token = "" ∨ none ∈ opts))) ∧
    (∀ calls : List OptionCall,
      (∃ msg, NewClient DefaultClient token (calls.map fun o => some o.toOption) =
        .error msg) ↔ token = "") ∧
    (token ≠ "" → ∃ c, NewClient DefaultClient token [] = .ok c ∧
      c.BaseURL = "https://api.mapbox.com" ∧ c.HTTPClient = some DefaultClient ∧
      c.http = some ⟨"https://api.mapbox.com", DefaultClient⟩ ∧ c.token = token) := by
  have hempty : token = "" →
      NewClient DefaultClient token opts = .error "mapbox: access token is required" := by
    intro h; unfold NewClient; simp only [h, if_true]
  have hnil : token ≠ "" → none ∈ opts →
      ∃ msg, NewClient DefaultClient token opts = .error msg := by
    intro h hn
    obtain ⟨msg, hm⟩ := foldlM_options_nil opts hn
      { token := token, baseURL := DefaultBaseURL, httpClient := some DefaultClient,
        http := none }
    exact ⟨msg, by rw [NewClient_of_token _ _ _ h, hm]⟩
  have hok : ∀ os : List (Option ClientOption), token ≠ "" →
      (∀ o ∈ os, ∃ f, o = some f ∧ ∀ c, ∃ c', f c = .ok c') →
      ∃ c, NewClient DefaultClient token os = .ok c := by
    intro os h ho
    obtain ⟨c, hc⟩ := foldlM_options_ok os ho
      { token := token, baseURL := DefaultBaseURL, httpClient := some DefaultClient,
        http := none }
    exact ⟨{ c with http := some (http.New DefaultClient c.baseURL c.httpClient) },
      by rw [NewClient_of_token _ _ _ h, hc]⟩
  refine ⟨hempty, hnil, hok opts, ?_, ?_, ?_⟩
  · intro hret
    constructor
    · rintro ⟨msg, hm⟩
      by_contra hne
      simp only [not_or] at hne
      obtain ⟨c, hc⟩ := hok opts hne.1 (by
        intro o ho
        cases o with
        | none => exact absurd ho hne.2
        | some f => exact ⟨f, rfl, hret _ ho f rfl⟩)
      rw [hc] at hm
      cases hm
    · rintro (h | h)
      · exact ⟨_, hempty h⟩
      · by_cases ht : token = ""
        · exact ⟨_, hempty ht⟩
        · exact hnil ht h
  · intro calls
    constructor
    · rintro ⟨msg, hm⟩
      by_contra hne
      obtain ⟨c, hc⟩ := hok (calls.map fun o => some o.toOption) hne (by
        intro o ho
        obtain ⟨call, _, rfl⟩ := List.mem_map.1 ho
        refine ⟨_, rfl, fun c => ?_⟩
        cases call <;> exact ⟨_, rfl⟩)
      rw [hc] at hm
      cases hm
    · intro h
      exact ⟨"mapbox: access token is required",
        by unfold NewClient; simp only [h, if_true]⟩
  · intro h
    refine ⟨⟨token, DefaultBaseURL, some DefaultClient,
      some (http.New DefaultClient DefaultBaseURL (some DefaultClient))⟩, ?_, rfl, rfl, rfl,
      rfl⟩
    rw [NewClient_of_token _ _ _ h]
    rfl

/-- C29 (witness): the empty token; the token `pk.test` with a nil option, with one call
of `WithBaseURL`, and without options, `http.DefaultClient` being the echoing engine. -/
theorem NewClient_spec_witness :
    NewClient echoEngine "" [] = .error "mapbox: access token is required" ∧
    (∃ msg, NewClient echoEngine "pk.test" [none] = .error msg) ∧
    (∃ c, NewClient echoEngine "pk.test" [some (WithBaseURL "http://a")] = .ok c) ∧
    (∃ c, NewClient echoEngine "pk.test" [] = .ok c ∧
      c.BaseURL = "https://api.mapbox.com" ∧ c.HTTPClient = some echoEngine ∧
      c.http = some ⟨"https://api.mapbox.com", echoEngine⟩ ∧ c.token = "pk.test") :=
  ⟨(NewClient_spec echoEngine "" []).1 rfl,
   (NewClient_spec echoEngine "pk.test" [none]).2.1 (by decide) (by simp),
   (NewClient_spec echoEngine "pk.test" [some (WithBaseURL "http://a")]).2.2.1 (by decide)
     (by
      intro o ho
      rw [List.mem_singleton.1 ho]
      exact ⟨_, rfl, fun c => ⟨_, rfl⟩⟩),
   (NewClient_spec echoEngine "pk.test" []).2.2.2.2.2 (by decide)⟩

/-! ## The masked token -/

/-- The number of bytes of a Go string is `String.utf8ByteSize`. -/
theorem goBytes_length (s : String) : (goBytes s).length = s.utf8ByteSize := by
  obtain ⟨l⟩ := s
  unfold goBytes String.utf8ByteSize
  induction l with
  | nil => rfl
  | cons c cs ih =>
    simp only [List.flatMap_cons, List.length_append, List.length_map,
      String.length_utf8EncodeChar, String.utf8ByteSize.go] at ih ⊢
    omega

/-- Every character has at least one byte. -/
theorem utf8EncodeChar_length_pos (c : Char) :
    1 ≤ ((String.utf8EncodeChar c).map UInt8.toNat).length := by
  rw [List.length_map, String.length_utf8EncodeChar]
  exact Char.utf8Size_pos c

/-- A concatenation of non-empty pieces is at least as long as the number of pieces. -/
theorem length_le_length_flatMap {α β : Type} (f : α → List β) (hf : ∀ a, 1 ≤ (f a).length)
    (l : List α) : l.length ≤ (l.flatMap f).length := by
  induction l with
  | nil => simp
  | cons a l ih =>
    simp only [List.flatMap_cons, List.length_cons, List.length_append]
    have := hf a
    omega

/-- The first `k` elements of a concatenation of non-empty pieces lie within its first `k`
pieces. -/
theorem take_flatMap_within {α β : Type} (f : α → List β) (hf : ∀ a, 1 ≤ (f a).length)
    (l : List α) (k : Nat) : (l.flatMap f).take k <+: (l.take k).flatMap f := by
  induction l generalizing k with
  | nil => simp
  | cons a l ih =>
    cases k with
    | zero => simp
    | succ k =>
      simp only [List.flatMap_cons, List.take_succ_cons, List.take_append_eq_append_take]
      have h1 : (f a).take (k + 1) <+: f a := List.take_prefix _ _
      by_cases hlen : k + 1 ≤ (f a).length
      · have h0 : k + 1 - (f a).length = 0 := by omega
        rw [h0, List.take_zero, List.append_nil]
        exact h1.trans (List.prefix_append _ _)
      · have hfa : (f a).take (k + 1) = f a := List.take_of_length_le (by omega)
        rw [hfa]
        refine (List.prefix_append_right_inj _).2 ?_
        have hle : k + 1 - (f a).length ≤ k := by have := hf a; omega
        have hpre : (l.flatMap f).take (k + 1 - (f a).length) <+: (l.flatMap f).take k := by
          rw [List.prefix_take_iff]
          exact ⟨List.take_prefix _ _, by rw [List.length_take]; omega⟩
        exact hpre.trans (ih k)

/-- The last `k` elements of a concatenation of non-empty pieces lie within its last `k`
pieces. -/
theorem drop_flatMap_within {α β : Type} (f : α → List β) (hf : ∀ a, 1 ≤ (f a).length)
    (l : List α) (k : Nat) :
    (l.flatMap f).drop ((l.flatMap f).length - k) <:+
      (l.drop (l.length - k)).flatMap f := by
  induction l with
  | nil => simp
  | cons a l ih =>
    by_cases hk : k ≤ l.length
    · have hk2 : k ≤ (l.flatMap f).length :=
        le_trans hk (length_le_length_flatMap f hf l)
      have e1 : (a :: l).length - k = (l.length - k) + 1 := by
        simp only [List.length_cons]; omega
      have e2 : ((a :: l).flatMap f).length - k =
          (f a).length + ((l.flatMap f).length - k) := by
        simp only [List.flatMap_cons, List.length_append]; omega
      rw [e1, e2, List.drop_succ_cons, List.flatMap_cons, List.drop_append]
      exact ih
    · have e1 : (a :: l).length - k = 0 := by simp only [List.length_cons]; omega
      rw [e1, List.drop_zero]
      exact List.drop_suffix _ _

/-- C30: `Token()` returns `****` when the token has at most 8 bytes; otherwise it returns
the first 4 bytes of the token, then `...`, then the last 4 bytes of the token, 11 bytes
in all. The bytes shown lie within the first four and the last four characters of the
token. A token of 8 bytes is masked entirely, one of 9 bytes shows all but its middle
byte, and of a token of six three-byte characters the first character and the last one
are shown, each with one byte of its neighbour. -/
theorem Token_spec (c : Client) :
    ((goBytes c.token).length ≤ 8 → c.Token = goBytes "****") ∧
    (8 < (goBytes c.token).length →
      c.Token = (goBytes c.token).take 4 ++ goBytes "..." ++
        (goBytes c.token).drop ((goBytes c.token).length - 4) ∧
      ((goBytes c.token).take 4).length = 4 ∧
      ((goBytes c.token).drop ((goBytes c.token).length - 4)).length = 4 ∧
      c.Token.length = 11) ∧
    (goBytes c.token).length = c.token.utf8ByteSize ∧
    (goBytes c.token).take 4 <+: goBytes c.token ∧
    (goBytes c.token).drop ((goBytes c.token).length - 4) <:+ goBytes c.token ∧
    (goBytes c.token).take 4 <+: goBytes (String.mk (c.token.data.take 4)) ∧
    (goBytes c.token).drop ((goBytes c.token).length - 4) <:+
      goBytes (String.mk (c.token.data.drop (c.token.data.length - 4))) ∧
    goBytes "****" = [42, 42, 42, 42] ∧ goBytes "..." = [46, 46, 46] ∧
    (clientWithToken "pk.12345").Token = goBytes "****" ∧
    (clientWithToken "pk.123456").Token = goBytes "pk.1...3456" ∧
    (clientWithToken "pk.eyJ1IjoibWFwYm94In0").Token = goBytes "pk.e...4In0" ∧
    (clientWithToken "東京都千代田").Token =
      [230, 157, 177, 228] ++ goBytes "..." ++ [163, 231, 148, 176] := by
  refine ⟨?_, ?_, goBytes_length _, List.take_prefix _ _, List.drop_suffix _ _,
    take_flatMap_within _ utf8EncodeChar_length_pos _ 4,
    drop_flatMap_within _ utf8EncodeChar_length_pos _ 4, by decide, by decide, by decide,
    by decide, by decide, by decide⟩
  · intro h
    unfold Client.Token
    simp only [h, if_true]
  · intro h
    have hn : ¬ (goBytes c.token).length ≤ 8 := by omega
    have e : c.Token = (goBytes c.token).take 4 ++ goBytes "..." ++
        (goBytes c.token).drop ((goBytes c.token).length - 4) := by
      unfold Client.Token
      simp only [hn, if_false]
    have h3 : (goBytes "...").length = 3 := by decide
    refine ⟨e, ?_, ?_, ?_⟩
    · rw [List.length_take]; omega
    · rw [List.length_drop]; omega
    · rw [e, List.length_append, List.length_append, List.length_take, List.length_drop, h3]
      omega

/-- C30 (witness): a token of 8 bytes and a token of 22 bytes. -/
theorem Token_spec_witness :
    (clientWithToken "pk.12345").Token = goBytes "****" ∧
    ((clientWithToken "pk.eyJ1IjoibWFwYm94In0").Token =
        (goBytes (clientWithToken "pk.eyJ1IjoibWFwYm94In0").token).take 4 ++ goBytes "..." ++
          (goBytes (clientWithToken "pk.eyJ1IjoibWFwYm94In0").token).drop
            ((goBytes (clientWithToken "pk.eyJ1IjoibWFwYm94In0").token).length - 4) ∧
      ((goBytes (clientWithToken "pk.eyJ1IjoibWFwYm94In0").token).take 4).length = 4 ∧
      ((goBytes (clientWithToken "pk.eyJ1IjoibWFwYm94In0").token).drop
        ((goBytes (clientWithToken "pk.eyJ1IjoibWFwYm94In0").token).length - 4)).length = 4 ∧
      (clientWithToken "pk.eyJ1IjoibWFwYm94In0").Token.length = 11) :=
  ⟨(Token_spec (clientWithToken "pk.12345")).1 (by decide),
   (Token_spec (clientWithToken "pk.eyJ1IjoibWFwYm94In0")).2.1 (by decide)⟩

/-! ## The text of a transport error -/

/-- C31: `ErrorResponse.Error()` is `HTTP <status>: <message> (<code>)` when the code is
not empty and `HTTP <status>: <message>` when it is, the status being written in decimal:
as the digits of the number in base ten, after a minus sign when it is negative. This is
the text of the errors the transport returns for a status outside 200..299. The two
values of the repository's test give `HTTP 401: unauthorized (INVALID_TOKEN)` and
`HTTP 404: not found`. -/
theorem ErrorResponse_Error_spec (StatusCode : Int) (Message Code : String) :
    http.ErrorResponse.Error StatusCode Message Code =
      (if Code ≠ "" then
        "HTTP " ++ Itoa StatusCode ++ ": " ++ Message ++ " (" ++ Code ++ ")"
      else "HTTP " ++ Itoa StatusCode ++ ": " ++ Message) ∧
    (GoError.errorResponse StatusCode Message Code).Error =
      http.ErrorResponse.Error StatusCode Message Code ∧
    (∀ n : Nat, Itoa (n : Int) = String.mk (Nat.toDigits 10 n)) ∧
    (∀ n : Nat, Itoa (-((n : Int) + 1)) = "-" ++ String.mk (Nat.toDigits 10 (n + 1))) ∧
    http.ErrorResponse.Error 401 "unauthorized" "INVALID_TOKEN" =
      "HTTP 401: unauthorized (INVALID_TOKEN)" ∧
    http.ErrorResponse.Error 404 "not found" "" = "HTTP 404: not found" ∧
    http.ErrorResponse.Error 503 "" "" = "HTTP 503: " := by
  refine ⟨rfl, rfl, fun n => rfl, fun n => rfl, by decide, by decide, by decide⟩

/-! ## Points -/

/-- C32: `NewPoint(lon, lat)` has type `Point`, and its `Longitude()` and `Latitude()`
are `lon` and `lat`. On a point without coordinates both accessors return 0; on a point
with exactly one coordinate `Longitude()` returns it and `Latitude()` returns 0; on a
point with two or more coordinates they return the first and the second. No accessor
ever indexes out of range. -/
theorem Point_accessors (longitude latitude : Float64) (p : Point) :
    (NewPoint longitude latitude).Type_ = "Point" ∧
    (NewPoint longitude latitude).Longitude = .ok longitude ∧
    (NewPoint longitude latitude).Latitude = .ok latitude ∧
    (∀ t : String, (Point.mk t []).Longitude = .ok (ofInt 0) ∧
      (Point.mk t []).Latitude = .ok (ofInt 0)) ∧
    (∀ (t : String) (x : Float64), (Point.mk t [x]).Longitude = .ok x ∧
      (Point.mk t [x]).Latitude = .ok (ofInt 0)) ∧
    (∀ (t : String) (x y : Float64) (rest : List Float64),
      (Point.mk t (x :: y :: rest)).Longitude = .ok x ∧
      (Point.mk t (x :: y :: rest)).Latitude = .ok y) ∧
    (∃ x, p.Longitude = .ok x) ∧ (∃ y, p.Latitude = .ok y) := by
  have hlon : ∀ (t : String) (x : Float64) (rest : List Float64),
      (Point.mk t (x :: rest)).Longitude = .ok x := by
    intro t x rest; simp [Point.Longitude]
  have hlat : ∀ (t : String) (x y : Float64) (rest : List Float64),
      (Point.mk t (x :: y :: rest)).Latitude = .ok y := by
    intro t x y rest; simp [Point.Latitude]
  refine ⟨rfl, rfl, rfl, fun t => ⟨rfl, rfl⟩, fun t x => ⟨rfl, rfl⟩,
    fun t x y rest => ⟨hlon _ _ _, hlat _ _ _ _⟩, ?_, ?_⟩
  · obtain ⟨t, cs⟩ := p
    cases cs with
    | nil => exact ⟨_, rfl⟩
    | cons x rest => exact ⟨x, hlon _ _ _⟩
  · obtain ⟨t, cs⟩ := p
    cases cs with
    | nil => exact ⟨_, rfl⟩
    | cons x rest =>
      cases rest with
      | nil => exact ⟨_, rfl⟩
      | cons y rest => exact ⟨y, hlat _ _ _ _⟩

/-! ## Batch queries with one coordinate -/

/-- C36: a batch query is reverse-style only when it has both a longitude and a latitude.
With exactly one of the two, a query without text is rejected with the error of a query
that specifies neither form, and a query with a text is accepted, whatever the lone
coordinate is. -/
theorem validateBatchQuery_lone_coordinate (std : Strconv) (q : geocoding.BatchQuery)
    (i : Int) (h : q.Longitude.isSome ≠ q.Latitude.isSome) :
    (q.Query = "" → geocoding.validateBatchQuery std q i =
      some (.errorString ("query at index " ++ Itoa i ++
        ": must specify either 'q' (forward) or 'longitude'+'latitude' (reverse)"))) ∧
    (q.Query ≠ "" → geocoding.validateBatchQuery std q i = none) := by
  obtain ⟨ID, Query, Longitude, Latitude, Country, Language, Limit, Types⟩ := q
  cases Longitude <;> cases Latitude <;> simp at h <;>
  · constructor
    · intro hq
      simp only at hq
      simp [geocoding.validateBatchQuery, hq]
    · intro hq
      simp only at hq
      simp [geocoding.validateBatchQuery, hq]

/-- C36 (witness): a query with only a latitude, and a query with the text `Roma` and a
longitude of 999. -/
theorem validateBatchQuery_lone_coordinate_witness :
    geocoding.validateBatchQuery goStrconv { Latitude := some (ofInt 45) } 3 =
      some (.errorString ("query at index " ++ Itoa 3 ++
        ": must specify either 'q' (forward) or 'longitude'+'latitude' (reverse)")) ∧
    geocoding.validateBatchQuery goStrconv loneLongitudeQuery 0 = none :=
  ⟨(validateBatchQuery_lone_coordinate goStrconv { Latitude := some (ofInt 45) } 3
      (by decide)).1 rfl,
   (validateBatchQuery_lone_coordinate goStrconv loneLongitudeQuery 0 (by decide)).2
      (by decide)⟩

/-! ## The two coordinate validators -/

/-- C37: on a request without limit the search-box validator accepts a longitude and a
latitude exactly when `validateCoordinates` of package `geocoding` accepts them, for all
values including NaN and the infinities; the other fields of the request play no part. -/
theorem coordinate_validators_agree (std : Strconv) (req : searchbox.ReverseRequest) :
    (searchbox.validateReverseRequest { req with Limit := none } = none ↔
      geocoding.validateCoordinates std req.Longitude req.Latitude = none) ∧
    (∀ longitude latitude : Float64,
      searchbox.validateReverseRequest { Longitude := longitude, Latitude := latitude } =
          none ↔
        geocoding.validateCoordinates std longitude latitude = none) := by
  have key : ∀ r : searchbox.ReverseRequest, r.Limit = none →
      (searchbox.validateReverseRequest r = none ↔
        geocoding.validateCoordinates std r.Longitude r.Latitude = none) := by
    intro r hl
    unfold searchbox.validateReverseRequest geocoding.validateCoordinates
    rw [hl]
    cases h1 : (Float64.lt r.Longitude (ofInt (-180)) || Float64.gt r.Longitude (ofInt 180)) <;>
    cases h2 : (Float64.lt r.Latitude (ofInt (-90)) || Float64.gt r.Latitude (ofInt 90)) <;>
    simp
  exact ⟨key _ rfl, fun longitude latitude => key _ rfl⟩

/-! ## The first rejected query of a batch -/

/-- The first element on which `f` gives a value sets the result of `findSome?` over an
enumeration. -/
theorem findSome_enumFrom_first {α β : Type} (f : Nat × α → Option β) (l : List α) :
    ∀ (n i : Nat) (a : α) (b : β), l[i]? = some a → f (n + i, a) = some b →
      (∀ j a', j < i → l[j]? = some a' → f (n + j, a') = none) →
      (l.enumFrom n).findSome? f = some b := by
  induction l with
  | nil => intro n i a b hi; simp at hi
  | cons x xs ih =>
    intro n i a b hi hf hmin
    cases i with
    | zero =>
      simp only [List.getElem?_cons_zero, Option.some.injEq] at hi
      subst hi
      simp only [List.enumFrom_cons, List.findSome?_cons]
      simp only [Nat.add_zero] at hf
      rw [hf]
    | succ i =>
      simp only [List.getElem?_cons_succ] at hi
      have h0 : f (n, x) = none := by
        have := hmin 0 x (Nat.succ_pos i) (by simp)
        simpa using this
      simp only [List.enumFrom_cons, List.findSome?_cons, h0]
      refine ih (n + 1) i a b hi ?_ ?_
      · have e : n + 1 + i = n + (i + 1) := by omega
        rw [e]; exact hf
      · intro j a' hj hja
        have e : n + 1 + j = n + (j + 1) := by omega
        rw [e]
        exact hmin (j + 1) a' (by omega) (by simpa using hja)

/-- Every error of `validateBatchQuery` starts with `query at index`, the index in
decimal, and a colon. -/
theorem validateBatchQuery_message (std : Strconv) (q : geocoding.BatchQuery) (i : Int)
    (err : GoError) (h : geocoding.validateBatchQuery std q i = some err) :
    ∃ rest, err.Error = "query at index " ++ Itoa i ++ ": " ++ rest := by
  have e1 : ": must specify either 'q' (forward) or 'longitude'+'latitude' (reverse)" =
      ": " ++ "must specify either 'q' (forward) or 'longitude'+'latitude' (reverse)" := by
    decide
  have e2 : ": cannot specify both 'q' and 'longitude'+'latitude'" =
      ": " ++ "cannot specify both 'q' and 'longitude'+'latitude'" := by decide
  unfold geocoding.validateBatchQuery at h
  simp only at h
  by_cases c1 : ¬ (q.Query ≠ "") ∧ ¬ ((q.Longitude.isSome && q.Latitude.isSome) = true)
  · rw [if_pos c1] at h
    cases h
    refine ⟨"must specify either 'q' (forward) or 'longitude'+'latitude' (reverse)", ?_⟩
    simp only [GoError.Error]
    rw [e1]
    simp only [String.append_assoc]
  · rw [if_neg c1] at h
    by_cases c2 : q.Query ≠ "" ∧ (q.Longitude.isSome && q.Latitude.isSome) = true
    · rw [if_pos c2] at h
      cases h
      refine ⟨"cannot specify both 'q' and 'longitude'+'latitude'", ?_⟩
      simp only [GoError.Error]
      rw [e2]
      simp only [String.append_assoc]
    · rw [if_neg c2] at h
      rcases hlon : q.Longitude with _ | lon
      · rw [hlon] at h; simp at h
      · rcases hlat : q.Latitude with _ | lat
        · rw [hlon, hlat] at h; simp at h
        · rw [hlon, hlat] at h
          simp only at h
          rcases hc : geocoding.validateCoordinates std lon lat with _ | e
          · rw [hc] at h; simp at h
          · rw [hc] at h
            simp only [Option.some.injEq] at h
            subst h
            exact ⟨e.Error, rfl⟩

/-- C33: on a request of 1 to 1000 queries, when the query at index `i` is rejected by
`validateBatchQuery` and every query before it is accepted, `Batch` returns exactly the
error `validateBatchQuery` gives for that query at index `i`, and the text of the error
is `query at index`, the number `i` in decimal, a colon and the reason. Whenever some
query of such a request is rejected, there is such a first index. -/
theorem Batch_names_first_invalid {ρ : Type} (std : Strconv)
    (net : http.Stdlib geocoding.BatchBody ρ) (zero : ρ) (s : geocoding.Service)
    (req : geocoding.BatchRequest)
    (h1 : 1 ≤ req.Queries.length) (h2 : req.Queries.length ≤ 1000) :
    (∀ (i : Nat) (q : geocoding.BatchQuery) (err : GoError),
      req.Queries[i]? = some q → geocoding.validateBatchQuery std q i = some err →
      (∀ (j : Nat) (q' : geocoding.BatchQuery), j < i → req.Queries[j]? = some q' →
        geocoding.validateBatchQuery std q' j = none) →
      geocoding.Service.Batch std net zero s req = .error err ∧
      ∃ rest, err.Error = "query at index " ++ Itoa i ++ ": " ++ rest) ∧
    ((∃ (k : Nat) (q : geocoding.BatchQuery), req.Queries[k]? = some q ∧
        (geocoding.validateBatchQuery std q k).isSome = true) →
      ∃ (i : Nat) (q : geocoding.BatchQuery) (err : GoError),
        req.Queries[i]? = some q ∧ geocoding.validateBatchQuery std q i = some err ∧
        (∀ (j : Nat) (q' : geocoding.BatchQuery), j < i → req.Queries[j]? = some q' →
          geocoding.validateBatchQuery std q' j = none) ∧
        geocoding.Service.Batch std net zero s req = .error err ∧
        ∃ rest, err.Error = "query at index " ++ Itoa i ++ ": " ++ rest) := by
  have first : ∀ (i : Nat) (q : geocoding.BatchQuery) (err : GoError),
      req.Queries[i]? = some q → geocoding.validateBatchQuery std q i = some err →
      (∀ (j : Nat) (q' : geocoding.BatchQuery), j < i → req.Queries[j]? = some q' →
        geocoding.validateBatchQuery std q' j = none) →
      geocoding.Service.Batch std net zero s req = .error err ∧
      ∃ rest, err.Error = "query at index " ++ Itoa i ++ ": " ++ rest := by
    intro i q err hq herr hmin
    refine ⟨Batch_of_rejected_query std net zero s req err h1 h2 ?_,
      validateBatchQuery_message std q i err herr⟩
    unfold List.enum
    refine findSome_enumFrom_first _ _ 0 i q err hq ?_ ?_
    · simpa using herr
    · intro j q' hj hq'
      simpa using hmin j q' hj hq'
  refine ⟨first, ?_⟩
  intro hex
  classical
  have hex' : ∃ k : Nat, ∃ q, req.Queries[k]? = some q ∧
      (geocoding.validateBatchQuery std q k).isSome = true := hex
  obtain ⟨q, hq, hsome⟩ := Nat.find_spec hex'
  obtain ⟨err, herr⟩ := Option.isSome_iff_exists.1 hsome
  have hmin : ∀ (j : Nat) (q' : geocoding.BatchQuery), j < Nat.find hex' →
      req.Queries[j]? = some q' → geocoding.validateBatchQuery std q' j = none := by
    intro j q' hj hq'
    have := Nat.find_min hex' hj
    by_contra hne
    exact this ⟨q', hq', Option.ne_none_iff_isSome.1 hne⟩
  exact ⟨Nat.find hex', q, err, hq, herr, hmin, first _ q err hq herr hmin⟩

/-- C33 (witness): in the batch of a valid query, a query with longitude 200 and an empty
query, the first rejected index is 1. -/
theorem Batch_names_first_invalid_witness :
    geocoding.Service.Batch goStrconv sampleNet "" sampleService
        ⟨[testQuery, badPairQuery, emptyQuery]⟩ =
      .error (.wrapError
        "query at index 1: longitude must be between -180 and 180, got 200.000000"
        (.errorString "longitude must be between -180 and 180, got 200.000000")) ∧
    ∃ rest, (GoError.wrapError
        "query at index 1: longitude must be between -180 and 180, got 200.000000"
        (.errorString "longitude must be between -180 and 180, got 200.000000")).Error =
      "query at index " ++ Itoa (1 : Nat) ++ ": " ++ rest :=
  (Batch_names_first_invalid goStrconv sampleNet "" sampleService
    ⟨[testQuery, badPairQuery, emptyQuery]⟩ (by decide) (by decide)).1 1 badPairQuery _ rfl
    (by decide)
    (by
      intro j q' hj hq'
      have hj0 : j = 0 := by omega
      subst hj0
      simp only [List.getElem?_cons_zero, Option.some.injEq] at hq'
      subst hq'
      decide)

/-! ## Category search: the search area -/

/-- A category search request that passes validation has a proximity (the flag or a
pair), a bounding box of four numbers, or search-along-route options with a non-empty
route. -/
theorem validateCategorySearchRequest_area (req : searchbox.CategorySearchRequest)
    (h : searchbox.validateCategorySearchRequest req = none) :
    (req.ProximityIP = true ∨ req.Proximity.length = 2) ∨ req.BBox.length = 4 ∨
      ∃ sar, req.SAR = some sar ∧ sar.Route.length > 0 := by
  unfold searchbox.validateCategorySearchRequest at h
  by_cases h0 : req.CategoryID = ""
  · simp [h0] at h
  · simp only [h0, if_false] at h
    by_contra hne
    simp only [not_or, not_exists, not_and] at hne
    obtain ⟨⟨hp1, hp2⟩, hb, hs⟩ := hne
    have hsar : (match req.SAR with
        | some sar => decide (sar.Route.length > 0)
        | none => false) = false := by
      rcases hS : req.SAR with _ | sar
      · rfl
      · simpa using hs sar hS
    simp [hp1, hp2, hb, hsar] at h

/-- C35: the query `buildCategorySearchQuery` builds for a request that
`validateCategorySearchRequest` accepts has the key `proximity`, the key `bbox` or the
key `route`: `proximity` when the flag is set or the proximity is a pair, `bbox` when
the bounding box has four numbers, `route` when the search-along-route options have a
non-empty route. -/
theorem category_search_has_area (std : Strconv) (s : searchbox.Service)
    (req : searchbox.CategorySearchRequest)
    (h : searchbox.validateCategorySearchRequest req = none) :
    ((searchbox.Service.buildCategorySearchQuery std s req).Has "proximity" = true ∨
      (searchbox.Service.buildCategorySearchQuery std s req).Has "bbox" = true ∨
      (searchbox.Service.buildCategorySearchQuery std s req).Has "route" = true) ∧
    ((req.ProximityIP = true ∨ req.Proximity.length = 2) →
      (searchbox.Service.buildCategorySearchQuery std s req).Has "proximity" = true) ∧
    (req.BBox.length = 4 →
      (searchbox.Service.buildCategorySearchQuery std s req).Has "bbox" = true) ∧
    (∀ sar, req.SAR = some sar → sar.Route.length > 0 →
      (searchbox.Service.buildCategorySearchQuery std s req).lookup "route" =
        some [searchbox.encodeRoute std sar.Route]) := by
  have hprox : (req.ProximityIP = true ∨ req.Proximity.length = 2) →
      (searchbox.Service.buildCategorySearchQuery std s req).Has "proximity" = true := by
    intro hp
    unfold Values.Has
    rw [searchbox_lookup_buildCategorySearchQuery]
    by_cases hip : req.ProximityIP = true
    · rcases hS : req.SAR with _ | sar <;> rcases hN : req.Navigation with _ | nav <;>
        simp [Option.orElse, hip]
    · have h2 : req.Proximity.length = 2 := hp.resolve_left hip
      rcases hS : req.SAR with _ | sar <;> rcases hN : req.Navigation with _ | nav <;>
        simp [Option.orElse, hip, h2]
  have hbbox : req.BBox.length = 4 →
      (searchbox.Service.buildCategorySearchQuery std s req).Has "bbox" = true := by
    intro hb
    unfold Values.Has
    rw [searchbox_lookup_buildCategorySearchQuery]
    rcases hS : req.SAR with _ | sar <;> rcases hN : req.Navigation with _ | nav <;>
      simp [Option.orElse, hb]
  have hroute : ∀ sar, req.SAR = some sar → sar.Route.length > 0 →
      (searchbox.Service.buildCategorySearchQuery std s req).lookup "route" =
        some [searchbox.encodeRoute std sar.Route] := by
    intro sar hS hr
    rw [searchbox_lookup_buildCategorySearchQuery, hS]
    simp [Option.orElse, hr]
  refine ⟨?_, hprox, hbbox, hroute⟩
  rcases validateCategorySearchRequest_area req h with hp | hb | ⟨sar, hS, hr⟩
  · exact Or.inl (hprox hp)
  · exact Or.inr (Or.inl (hbbox hb))
  · refine Or.inr (Or.inr ?_)
    unfold Values.Has
    rw [hroute sar hS hr]
    rfl

/-- C35 (witness): a request with a route only. -/
theorem category_search_has_area_witness :
    (searchbox.Service.buildCategorySearchQuery goStrconv sampleSearchService
        { CategoryID := "cafe",
          SAR := some { Route := [[fNeg122_4, f37_8], [fNeg122_5, f37_7]] } }).lookup
        "route" =
      some [searchbox.encodeRoute goStrconv [[fNeg122_4, f37_8], [fNeg122_5, f37_7]]] :=
  (category_search_has_area goStrconv sampleSearchService
    { CategoryID := "cafe",
      SAR := some { Route := [[fNeg122_4, f37_8], [fNeg122_5, f37_7]] } }
    (by decide)).2.2.2 _ rfl (by decide)

/-! ## The frame of the two option encoders -/

/-- C38: `addNavigationParams` writes `eta_type` exactly when the ETA type is not empty,
`origin` exactly when the origin has two elements, `navigation_profile` exactly when the
profile is not empty, each with the encoding of its field as the only value, and leaves
every other key of the map, and each of the three it does not write, as it was.
`addSARParams` does the same with `sar_type` (type not empty), `route` (route not empty)
and `time_deviation` (pointer not nil). In particular neither changes `access_token`,
`proximity`, `bbox` or `limit`. -/
theorem option_encoders_frame (std : Strconv) (q : Values)
    (nav : searchbox.NavigationOptions) (sar : searchbox.SAROptions) :
    (∀ key, key ≠ "eta_type" → key ≠ "origin" → key ≠ "navigation_profile" →
      (searchbox.addNavigationParams std q nav).lookup key = q.lookup key) ∧
    (searchbox.addNavigationParams std q nav).lookup "eta_type" =
      (if nav.ETAType ≠ "" then some [nav.ETAType] else q.lookup "eta_type") ∧
    (searchbox.addNavigationParams std q nav).lookup "origin" =
      (if nav.Origin.length = 2 then some [searchbox.formatFloatArray std nav.Origin]
        else q.lookup "origin") ∧
    (searchbox.addNavigationParams std q nav).lookup "navigation_profile" =
      (if nav.Profile ≠ "" then some [nav.Profile] else q.lookup "navigation_profile") ∧
    (∀ key, key ≠ "sar_type" → key ≠ "route" → key ≠ "time_deviation" →
      (searchbox.addSARParams std q sar).lookup key = q.lookup key) ∧
    (searchbox.addSARParams std q sar).lookup "sar_type" =
      (if sar.Type_ ≠ "" then some [sar.Type_] else q.lookup "sar_type") ∧
    (searchbox.addSARParams std q sar).lookup "route" =
      (if sar.Route.length > 0 then some [searchbox.encodeRoute std sar.Route]
        else q.lookup "route") ∧
    (searchbox.addSARParams std q sar).lookup "time_deviation" =
      (match sar.TimeDeviation with
        | some t => some [Itoa t]
        | none => q.lookup "time_deviation") ∧
    (∀ key ∈ ["access_token", "proximity", "bbox", "limit"],
      (searchbox.addNavigationParams std q nav).lookup key = q.lookup key ∧
      (searchbox.addSARParams std q sar).lookup key = q.lookup key) := by
  have hnav : ∀ key, key ≠ "eta_type" → key ≠ "origin" → key ≠ "navigation_profile" →
      (searchbox.addNavigationParams std q nav).lookup key = q.lookup key := by
    intro key h1 h2 h3
    rw [lookup_addNavigationParams]
    simp [Ne.symm h1, Ne.symm h2, Ne.symm h3]
  have hsar : ∀ key, key ≠ "sar_type" → key ≠ "route" → key ≠ "time_deviation" →
      (searchbox.addSARParams std q sar).lookup key = q.lookup key := by
    intro key h1 h2 h3
    rw [lookup_addSARParams]
    simp [Ne.symm h1, Ne.symm h2, Ne.symm h3]
  refine ⟨hnav, ?_, ?_, ?_, hsar, ?_, ?_, ?_, ?_⟩
  · rw [lookup_addNavigationParams]; simp
  · rw [lookup_addNavigationParams]; simp
  · rw [lookup_addNavigationParams]; simp
  · rw [lookup_addSARParams]; simp
  · rw [lookup_addSARParams]; simp
  · rw [lookup_addSARParams]
    cases sar.TimeDeviation <;> simp
  · intro key hk
    simp only [List.mem_cons, List.mem_singleton, List.not_mem_nil, or_false] at hk
    rcases hk with rfl | rfl | rfl | rfl <;>
      exact ⟨hnav _ (by decide) (by decide) (by decide),
        hsar _ (by decide) (by decide) (by decide)⟩

/-- C38 (witness): on a map that holds `access_token` and `limit`, navigation options
with only a profile and search-along-route options with only a type leave `limit` as it
was. -/
theorem option_encoders_frame_witness :
    (searchbox.addNavigationParams goStrconv [("access_token", ["t"]), ("limit", ["5"])]
        { Profile := "driving" }).lookup "limit" =
      Values.lookup [("access_token", ["t"]), ("limit", ["5"])] "limit" ∧
    (searchbox.addSARParams goStrconv [("access_token", ["t"]), ("limit", ["5"])]
        { Type_ := "isochrone" }).lookup "limit" =
      Values.lookup [("access_token", ["t"]), ("limit", ["5"])] "limit" :=
  ⟨(option_encoders_frame goStrconv [("access_token", ["t"]), ("limit", ["5"])]
      { Profile := "driving" } { Type_ := "isochrone" }).1 "limit"
      (by decide) (by decide) (by decide),
   (option_encoders_frame goStrconv [("access_token", ["t"]), ("limit", ["5"])]
      { Profile := "driving" } { Type_ := "isochrone" }).2.2.2.2.1 "limit"
      (by decide) (by decide) (by decide)⟩

/-! ## The segments of a route -/

/-- C39: `encodeRoute` joins with `;` one segment per point of the route, in order: the
`%f` texts of the first two elements of the point with a comma between them when the
point has at least two elements, and the empty text otherwise. So a route of `n > 0`
points gives `n - 1` semicolons (the `%f` texts of the elements used holding none), a
point of fewer than two elements gives an empty segment, cutting every point down to its
first two elements changes nothing, and `validateCategorySearchRequest` accepts a route
made of such a point. -/
theorem encodeRoute_segments (std : Strconv) (route : List (List Float64)) :
    searchbox.encodeRoute std route =
      Join (route.map (fun p => match p with
        | c0 :: c1 :: _ => std.verbF c0 ++ "," ++ std.verbF c1
        | _ => "")) ";" ∧
    (route.map (fun p => match p with
        | c0 :: c1 :: _ => std.verbF c0 ++ "," ++ std.verbF c1
        | _ => "")).length = route.length ∧
    ((∀ p ∈ route, ∀ x ∈ p.take 2, ';' ∉ (std.verbF x).data) →
      (searchbox.encodeRoute std route).data.count ';' = route.length - 1) ∧
    searchbox.encodeRoute std (route.map (List.take 2)) = searchbox.encodeRoute std route ∧
    (∀ p : List Float64, p.length < 2 → searchbox.encodeRoute std [p] = "") ∧
    (∀ (a b c d : Float64) (p : List Float64), p.length < 2 →
      searchbox.encodeRoute std [[a, b], p, [c, d]] =
        std.verbF a ++ "," ++ std.verbF b ++ ";" ++
          ("" ++ ";" ++ (std.verbF c ++ "," ++ std.verbF d))) ∧
    searchbox.encodeRoute goStrconv [[fNeg122_4, f37_8, f37_7], [fNeg122_5], []] =
      "-122.400000,37.800000;;" ∧
    searchbox.validateCategorySearchRequest
      { CategoryID := "cafe", SAR := some { Route := [[]] } } = none := by
  refine ⟨encodeRoute_eq_Join std route, by rw [List.length_map], ?_, ?_, ?_, ?_,
    by decide, by decide⟩
  · intro hv
    rw [encodeRoute_eq_Join]
    have hs : (";" : String) = String.singleton ';' := rfl
    rw [hs, Join_count, List.length_map]
    intro a ha
    obtain ⟨p, hp, rfl⟩ := List.mem_map.1 ha
    rcases p with _ | ⟨c0, _ | ⟨c1, rest⟩⟩
    · simp
    · simp
    · simp only [String.data_append, List.mem_append, not_or]
      exact ⟨⟨hv _ hp c0 (by simp), by decide⟩, hv _ hp c1 (by simp)⟩
  · rw [encodeRoute_eq_Join, encodeRoute_eq_Join, List.map_map]
    congr 1
    apply List.map_congr_left
    intro p _
    rcases p with _ | ⟨c0, _ | ⟨c1, rest⟩⟩ <;> rfl
  · intro p hp
    rw [encodeRoute_eq_Join]
    rcases p with _ | ⟨c0, _ | ⟨c1, rest⟩⟩
    · rfl
    · rfl
    · simp at hp; omega
  · intro a b c d p hp
    rw [encodeRoute_eq_Join]
    rcases p with _ | ⟨c0, _ | ⟨c1, rest⟩⟩
    · rfl
    · rfl
    · simp at hp; omega

/-- C39 (witness): with the `%f` verb of Go, which writes no semicolon into the four
sample values, a route of three points has two semicolons. -/
theorem encodeRoute_segments_witness :
    (searchbox.encodeRoute goStrconv [[fNeg122_4, f37_8], [], [fNeg122_5, f37_7]]).data.count
      ';' = [[fNeg122_4, f37_8], [], [fNeg122_5, f37_7]].length - 1 :=
  (encodeRoute_segments goStrconv [[fNeg122_4, f37_8], [], [fNeg122_5, f37_7]]).2.2.1
    (by decide)

/-! ## Options -/

/-- The function `lastBaseURL` finds the last `WithBaseURL` of a list. -/
theorem lastBaseURL_append (pre post : List OptionCall) (u : String)
    (hpost : ∀ o ∈ post, ∃ h, o = OptionCall.WithHTTPClient h) :
    lastBaseURL (pre ++ OptionCall.WithBaseURL u :: post) = some u := by
  have hp : lastBaseURL post = none := by
    induction post with
    | nil => rfl
    | cons o rest ih =>
      obtain ⟨h, rfl⟩ := hpost _ (List.mem_cons_self _ _)
      simp only [lastBaseURL]
      exact ih (fun o ho => hpost o (List.mem_cons_of_mem _ ho))
  induction pre with
  | nil => simp [lastBaseURL, hp, Option.orElse]
  | cons o rest ih =>
    cases o with
    | WithHTTPClient h => simpa [lastBaseURL] using ih
    | WithBaseURL v => simp [lastBaseURL, ih, Option.orElse]

/-- The function `lastHTTPClient` finds the last `WithHTTPClient` of a list. -/
theorem lastHTTPClient_append (pre post : List OptionCall)
    (e : Option (http.Request → Except GoError http.Response))
    (hpost : ∀ o ∈ post, ∃ u, o = OptionCall.WithBaseURL u) :
    lastHTTPClient (pre ++ OptionCall.WithHTTPClient e :: post) = some e := by
  have hp : lastHTTPClient post = none := by
    induction post with
    | nil => rfl
    | cons o rest ih =>
      obtain ⟨u, rfl⟩ := hpost _ (List.mem_cons_self _ _)
      simp only [lastHTTPClient]
      exact ih (fun o ho => hpost o (List.mem_cons_of_mem _ ho))
  induction pre with
  | nil => simp [lastHTTPClient, hp, Option.orElse]
  | cons o rest ih =>
    cases o with
    | WithHTTPClient h => simp [lastHTTPClient, ih, Option.orElse]
    | WithBaseURL v => simpa [lastHTTPClient] using ih

/-- C34: with a non-empty token and any list of calls of `WithHTTPClient` and
`WithBaseURL`, `NewClient` returns a client whose `BaseURL()` is the argument of the last
`WithBaseURL` of the list, or the default when there is none, whose `HTTPClient()` is the
argument of the last `WithHTTPClient`, or `http.DefaultClient` when there is none, and
whose token is the token given. Each option changes its own field and no other. -/
theorem NewClient_options (DefaultClient : http.Request → Except GoError http.Response)
    (token : String) (calls : List OptionCall) (h : token ≠ "") :
    (∃ c, NewClient DefaultClient token (calls.map fun o => some o.toOption) = .ok c ∧
      c.BaseURL = (lastBaseURL calls).getD "https://api.mapbox.com" ∧
      c.HTTPClient = (lastHTTPClient calls).getD (some DefaultClient) ∧
      c.token = token) ∧
    (∀ (pre post : List OptionCall) (u : String),
      (∀ o ∈ post, ∃ e, o = OptionCall.WithHTTPClient e) →
      lastBaseURL (pre ++ OptionCall.WithBaseURL u :: post) = some u) ∧
    (∀ (pre post : List OptionCall) (e : Option (http.Request → Except GoError http.Response)),
      (∀ o ∈ post, ∃ u, o = OptionCall.WithBaseURL u) →
      lastHTTPClient (pre ++ OptionCall.WithHTTPClient e :: post) = some e) ∧
    (∀ es : List (Option (http.Request → Except GoError http.Response)),
      lastBaseURL (es.map OptionCall.WithHTTPClient) = none) ∧
    (∀ us : List String, lastHTTPClient (us.map OptionCall.WithBaseURL) = none) ∧
    (∀ (c : Client) (u : String), ∃ c', WithBaseURL u c = .ok c' ∧ c'.baseURL = u ∧
      c'.token = c.token ∧ c'.httpClient = c.httpClient ∧ c'.http = c.http) ∧
    (∀ (c : Client) (e : Option (http.Request → Except GoError http.Response)),
      ∃ c', WithHTTPClient e c = .ok c' ∧ c'.httpClient = e ∧ c'.token = c.token ∧
        c'.baseURL = c.baseURL ∧ c'.http = c.http) := by
  refine ⟨?_, lastBaseURL_append, lastHTTPClient_append, ?_, ?_,
    fun c u => ⟨_, rfl, rfl, rfl, rfl, rfl⟩, fun c e => ⟨_, rfl, rfl, rfl, rfl, rfl⟩⟩
  · obtain ⟨c, hc, h1, h2, h3, _⟩ := foldlM_optionCalls calls
      { token := token, baseURL := DefaultBaseURL, httpClient := some DefaultClient,
        http := none }
    exact ⟨{ c with http := some (http.New DefaultClient c.baseURL c.httpClient) },
      by rw [NewClient_of_token _ _ _ h, hc], h1, h2, h3⟩
  · intro es
    induction es with
    | nil => rfl
    | cons e rest ih => simpa [lastBaseURL] using ih
  · intro us
    induction us with
    | nil => rfl
    | cons u rest ih => simpa [lastHTTPClient] using ih

/-- C34 (witness): two base URLs with an engine between them. -/
theorem NewClient_options_witness :
    ∃ c, NewClient echoEngine "pk.test"
        ([OptionCall.WithBaseURL "http://a", OptionCall.WithHTTPClient (some refusingEngine),
          OptionCall.WithBaseURL "http://b"].map fun o => some o.toOption) = .ok c ∧
      c.BaseURL = (lastBaseURL [OptionCall.WithBaseURL "http://a",
        OptionCall.WithHTTPClient (some refusingEngine),
        OptionCall.WithBaseURL "http://b"]).getD "https://api.mapbox.com" ∧
      c.HTTPClient = (lastHTTPClient [OptionCall.WithBaseURL "http://a",
        OptionCall.WithHTTPClient (some refusingEngine),
        OptionCall.WithBaseURL "http://b"]).getD (some echoEngine) ∧
      c.token = "pk.test" :=
  (NewClient_options echoEngine "pk.test" [OptionCall.WithBaseURL "http://a",
    OptionCall.WithHTTPClient (some refusingEngine), OptionCall.WithBaseURL "http://b"]
    (by decide)).1

/-! ## The engine of the transport -/

/-- The transport `NewClient` creates runs on the engine held by the client, and on
`http.DefaultClient` when the client holds none. -/
theorem NewClient_transport (DefaultClient : http.Request → Except GoError http.Response)
    (token : String) (opts : List (Option ClientOption)) (c : Client)
    (h : NewClient DefaultClient token opts = .ok c) :
    c.http = some ⟨c.baseURL, c.httpClient.getD DefaultClient⟩ ∧
    c.Geocoding = some ⟨c.token, ⟨c.baseURL, c.httpClient.getD DefaultClient⟩⟩ ∧
    c.SearchBox = some ⟨c.token, ⟨c.baseURL, c.httpClient.getD DefaultClient⟩⟩ := by
  by_cases ht : token = ""
  · unfold NewClient at h
    simp only [ht, if_true] at h
    cases h
  · rw [NewClient_of_token _ _ _ ht] at h
    rcases hf : (opts.foldlM (fun c opt =>
        match opt with
        | none =>
          Except.error "runtime error: invalid memory address or nil pointer dereference"
        | some f => f c)
        ({ token := token, baseURL := DefaultBaseURL, httpClient := some DefaultClient,
           http := none } : Client) : Except String Client) with msg | c1
    · rw [hf] at h; cases h
    · rw [hf] at h
      simp only [Except.ok.injEq] at h
      subst h
      refine ⟨?_, ?_, ?_⟩ <;>
      · simp only [Client.Geocoding, Client.SearchBox, geocoding.New, searchbox.New, http.New]
        cases c1.httpClient <;> rfl

/-- C40 (failing input): after `WithHTTPClient(nil)` the method `HTTPClient()` returns
nil, while the transport of the client, and so the services made from it, run on
`http.DefaultClient`: with the echoing engine as `http.DefaultClient`, a forward geocoding
request of the client's service is answered by that engine. In general the engine of the
transport is the one `HTTPClient()` reports when that is not nil, and
`http.DefaultClient` when it is nil. -/
theorem HTTPClient_nil_differs_from_transport :
    (∃ c, NewClient echoEngine "pk.test" [some (WithHTTPClient none)] = .ok c ∧
      c.HTTPClient = none ∧
      c.http = some ⟨"https://api.mapbox.com", echoEngine⟩ ∧
      (c.Geocoding.map fun s =>
          geocoding.Service.Forward goStrconv sampleNet "" s { Query := "Roma" }) =
        some (.ok "GET https://api.mapbox.com/search/geocode/v6/forward limit= body=")) ∧
    (∀ (DefaultClient : http.Request → Except GoError http.Response) (token : String)
        (opts : List (Option ClientOption)),
      (∃ msg, NewClient DefaultClient token opts = .error msg) ∨
      ∃ c, NewClient DefaultClient token opts = .ok c ∧
        c.http = some ⟨c.BaseURL, c.HTTPClient.getD DefaultClient⟩ ∧
        c.Geocoding = some ⟨c.token, ⟨c.BaseURL, c.HTTPClient.getD DefaultClient⟩⟩ ∧
        c.SearchBox = some ⟨c.token, ⟨c.BaseURL, c.HTTPClient.getD DefaultClient⟩⟩ ∧
        (∀ e, c.HTTPClient = some e → c.http = some ⟨c.BaseURL, e⟩) ∧
        (c.HTTPClient = none → c.http = some ⟨c.BaseURL, DefaultClient⟩)) ∧
    (∀ (DefaultClient : http.Request → Except GoError http.Response) (token : String)
        (opts : List (Option ClientOption)),
      token ≠ "" → (∀ o ∈ opts, ∃ f, o = some f ∧ ∀ c, ∃ c', f c = .ok c') →
      ∃ c, NewClient DefaultClient token opts = .ok c) := by
  refine ⟨⟨_, rfl, rfl, rfl, rfl⟩, ?_, ?_⟩
  · intro D token opts
    rcases hr : NewClient D token opts with msg | c
    · exact Or.inl ⟨msg, rfl⟩
    · obtain ⟨h1, h2, h3⟩ := NewClient_transport D token opts c hr
      refine Or.inr ⟨c, rfl, h1, h2, h3, ?_, ?_⟩
      · intro e he
        have he' : c.httpClient = some e := he
        rw [h1, he']; rfl
      · intro he
        have he' : c.httpClient = none := he
        rw [h1, he']; rfl
  · intro D token opts h hok
    obtain ⟨c, hc⟩ := foldlM_options_ok opts hok
      { token := token, baseURL := DefaultBaseURL, httpClient := some D, http := none }
    exact ⟨{ c with http := some (http.New D c.baseURL c.httpClient) },
      by rw [NewClient_of_token _ _ _ h, hc]⟩

end Mapbox
